import Mathlib

/-!
# Club dashboard controller (`static/js/dash.js`)

A shallow embedding of the dashboard controller.  Every JavaScript function that a
property below talks about is rendered as a Lean function of the same name.

Conventions of the embedding:

* The browser is modelled by explicit state passing.  A function that touches the
  page takes the part of the page it reads and returns the part it writes.
* Observable actions (`showToast`, `fetch`, calls of helpers defined outside the
  file) are collected, in program order, in a list of `Effect`s.  `console.*` calls
  are not recorded.
* A promise chain is cut at the network boundary: the synchronous part of a function
  returns the request it issues, and the continuation is a second function taking the
  parsed response (or the transport failure) as an argument.
* JavaScript strings are Lean strings; `.length` is `jsLength` (UTF-16 code units).
  Where the controller cuts a string by position (`substring`), the string is the list
  of its code units (`CodeUnits`), so that a cut inside a surrogate pair is expressible.
* JavaScript numbers are `JsNumber`: `NaN`, the two infinities, or a rational (every
  finite double is one).  Only comparisons and truthiness are used on them; decimal
  formatting (`toFixed`, `toLocaleDateString`) is a parameter of the model.
* A date text of the form `YYYY-MM-DD` is read as UTC midnight of its date and its
  calendar fields are taken in local time; the time zone is a field of `Host`.
-/

namespace Dash

/-! ## JavaScript values -/

/-- Numbers as the controller observes them: it only compares them and tests truthiness. -/
inductive JsNumber where
  | nan
  | negInf
  | fin (q : ℚ)
  | posInf
  deriving DecidableEq

namespace JsNumber

/-- Truthiness of a number: `NaN` and zero are falsy. -/
def truthy : JsNumber → Bool
  | nan => false
  | fin q => decide (q ≠ 0)
  | _ => true

/-- The builtin `isNaN` on a number. -/
def isNaN : JsNumber → Bool
  | nan => true
  | _ => false

/-- The comparison `a > b`; any comparison with `NaN` is false. -/
def gt : JsNumber → JsNumber → Bool
  | fin a, fin b => decide (b < a)
  | fin _, negInf => true
  | posInf, fin _ => true
  | posInf, negInf => true
  | _, _ => false

/-- The comparison `a <= b`; any comparison with `NaN` is false. -/
def le : JsNumber → JsNumber → Bool
  | fin a, fin b => decide (a ≤ b)
  | negInf, negInf => true
  | negInf, fin _ => true
  | negInf, posInf => true
  | fin _, posInf => true
  | posInf, posInf => true
  | _, _ => false

/-- The number literal `0`. -/
def zero : JsNumber := fin 0

end JsNumber

/-- JSON values: what `JSON.stringify` writes and `JSON.parse` reads back. -/
inductive JsVal where
  | null
  | bool (b : Bool)
  | num (n : JsNumber)
  | str (s : String)
  | arr (items : List JsVal)
  | obj (fields : List (String × JsVal))

/-! ## JavaScript strings -/

/-- White space and line terminators, the code points `String.prototype.trim` strips. -/
def isJsWhiteSpace (c : Char) : Bool :=
  let n := c.toNat
  n == 0x09 || n == 0x0A || n == 0x0B || n == 0x0C || n == 0x0D || n == 0x20 ||
  n == 0xA0 || n == 0x1680 || (0x2000 ≤ n && n ≤ 0x200A) || n == 0x2028 ||
  n == 0x2029 || n == 0x202F || n == 0x205F || n == 0x3000 || n == 0xFEFF

/-- The method `trim` on character lists. -/
def trimChars (cs : List Char) : List Char :=
  ((cs.dropWhile isJsWhiteSpace).reverse.dropWhile isJsWhiteSpace).reverse

/-- The method `String.prototype.trim`. -/
def jsTrim (s : String) : String := ⟨trimChars s.data⟩

/-- Number of UTF-16 code units of one code point. -/
def utf16Units (c : Char) : Nat := if c.toNat < 0x10000 then 1 else 2

/-- The property `.length` of a string: its number of UTF-16 code units. -/
def jsLength (s : String) : Nat := (s.data.map utf16Units).sum

/-- Truthiness of a string: only the empty string is falsy. -/
def truthy (s : String) : Bool := s != ""

/-- The method `startsWith`. -/
def jsStartsWith (s start : String) : Bool := start.data.isPrefixOf s.data

/-- Whether `sub` occurs in `cs` at some position. -/
def includesChars (sub : List Char) : List Char → Bool
  | [] => sub.isEmpty
  | c :: cs => sub.isPrefixOf (c :: cs) || includesChars sub cs

/-- The method `includes`. -/
def jsIncludes (s sub : String) : Bool := includesChars sub.data s.data

/-- The expression `a || b` on strings. -/
def orElse (a b : String) : String := if truthy a then a else b

/-- The expression `a || b` where `a` may be `undefined`. -/
def orElseOpt (a : Option String) (b : String) : String :=
  match a with
  | some s => orElse s b
  | none => b

/-! ## Page-global state and observable effects -/

/-- The host-provided global `window.clubData`. -/
structure ClubData where
  isLeader : Bool
  balance : Option JsNumber
  name : String

/-- Process-wide state read by every function of the controller. -/
structure Globals where
  clubId : String
  joinCode : String
  clubData : Option ClubData
  pathname : String

/-- Body of a request. -/
inductive Body where
  | none
  | json (v : JsVal)
  | formData (fields : List (String × String))

/-- The seven section loaders. -/
inductive Loader where
  | loadPosts
  | loadAssignments
  | loadMeetings
  | loadProjects
  | loadResources
  | loadClubProjectSubmissions
  | loadPurchaseRequests
  deriving DecidableEq

/-- Observable actions of the controller, in program order: a toast, a network call,
a call of a helper defined outside the file, or a call of a section loader. -/
inductive Effect where
  | toast (kind : String) (message : Option String) (title : Option String)
  | fetch (method : String) (url : String) (body : Body)
  | external (name : String)
  | load (loader : Loader)

/-- The host function `showToast(kind, message, title)`. -/
def showToast (kind message title : String) : Effect :=
  .toast kind (some message) (some title)

/-- Whether an effect is a network call. -/
def Effect.isFetch : Effect → Bool
  | .fetch _ _ _ => true
  | _ => false

/-- The template literal for a club-scoped endpoint. -/
def clubUrl (g : Globals) (rest : String) : String := "/api/clubs/" ++ g.clubId ++ rest

/-! ## Step-up email verification flow -/

/-- The deferred action stored on the modal: the object literal with `function` and `params`. -/
structure Callback where
  function : String
  params : JsVal

/-- State of `#emailVerificationModal` and of the elements inside it.  The two data
attributes hold what was last written to them; `JSON.stringify` followed by
`JSON.parse` is the identity on `JsVal`, so `callback` holds the object itself. -/
structure VerificationModal where
  display : String
  emailDisplay : String
  codeInput : String
  errorText : String
  errorDisplay : String
  successText : String
  successDisplay : String
  callback : Option Callback
  action : String

/-- The modal as `createEmailVerificationModal` inserts it. -/
def createEmailVerificationModal : VerificationModal where
  display := "none"
  emailDisplay := ""
  codeInput := ""
  errorText := ""
  errorDisplay := "none"
  successText := ""
  successDisplay := "none"
  callback := none
  action := ""

/-- Payload of the send-code and verify requests. -/
structure VerifyResponse where
  success : Bool
  email_verified : Bool
  message : Option String
  error : Option String

/-- Payload answered to a protected action. -/
structure ActionResponse where
  requires_verification : Bool
  verification_email : String
  success : Bool
  message : Option String
  error : Option String

/-- What a request comes back with: a transport or parse failure, or a status and a payload. -/
inductive Outcome (α : Type) where
  | failure
  | response (status : Nat) (data : α)

/-- Function `sendVerificationCode(email)`: the request it issues. -/
def sendVerificationCode (g : Globals) (m : VerificationModal) (email : String) : Effect :=
  let action := m.action
  let (endpoint, step) :=
    if jsIncludes g.pathname "/verify-leader" then ("/verify-leader", "resend_code")
    else if action == "settings" then (clubUrl g "/settings", "send_verification")
    else if action == "co-leader" then (clubUrl g "/co-leader", "send_verification")
    else if action == "make-co-leader" then (clubUrl g "/make-co-leader", "send_verification")
    else if action == "remove-co-leader" then (clubUrl g "/remove-co-leader", "send_verification")
    else (clubUrl g "/settings", "send_verification")
  .fetch "PUT" endpoint (.json (.obj [("step", .str step), ("email", .str email)]))

/-- Function `showEmailVerificationModal(email, action, callback)`. -/
def showEmailVerificationModal (g : Globals) (m : VerificationModal)
    (email action : String) (callback : Callback) : VerificationModal × List Effect :=
  let m1 : VerificationModal :=
    { m with
      emailDisplay := email
      codeInput := ""
      errorDisplay := "none"
      errorText := ""
      successDisplay := "none"
      successText := ""
      display := "block"
      callback := some callback
      action := action }
  (m1, [sendVerificationCode g m1 email])

/-- Function `resendVerificationCode()`. -/
def resendVerificationCode (g : Globals) (m : VerificationModal) : List Effect :=
  [sendVerificationCode g m m.emailDisplay]

/-- Function `closeEmailVerificationModal()`. -/
def closeEmailVerificationModal (m : VerificationModal) : VerificationModal :=
  { m with display := "none" }

/-- Function `showVerificationError(message)`. -/
def showVerificationError (m : VerificationModal) (message : String) : VerificationModal :=
  { m with errorText := message, errorDisplay := "block", successDisplay := "none" }

/-- Function `showVerificationSuccess(message)`; an absent message clears the text. -/
def showVerificationSuccess (m : VerificationModal) (message : Option String) :
    VerificationModal :=
  { m with successText := message.getD "", successDisplay := "block", errorDisplay := "none" }

/-- Function `verifyEmailCode()` up to the request: local checks, then the verify call. -/
def verifyEmailCode (g : Globals) (m : VerificationModal) : VerificationModal × List Effect :=
  let action := m.action
  let code := jsTrim m.codeInput
  if !truthy code then
    (showVerificationError m "Please enter the verification code", [])
  else if jsLength code != 5 then
    (showVerificationError m "Please enter a valid 5-digit code", [])
  else
    let endpoint :=
      if jsIncludes g.pathname "/verify-leader" then "/verify-leader"
      else if action == "settings" then clubUrl g "/settings"
      else if action == "co-leader" then clubUrl g "/co-leader"
      else if action == "make-co-leader" then clubUrl g "/make-co-leader"
      else if action == "remove-co-leader" then clubUrl g "/remove-co-leader"
      else clubUrl g "/settings"
    (m, [.fetch "PUT" endpoint
      (.json (.obj [("step", .str "verify_email"), ("verification_code", .str code)]))])

/-- A call of one of the three functions whose name the flow stores for replay. -/
inductive Call where
  | updateClubSettings (params : JsVal) (emailVerified : Bool)
  | makeCoLeader (userId : JsVal) (emailVerified : Bool)
  | removeCoLeader (params : JsVal) (emailVerified : Bool)

/-- The call `window[name](arg, flag)`, for the names the flow stores. -/
def windowCall (name : String) (arg : JsVal) (flag : Bool) : Option Call :=
  if name == "updateClubSettings" then some (.updateClubSettings arg flag)
  else if name == "makeCoLeader" then some (.makeCoLeader arg flag)
  else if name == "removeCoLeader" then some (.removeCoLeader arg flag)
  else none

/-- Continuation of `verifyEmailCode()` on the verify response, the 1500 ms timer
included: the modal afterwards and the call the timer makes, if any. -/
def verifyEmailCodeResponse (m : VerificationModal) (r : Outcome VerifyResponse) :
    VerificationModal × Option Call :=
  match r with
  | .failure => (showVerificationError m "Verification failed", none)
  | .response _ data =>
    if data.success && data.email_verified then
      let m1 := closeEmailVerificationModal (showVerificationSuccess m data.message)
      match m1.callback with
      | some callback => (m1, windowCall callback.function callback.params true)
      | none => (m1, none)
    else
      (showVerificationError m (orElseOpt data.error "Verification failed"), none)

/-- Function `makeCoLeader(userId, emailVerified)` up to the request; `confirmed` is the
answer of the `confirm` dialog, asked only when `emailVerified` is false. -/
def makeCoLeader (g : Globals) (confirmed : Bool) (userId : JsVal) (emailVerified : Bool) :
    List Effect :=
  if !emailVerified && !confirmed then []
  else
    [.fetch "POST" (clubUrl g "/make-co-leader")
      (.json (.obj [("user_id", userId), ("email_verified", .bool emailVerified)]))]

/-- Continuation of `makeCoLeader` on its response. -/
def makeCoLeaderResponse (g : Globals) (m : VerificationModal) (userId : JsVal)
    (emailVerified : Bool) (r : Outcome ActionResponse) : VerificationModal × List Effect :=
  match r with
  | .failure => (m, [.toast "error" (some "Failed to promote user") none])
  | .response _ data =>
    if data.requires_verification && !emailVerified then
      showEmailVerificationModal g m data.verification_email "make-co-leader"
        ⟨"makeCoLeader", .arr [userId]⟩
    else if data.success then
      (m, [.toast "success" data.message none, .external "loadMembersTab"])
    else
      (m, [.toast "error" (some (orElseOpt data.error "Failed to promote user")) none])

/-- Function `removeCoLeader(params, emailVerified)`, the later of the two definitions of
that name (the one in force), up to the request. -/
def removeCoLeader (g : Globals) (confirmed : Bool) (_params : JsVal) (emailVerified : Bool) :
    List Effect :=
  if !emailVerified && !confirmed then []
  else
    [.fetch "POST" (clubUrl g "/remove-co-leader")
      (.json (.obj [("email_verified", .bool emailVerified)]))]

/-- Continuation of `removeCoLeader` on its response. -/
def removeCoLeaderResponse (g : Globals) (m : VerificationModal)
    (emailVerified : Bool) (r : Outcome ActionResponse) : VerificationModal × List Effect :=
  match r with
  | .failure => (m, [.toast "error" (some "Failed to remove co-leader") none])
  | .response _ data =>
    if data.requires_verification && !emailVerified then
      showEmailVerificationModal g m data.verification_email "remove-co-leader"
        ⟨"removeCoLeader", .null⟩
    else if data.success then
      (m, [.toast "success" data.message none, .external "loadMembersTab"])
    else
      (m, [.toast "error" (some (orElseOpt data.error "Failed to remove co-leader")) none])

/-! ## Club settings -/

/-- The settings form, its submit button, and the two places of the page header that
show the club name and location (absent when the page has no such element). -/
structure SettingsPage where
  clubName : String
  clubDescription : String
  clubLocation : String
  submitDisabled : Bool
  submitHtml : String
  clubHeader : Option String
  locationHtml : Option String

/-- Function `updateClubSettings(params, emailVerified)` up to the request. -/
def updateClubSettings (g : Globals) (p : SettingsPage) (_params : JsVal)
    (emailVerified : Bool) : SettingsPage × List Effect :=
  if !truthy g.clubId then
    (p, [showToast "error" "Cannot update settings: Club ID is missing." "Error"])
  else
    let clubName := p.clubName
    let clubDescription := p.clubDescription
    let clubLocation := p.clubLocation
    if !truthy (jsTrim clubName) then
      (p, [showToast "error" "Club name is required" "Validation Error"])
    else
      let requestData : List (String × JsVal) :=
        [("name", .str (jsTrim clubName)),
         ("description", .str (jsTrim clubDescription)),
         ("location", .str (jsTrim clubLocation))]
      let requestData :=
        if emailVerified then requestData ++ [("email_verified", .bool true)] else requestData
      ({ p with
          submitDisabled := true
          submitHtml := "<i class=\"fas fa-spinner fa-spin\"></i> Saving..." },
       [.fetch "PUT" (clubUrl g "/settings") (.json (.obj requestData))])

/-- The page header after a successful settings update. -/
def settingsApplied (p : SettingsPage) (clubName clubLocation : String) : SettingsPage :=
  { p with
    clubHeader := p.clubHeader.map (fun _ => jsTrim clubName)
    locationHtml :=
      match p.locationHtml with
      | some old =>
        if truthy (jsTrim clubLocation) then
          some ("<i class=\"fas fa-map-marker-alt\"></i> " ++ jsTrim clubLocation)
        else some old
      | none => none }

/-- Continuation of `updateClubSettings` on its response.  `originalText`, `clubName`
and `clubLocation` are the values captured when the request was issued. -/
def updateClubSettingsResponse (g : Globals) (m : VerificationModal) (p : SettingsPage)
    (originalText clubName clubLocation : String) (r : Outcome ActionResponse) :
    SettingsPage × VerificationModal × List Effect :=
  let restored : SettingsPage := { p with submitDisabled := false, submitHtml := originalText }
  match r with
  | .failure => (restored, m, [showToast "error" "Error updating club settings" "Error"])
  | .response status data =>
    if status == 403 then
      if data.requires_verification then
        let (m1, es) := showEmailVerificationModal g m data.verification_email "settings"
          ⟨"updateClubSettings", .null⟩
        (restored, m1, es)
      else
        (restored, m, [showToast "error" (orElseOpt data.error "Access denied") "Error"])
    else if data.success then
      (settingsApplied restored clubName clubLocation, m,
        [showToast "success"
          (orElseOpt data.message "Club settings updated successfully!") "Updated"])
    else if truthy (data.error.getD "") then
      (restored, m, [showToast "error" (data.error.getD "") "Error"])
    else
      (settingsApplied restored clubName clubLocation, m,
        [showToast "success" "Club settings updated successfully!" "Updated"])

/-- Running a replayed call: the request it issues.  The `confirm` dialog is skipped
because the calls the flow makes carry `emailVerified = true`; `confirmed` is its answer
otherwise. -/
def runCall (g : Globals) (p : SettingsPage) (confirmed : Bool) : Call → List Effect
  | .updateClubSettings params emailVerified => (updateClubSettings g p params emailVerified).2
  | .makeCoLeader userId emailVerified => makeCoLeader g confirmed userId emailVerified
  | .removeCoLeader params emailVerified => removeCoLeader g confirmed params emailVerified

/-! ## Purchase requests -/

/-- A calendar date: a year, a month (1 to 12) and a day of the month. -/
structure CivilDate where
  year : Int
  month : Nat
  day : Nat
  deriving DecidableEq

/-- Host facilities the controller calls but does not define: number and date
formatting, upper-casing, the current month and year, and the time zone.
`timezoneOffset date` is the value of `getTimezoneOffset()` at UTC midnight of the date:
the minutes local time is behind UTC (less than a day either way).  `getMonth` and
`getFullYear` are the local calendar fields of `new Date(text)` for a text that is not of
the date-only form `YYYY-MM-DD` (`none` for an invalid date); for a text of that form
the fields are computed, see `dateGetMonth`. -/
structure Host where
  toFixed2 : JsNumber → String
  numberToString : JsNumber → String
  toUpperCase : String → String
  toLocaleDateString : String → String
  getMonth : String → Option Nat
  getFullYear : String → Option Int
  thisMonth : Nat
  thisYear : Int
  timezoneOffset : CivilDate → Int

/-- The fields of the purchase request form.  `purchaseAmount` is the result of
`parseFloat` on the amount input. -/
structure PurchaseForm where
  leaderFirstName : String
  leaderLastName : String
  leaderEmail : String
  purchaseType : String
  purchaseDescription : String
  purchaseReason : String
  fulfillmentMethod : String
  purchaseAmount : JsNumber

/-- The expression `parseFloat(window.clubData?.balance || 0)`: a missing object, a
missing balance and a falsy balance all give `0`. -/
def clubBalance (g : Globals) : JsNumber :=
  match g.clubData with
  | none => .zero
  | some cd =>
    match cd.balance with
    | none => .zero
    | some b => if b.truthy then b else .zero

/-- A number as `JSON.stringify` writes it: `NaN` and the infinities become `null`. -/
def jsonNumber : JsNumber → JsVal
  | .fin q => .num (.fin q)
  | _ => .null

/-- The list `missingFields` of `submitPurchaseRequest`. -/
def purchaseMissingFields (f : PurchaseForm) : List String :=
  (if !truthy f.purchaseType then ["purchase_type"] else []) ++
  (if !truthy f.purchaseDescription then ["description"] else []) ++
  (if !truthy f.purchaseReason then ["reason"] else []) ++
  (if !truthy f.fulfillmentMethod then ["fulfillment_method"] else []) ++
  (if !f.purchaseAmount.truthy then ["amount"] else [])

/-- Function `submitPurchaseRequest()` up to the request. -/
def submitPurchaseRequest (h : Host) (g : Globals) (f : PurchaseForm) : List Effect :=
  let amount := f.purchaseAmount
  let balance := clubBalance g
  let formData : List (String × JsVal) :=
    [("leader_first_name", .str f.leaderFirstName),
     ("leader_last_name", .str f.leaderLastName),
     ("leader_email", .str f.leaderEmail),
     ("purchase_type", .str f.purchaseType),
     ("description", .str f.purchaseDescription),
     ("reason", .str f.purchaseReason),
     ("fulfillment_method", .str f.fulfillmentMethod),
     ("amount", jsonNumber amount),
     ("club_name", .str (match g.clubData with | some cd => cd.name | none => ""))]
  let missingFields := purchaseMissingFields f
  if missingFields.length > 0 then
    [showToast "error"
      ("Please fill in all required fields. Missing: " ++ ", ".intercalate missingFields)
      "Validation Error"]
  else if amount.isNaN || amount.le .zero then
    [showToast "error" "Please enter a valid amount" "Validation Error"]
  else if amount.gt balance then
    [showToast "error" ("Amount cannot exceed club balance of $" ++ h.toFixed2 balance)
      "Insufficient Balance"]
  else
    [.fetch "POST" (clubUrl g "/purchase-requests") (.json (.obj formData))]

/-! ## Form submitters -/

/-- Function `createPost()` up to the request; `content` is the value of `#postContent`. -/
def createPost (g : Globals) (content : String) : List Effect :=
  if !truthy g.clubId then
    [showToast "error" "Cannot create post: Club ID is missing." "Error"]
  else if !truthy (jsTrim content) then
    [showToast "error" "Please enter some content" "Validation Error"]
  else
    [.fetch "POST" (clubUrl g "/posts") (.json (.obj [("content", .str content)]))]

/-- The fields of `#createAssignmentForm`. -/
structure AssignmentForm where
  title : String
  description : String
  dueDate : String
  forAllMembers : Bool

/-- Function `createAssignment()` up to the request. -/
def createAssignment (g : Globals) (f : AssignmentForm) : List Effect :=
  if !truthy g.clubId then
    [showToast "error" "Cannot create assignment: Club ID is missing." "Error"]
  else
    let title := f.title
    let description := f.description
    let dueDate := f.dueDate
    let forAllMembers := f.forAllMembers
    if !truthy title || !truthy description then
      [showToast "error" "Please fill in all required fields" "Validation Error"]
    else
      [.fetch "POST" (clubUrl g "/assignments")
        (.json (.obj
          [("title", .str title),
           ("description", .str description),
           ("due_date", if truthy dueDate then .str dueDate else .null),
           ("for_all_members", .bool forAllMembers)]))]

/-- The fields of `#createMeetingForm`, shared by the create and the edit mode. -/
structure MeetingForm where
  title : String
  description : String
  date : String
  startTime : String
  endTime : String
  location : String
  link : String

/-- The request body that `createMeeting` and `updateMeeting` both build. -/
def meetingBody (f : MeetingForm) : JsVal :=
  .obj
    [("title", .str f.title),
     ("description", .str f.description),
     ("meeting_date", .str f.date),
     ("start_time", .str f.startTime),
     ("end_time", .str f.endTime),
     ("location", .str f.location),
     ("meeting_link", .str f.link)]

/-- Function `createMeeting()` up to the request. -/
def createMeeting (g : Globals) (f : MeetingForm) : List Effect :=
  if !truthy g.clubId then
    [showToast "error" "Cannot create meeting: Club ID is missing." "Error"]
  else if !truthy f.title || !truthy f.date || !truthy f.startTime then
    [showToast "error" "Please fill in all required fields" "Validation Error"]
  else
    [.fetch "POST" (clubUrl g "/meetings") (.json (meetingBody f))]

/-- An attribute value inside a template literal: `null` is written out when absent. -/
def attrText (a : Option String) : String := a.getD "null"

/-- Function `updateMeeting()` up to the request; `editId` is the `data-edit-id`
attribute of the modal. -/
def updateMeeting (g : Globals) (editId : Option String) (f : MeetingForm) : List Effect :=
  let id := editId
  if !truthy f.title || !truthy f.date || !truthy f.startTime then
    [showToast "error" "Please fill in all required fields" "Validation Error"]
  else
    [.fetch "PUT" (clubUrl g ("/meetings/" ++ attrText id)) (.json (meetingBody f))]

/-- The fields of `#addResourceForm`, shared by the create and the edit mode. -/
structure ResourceForm where
  title : String
  url : String
  description : String
  icon : String

/-- The request body that `addResource` and `updateResource` both build. -/
def resourceBody (f : ResourceForm) : JsVal :=
  .obj
    [("title", .str f.title),
     ("url", .str f.url),
     ("description", .str f.description),
     ("icon", .str f.icon)]

/-- Function `addResource()` up to the request. -/
def addResource (g : Globals) (f : ResourceForm) : List Effect :=
  if !truthy g.clubId then
    [showToast "error" "Cannot add resource: Club ID is missing." "Error"]
  else if !truthy f.title || !truthy f.url then
    [showToast "error" "Please fill in title and URL" "Validation Error"]
  else
    [.fetch "POST" (clubUrl g "/resources") (.json (resourceBody f))]

/-- Function `updateResource()` up to the request; `editId` is the `data-edit-id`
attribute of the modal. -/
def updateResource (g : Globals) (editId : Option String) (f : ResourceForm) : List Effect :=
  let id := editId
  if !truthy f.title || !truthy f.url then
    [showToast "error" "Please fill in title and URL" "Validation Error"]
  else
    [.fetch "PUT" (clubUrl g ("/resources/" ++ attrText id)) (.json (resourceBody f))]

/-! ## Grant submission -/

/-- A value held by the object `formData` of the grant form. -/
inductive FormValue where
  | text (s : String)
  | flag (b : Bool)
  | undefined

/-- The test `!v || v.toString().trim() === ''` of the required-field loop. -/
def FormValue.missing : FormValue → Bool
  | .text s => !truthy s || jsTrim s == ""
  | .flag b => !b
  | .undefined => true

/-- A property as `JSON.stringify` writes it; an undefined property is left out. -/
def FormValue.toJson (key : String) : FormValue → List (String × JsVal)
  | .text s => [(key, .str s)]
  | .flag b => [(key, .bool b)]
  | .undefined => []

/-- The object that `JSON.parse(projectSelect.value)` returns for an option written by
`loadMemberHackatimeProjects`; `hours` is `(total_seconds / 3600).toFixed(2)`. -/
structure ProjectData where
  name : Option String
  hours : String

/-- The value of `#grantProjectSelect` as `submitCardGrant` reads it: empty, a text on
which `JSON.parse` throws, or a text that parses to a project object. -/
inductive ProjectValue where
  | empty
  | invalid
  | project (data : ProjectData)

/-- Whether the project selection can be read: `JSON.parse` does not throw on it. -/
def ProjectValue.parses : ProjectValue → Bool
  | .invalid => false
  | _ => true

/-- The parsed project of a selection, `null` for an empty value. -/
def ProjectValue.data : ProjectValue → Option ProjectData
  | .project d => some d
  | _ => none

/-- The fields of `#cardGrantForm`; `projectText` is the text of the selected project
option (absent when no option is selected) and `screenshot` is the name of the selected
file. -/
structure GrantForm where
  memberSelect : String
  projectValue : ProjectValue
  projectText : Option String
  firstName : String
  lastName : String
  email : String
  birthday : String
  description : String
  githubUrl : String
  liveUrl : String
  learning : String
  doingWell : String
  improve : String
  address1 : String
  address2 : String
  city : String
  state : String
  zip : String
  country : String
  inPersonMeeting : Bool
  screenshot : Option String

/-- The submit button of a modal: its text and whether it is disabled. -/
structure SubmitButton where
  textContent : String
  disabled : Bool

/-- The object `formData` of `submitGrantWithScreenshot`, in declaration order. -/
def grantFormData (f : GrantForm) (screenshotUrl : String) (projectData : Option ProjectData) :
    List (String × FormValue) :=
  [("member_id", .text f.memberSelect),
   ("project_name",
      match projectData with
      | some d => (match d.name with | some n => .text n | none => .undefined)
      | none => .text (orElseOpt f.projectText "")),
   ("project_hours", .text (match projectData with | some d => d.hours | none => "0")),
   ("first_name", .text f.firstName),
   ("last_name", .text f.lastName),
   ("email", .text f.email),
   ("birthday", .text f.birthday),
   ("project_description", .text f.description),
   ("github_url", .text f.githubUrl),
   ("live_url", .text f.liveUrl),
   ("learning", .text f.learning),
   ("doing_well", .text f.doingWell),
   ("improve", .text f.improve),
   ("address_1", .text f.address1),
   ("address_2", .text f.address2),
   ("city", .text f.city),
   ("state", .text f.state),
   ("zip", .text f.zip),
   ("country", .text f.country),
   ("screenshot_url", .text screenshotUrl),
   ("is_in_person_meeting", .flag f.inPersonMeeting)]

/-- The object `requiredFields`: key and label, in declaration order. -/
def grantRequiredFields : List (String × String) :=
  [("member_id", "Member selection"),
   ("project_name", "Project name"),
   ("first_name", "First name"),
   ("last_name", "Last name"),
   ("email", "Email address"),
   ("birthday", "Birthday"),
   ("project_description", "Project description"),
   ("github_url", "GitHub URL"),
   ("live_url", "Live URL"),
   ("learning", "What you learned"),
   ("doing_well", "What we are doing well"),
   ("improve", "How we can improve"),
   ("address_1", "Address line 1"),
   ("city", "City"),
   ("state", "State/Province"),
   ("zip", "ZIP/Postal code"),
   ("country", "Country")]

/-- The list `missingFields` of `submitGrantWithScreenshot`. -/
def grantMissingFields (formData : List (String × FormValue)) : List String :=
  grantRequiredFields.filterMap fun (field, label) =>
    if ((formData.lookup field).getD .undefined).missing then some label else none

/-- Whether a trimmed URL starts with `http://` or `https://`. -/
def hasHttpScheme (url : String) : Bool :=
  jsStartsWith url "http://" || jsStartsWith url "https://"

/-- Function `submitGrantWithScreenshot(screenshotUrl, projectData, submitButton,
originalText)` up to the request: the button afterwards and the effects.  The button
is the one `submitCardGrant` has disabled. -/
def submitGrantWithScreenshot (g : Globals) (f : GrantForm) (screenshotUrl : String)
    (projectData : Option ProjectData) (originalText : String) :
    SubmitButton × List Effect :=
  let formData := grantFormData f screenshotUrl projectData
  let githubUrl := jsTrim f.githubUrl
  let liveUrl := jsTrim f.liveUrl
  let restored : SubmitButton := { textContent := originalText, disabled := false }
  if !hasHttpScheme githubUrl then
    (restored, [showToast "error" "GitHub URL must start with http:// or https://"
      "Validation Error"])
  else if !hasHttpScheme liveUrl then
    (restored, [showToast "error" "Live URL must start with http:// or https://"
      "Validation Error"])
  else if !f.inPersonMeeting then
    (restored, [showToast "error"
      "You must confirm this project was worked on during an in-person meeting"
      "Validation Error"])
  else
    let missingFields := grantMissingFields formData
    if missingFields.length > 0 then
      (restored, [showToast "error" ("Please fill in: " ++ ", ".intercalate missingFields)
        "Missing Fields"])
    else
      ({ textContent := " Submitting...", disabled := true },
       [.fetch "POST" (clubUrl g "/pizza-grants")
         (.json (.obj (formData.flatMap fun (k, v) => v.toJson k)))])

/-- Payload of the screenshot upload. -/
structure UploadResponse where
  success : Bool
  url : String
  error : Option String

/-- How the upload comes back: a rejected promise with the message of its error, or a
parsed payload. -/
inductive UploadOutcome where
  | failure (message : String)
  | response (data : UploadResponse)

/-- The upload request of `submitCardGrant`. -/
def uploadRequest (file : String) : Effect :=
  .fetch "POST" "/api/upload-screenshot" (.formData [("screenshot", file)])

/-- Function `submitCardGrant()` up to the upload request: the button afterwards, the
effects, and the parsed project when the upload was started. -/
def submitCardGrant (f : GrantForm) (button : SubmitButton) :
    SubmitButton × List Effect × Option (Option ProjectData) :=
  match f.projectValue with
  | .invalid => (button, [showToast "error" "Invalid project selection" "Validation Error"], none)
  | value =>
    let projectData : Option ProjectData :=
      match value with
      | .project d => some d
      | _ => none
    match f.screenshot with
    | none => (button, [showToast "error" "Please upload a screenshot" "Validation Error"], none)
    | some screenshotFile =>
      ({ textContent := " Uploading...", disabled := true },
       [uploadRequest screenshotFile], some projectData)

/-- Continuation of `submitCardGrant` on the upload response. -/
def submitCardGrantResponse (g : Globals) (f : GrantForm) (projectData : Option ProjectData)
    (originalText : String) (r : UploadOutcome) : SubmitButton × List Effect :=
  let restored : SubmitButton := { textContent := originalText, disabled := false }
  match r with
  | .failure message =>
    (restored, [showToast "error" (orElse message "Error uploading screenshot") "Upload Error"])
  | .response uploadData =>
    if !uploadData.success then
      (restored, [showToast "error"
        (orElse (orElseOpt uploadData.error "Failed to upload screenshot")
          "Error uploading screenshot") "Upload Error"])
    else
      submitGrantWithScreenshot g f uploadData.url projectData originalText

/-- The whole grant submission: `submitCardGrant`, then its continuation on the upload
response when the upload was started.  The form is read again after the upload. -/
def grantSubmission (g : Globals) (f : GrantForm) (button : SubmitButton) (r : UploadOutcome) :
    SubmitButton × List Effect :=
  match submitCardGrant f button with
  | (b, es, none) => (b, es)
  | (_, es, some projectData) =>
    let (b, es2) := submitCardGrantResponse g f projectData button.textContent r
    (b, es ++ es2)

/-! ## Document tree -/

/-- A node of the document: an element with its tag, class name, attributes and
children, or a text node.  Inline styles are presentation only and are not recorded. -/
inductive Node where
  | element (tag : String) (className : String) (attrs : List (String × String))
      (children : List Node)
  | text (data : String)

/-- Function `createElement(tag, className, textContent)`: a class name and a text are
set only when they are truthy. -/
def createElement (tag className textContent : String) : Node :=
  .element tag className [] (if truthy textContent then [.text textContent] else [])

/-- The call `document.createTextNode(data)`. -/
def createTextNode (data : String) : Node := .text data

/-- The method `appendChild`. -/
def Node.appendChild : Node → Node → Node
  | .element tag cls attrs kids, child => .element tag cls attrs (kids ++ [child])
  | n, _ => n

/-- The method `setAttribute`, also used for the reflected properties `id`, `href` and
`target`. -/
def Node.setAttribute : Node → String → String → Node
  | .element tag cls attrs kids, k, v =>
    .element tag cls (attrs.filter (fun a => a.1 != k) ++ [(k, v)]) kids
  | n, _, _ => n

/-- An assignment to `innerHTML` whose markup parses to the given nodes. -/
def Node.setChildren : Node → List Node → Node
  | .element tag cls attrs _, kids => .element tag cls attrs kids
  | n, _ => n

/-- An assignment to the property `className`. -/
def Node.setClassName : Node → String → Node
  | .element tag _ attrs kids, cls => .element tag cls attrs kids
  | n, _ => n

/-- The class name of an element, empty for a text node. -/
def Node.className : Node → String
  | .element _ cls _ _ => cls
  | .text _ => ""

/-- The method `getAttribute`, `none` standing for `null`. -/
def Node.getAttribute : Node → String → Option String
  | .element _ _ attrs _, k => attrs.lookup k
  | .text _, _ => none

mutual
/-- Whether the tree contains a delete control: a `button` of class
`btn-icon delete-btn`. -/
def Node.hasDeleteControl : Node → Bool
  | .element tag cls _ kids =>
    (tag == "button" && cls == "btn-icon delete-btn") || hasDeleteControlList kids
  | .text _ => false
/-- Whether one of the trees contains a delete control. -/
def hasDeleteControlList : List Node → Bool
  | [] => false
  | n :: ns => n.hasDeleteControl || hasDeleteControlList ns
end

/-- The replacement `replace(/'/g, "\\'")`: a backslash is put before every apostrophe. -/
def escapeQuotes (s : String) : String :=
  ⟨s.data.flatMap fun c =>
    if c = Char.ofNat 39 then [Char.ofNat 92, Char.ofNat 39] else [c]⟩

/-- The leader-only delete button of a card; `handler` is the name of the global function
its `onclick` attribute calls with the record id and the quoted text. -/
def deleteButton (handler : String) (id : Int) (quoted title : String) : Node :=
  let deleteBtn := createElement "button" "btn-icon delete-btn" ""
  let deleteBtn := deleteBtn.setAttribute "onclick"
    (handler ++ "(" ++ toString id ++ ", '" ++ escapeQuotes quoted ++ "')")
  let deleteBtn := deleteBtn.setAttribute "title" title
  deleteBtn.setChildren [createElement "i" "fas fa-trash" ""]

/-- The condition `window.clubData && window.clubData.isLeader`. -/
def isLeader (g : Globals) : Bool :=
  match g.clubData with
  | some cd => cd.isLeader
  | none => false

/-- The empty-state placeholder every loader builds: an icon, a title and a description. -/
def emptyState (iconClass title description : String) : Node :=
  let emptyState := createElement "div" "empty-state" ""
  let icon := createElement "i" iconClass ""
  let title := createElement "h3" "" title
  let description := createElement "p" "" description
  ((emptyState.appendChild icon).appendChild title).appendChild description

/-- Truthiness of an optional string property. -/
def optTruthy (a : Option String) : Bool :=
  match a with
  | some s => truthy s
  | none => false

/-- An icon followed by a text node inside a `span`, the pattern of the info rows. -/
def infoSpan (iconClass text : String) : Node :=
  let span := createElement "span" "" ""
  let icon := createElement "i" iconClass ""
  (span.appendChild icon).appendChild (createTextNode text)

/-! ## Records of the backend -/

/-- The author of a post or the owner of a project. -/
structure User where
  username : String

/-- A post. -/
structure Post where
  id : Int
  content : String
  user : User
  created_at : String

/-- An assignment. -/
structure Assignment where
  id : Int
  title : String
  description : String
  due_date : Option String
  for_all_members : Bool
  status : String

/-- A meeting. -/
structure Meeting where
  id : Int
  title : String
  description : Option String
  meeting_date : String
  start_time : String
  end_time : Option String
  location : Option String
  meeting_link : Option String

/-! ## Section loaders: posts, assignments, meetings -/

/-- The body of the `forEach` of `loadPosts`: the card of one post.  Reading
`username[0]` of an empty username gives `undefined`, on which `toUpperCase` throws:
the result is `none` then. -/
def postCard (h : Host) (g : Globals) (post : Post) : Option Node :=
  match post.user.username.data with
  | [] => none
  | c :: _ =>
    let postCard := createElement "div" "post-card" ""
    let postHeader := createElement "div" "post-header" ""
    let postAvatar := createElement "div" "post-avatar" (h.toUpperCase (String.singleton c))
    let postInfo := createElement "div" "post-info" ""
    let postUsername := createElement "h4" "" post.user.username
    let postDate := createElement "div" "post-date" (h.toLocaleDateString post.created_at)
    let postInfo := (postInfo.appendChild postUsername).appendChild postDate
    let postHeader := (postHeader.appendChild postAvatar).appendChild postInfo
    let postHeader :=
      if isLeader g then
        postHeader.appendChild (deleteButton "deletePost" post.id post.content "Delete Post")
      else postHeader
    let postContent := createElement "div" "post-content" ""
    let postText := createElement "p" "" post.content
    let postContent := postContent.appendChild postText
    some ((postCard.appendChild postHeader).appendChild postContent)

/-- The loop `data.posts.forEach(...)` on a container: the children afterwards, and
whether the loop was left by an exception. -/
def renderPosts (h : Host) (g : Globals) : List Node → List Post → List Node × Bool
  | kids, [] => (kids, false)
  | kids, post :: rest =>
    match postCard h g post with
    | some card => renderPosts h g (kids ++ [card]) rest
    | none => (kids, true)

/-- Continuation of `loadPosts` on its response: the children of `#postsList`
afterwards, and the effects.  `prior` are the children before. -/
def loadPostsResponse (h : Host) (g : Globals) (prior : List Node)
    (r : Outcome (Option (List Post))) : List Node × List Effect :=
  match r with
  | .failure => (prior, [showToast "error" "Failed to load posts" "Error"])
  | .response _ posts =>
    let postsList : List Node := []
    if (posts.getD []).length > 0 then
      match renderPosts h g postsList (posts.getD []) with
      | (kids, false) => (kids, [])
      | (kids, true) => (kids, [showToast "error" "Failed to load posts" "Error"])
    else
      (postsList ++
        [emptyState "fas fa-stream" "No posts yet"
          "Be the first to share something with your club!"], [])

/-- The body of the `forEach` of `loadAssignments`: the card of one assignment. -/
def assignmentCard (h : Host) (g : Globals) (assignment : Assignment) : Node :=
  let card := createElement "div" "card" ""
  let cardHeader := createElement "div" "card-header" ""
  let headerDiv := createElement "div" "" ""
  let title := createElement "h3" "" assignment.title
  let statusSpan := createElement "span" "" assignment.status
  let headerDiv := (headerDiv.appendChild title).appendChild statusSpan
  let cardHeader := cardHeader.appendChild headerDiv
  let cardHeader :=
    if isLeader g then
      cardHeader.appendChild
        (deleteButton "deleteAssignmentDesktop" assignment.id assignment.title
          "Delete Assignment")
    else cardHeader
  let cardBody := createElement "div" "card-body" ""
  let description := createElement "p" "" assignment.description
  let cardBody := cardBody.appendChild description
  let infoDiv := createElement "div" "" ""
  let infoDiv :=
    if optTruthy assignment.due_date then
      infoDiv.appendChild (infoSpan "fas fa-calendar"
        (" Due: " ++ h.toLocaleDateString (assignment.due_date.getD "")))
    else infoDiv
  let infoDiv := infoDiv.appendChild (infoSpan "fas fa-users"
    (" " ++ (if assignment.for_all_members then "All members" else "Selected members")))
  let cardBody := cardBody.appendChild infoDiv
  (card.appendChild cardHeader).appendChild cardBody

/-- Appending one card per item, in order: a `forEach` whose body cannot throw. -/
def renderCards {α : Type} (card : α → Node) : List Node → List α → List Node
  | kids, [] => kids
  | kids, item :: rest => renderCards card (kids ++ [card item]) rest

/-- Continuation of `loadAssignments` on its response: the children of
`#assignmentsList` and the text of `#assignmentsCount` afterwards, and the effects. -/
def loadAssignmentsResponse (h : Host) (g : Globals) (prior : List Node) (count : String)
    (r : Outcome (Option (List Assignment))) : List Node × String × List Effect :=
  match r with
  | .failure => (prior, count, [showToast "error" "Failed to load assignments" "Error"])
  | .response _ assignments =>
    let assignmentsList : List Node := []
    if (assignments.getD []).length > 0 then
      (renderCards (assignmentCard h g) assignmentsList (assignments.getD []),
       toString ((assignments.getD []).filter (fun a => a.status == "active")).length, [])
    else
      (assignmentsList ++
        [emptyState "fas fa-clipboard-list" "No assignments yet"
          "Create your first assignment to get started!"], "0", [])

/-- The body of the `forEach` of `loadMeetings`: the card of one meeting. -/
def meetingCard (h : Host) (g : Globals) (meeting : Meeting) : Node :=
  let card := createElement "div" "card" ""
  let card := card.setAttribute "id" ("meeting-" ++ toString meeting.id)
  let cardHeader := createElement "div" "card-header" ""
  let headerDiv := createElement "div" "" ""
  let title := createElement "h3" "" meeting.title
  let headerDiv := headerDiv.appendChild title
  let cardHeader := cardHeader.appendChild headerDiv
  let cardHeader :=
    if isLeader g then
      cardHeader.appendChild
        (deleteButton "deleteMeetingDesktop" meeting.id meeting.title "Delete Meeting")
    else cardHeader
  let cardBody := createElement "div" "card-body" ""
  let cardBody :=
    if optTruthy meeting.description then
      cardBody.appendChild (createElement "p" "" (meeting.description.getD ""))
    else cardBody
  let infoDiv := createElement "div" "" ""
  let infoDiv := infoDiv.appendChild (infoSpan "fas fa-calendar"
    (" " ++ h.toLocaleDateString meeting.meeting_date))
  let timeText := meeting.start_time ++
    (if optTruthy meeting.end_time then " - " ++ meeting.end_time.getD "" else "")
  let infoDiv := infoDiv.appendChild (infoSpan "fas fa-clock" (" " ++ timeText))
  let infoDiv :=
    if optTruthy meeting.location then
      infoDiv.appendChild (infoSpan "fas fa-map-marker-alt" (" " ++ meeting.location.getD ""))
    else infoDiv
  let infoDiv :=
    if optTruthy meeting.meeting_link then
      let linkSpan := infoSpan "fas fa-link" " "
      let link := createElement "a" "" ""
      let link := link.setAttribute "href" (meeting.meeting_link.getD "")
      let link := link.setAttribute "target" "_blank"
      let link := link.setChildren [createTextNode "Visit Resource"]
      infoDiv.appendChild (linkSpan.appendChild link)
    else infoDiv
  let cardBody := cardBody.appendChild infoDiv
  (card.appendChild cardHeader).appendChild cardBody

/-- Whether a year is a leap year. -/
def isLeapYear (year : Int) : Bool :=
  year % 4 == 0 && (year % 100 != 0 || year % 400 == 0)

/-- The number of days of a month. -/
def daysInMonth (year : Int) (month : Nat) : Nat :=
  if month == 2 then (if isLeapYear year then 29 else 28)
  else if month == 4 || month == 6 || month == 9 || month == 11 then 30
  else 31

/-- The number a run of decimal digits writes, `none` when a character is not a digit. -/
def digitsValue (digits : List Char) : Option Nat :=
  digits.foldl
    (fun value c =>
      match value with
      | some n => if c.isDigit then some (10 * n + (c.toNat - 48)) else none
      | none => none)
    (some 0)

/-- The date a text of the date-only form `YYYY-MM-DD` writes, `none` for any other text
(a month or a day out of range included). -/
def parseDateOnly (text : String) : Option CivilDate :=
  match text.data with
  | [y1, y2, y3, y4, s1, m1, m2, s2, d1, d2] =>
    if s1 = '-' ∧ s2 = '-' then
      match digitsValue [y1, y2, y3, y4], digitsValue [m1, m2], digitsValue [d1, d2] with
      | some year, some month, some day =>
        if 1 ≤ month ∧ month ≤ 12 ∧ 1 ≤ day ∧ day ≤ daysInMonth year month then
          some { year := year, month := month, day := day }
        else none
      | _, _, _ => none
    else none
  | _ => none

/-- The day before a date. -/
def previousDay (date : CivilDate) : CivilDate :=
  if date.day > 1 then { date with day := date.day - 1 }
  else if date.month > 1 then
    { date with month := date.month - 1, day := daysInMonth date.year (date.month - 1) }
  else { year := date.year - 1, month := 12, day := 31 }

/-- The local date at UTC midnight of a date, local time being `offset` minutes behind
UTC: the day before when local time is behind, the date itself otherwise. -/
def localDate (offset : Int) (date : CivilDate) : CivilDate :=
  if offset > 0 then previousDay date else date

/-- The expression `new Date(text).getMonth()`, `none` standing for `NaN`.  A text of the
date-only form is read as UTC midnight of its date, and the month (from 0) is that of
the local date at that instant. -/
def dateGetMonth (h : Host) (text : String) : Option Nat :=
  match parseDateOnly text with
  | some date => some ((localDate (h.timezoneOffset date) date).month - 1)
  | none => h.getMonth text

/-- The expression `new Date(text).getFullYear()`, `none` standing for `NaN`. -/
def dateGetFullYear (h : Host) (text : String) : Option Int :=
  match parseDateOnly text with
  | some date => some (localDate (h.timezoneOffset date) date).year
  | none => h.getFullYear text

/-- The filter of `loadMeetings`: the local month and year of the parsed meeting date are
those of the current date. -/
def inThisMonth (h : Host) (m : Meeting) : Bool :=
  dateGetMonth h m.meeting_date == some h.thisMonth &&
    dateGetFullYear h m.meeting_date == some h.thisYear

/-- The count of the specification: the meeting date, a text of the date-only form,
writes the month and the year of the current date. -/
def writtenInThisMonth (h : Host) (m : Meeting) : Bool :=
  match parseDateOnly m.meeting_date with
  | some date => date.month == h.thisMonth + 1 && date.year == h.thisYear
  | none => false

/-- Continuation of `loadMeetings` on its response: the children of `#meetingsList` and
the text of `#meetingsCount` afterwards, and the effects. -/
def loadMeetingsResponse (h : Host) (g : Globals) (prior : List Node) (count : String)
    (r : Outcome (Option (List Meeting))) : List Node × String × List Effect :=
  match r with
  | .failure => (prior, count, [showToast "error" "Failed to load meetings" "Error"])
  | .response _ meetings =>
    let meetingsList : List Node := []
    if (meetings.getD []).length > 0 then
      let thisMonthMeetings := (meetings.getD []).filter (inThisMonth h)
      (renderCards (meetingCard h g) meetingsList (meetings.getD []),
       toString thisMonthMeetings.length, [])
    else
      (meetingsList ++
        [emptyState "fas fa-calendar-times" "No meetings scheduled"
          "Schedule your first club meeting to get started!"], "0", [])

/-! ## Section loaders: projects, resources, grant submissions, purchase requests -/

/-- A project. -/
structure Project where
  name : String
  description : Option String
  owner : User
  updated_at : String
  featured : Bool

/-- A resource. -/
structure Resource where
  id : Int
  title : String
  url : String
  description : Option String
  icon : String

/-- A grant submission. -/
structure Submission where
  project_name : Option String
  status : Option String
  grant_amount : Option String
  description : Option String
  first_name : Option String
  last_name : Option String
  github_username : Option String
  hours : Option JsNumber
  created_time : Option String
  code_url : Option String
  playable_url : Option String

/-- A purchase request. -/
structure PurchaseRequest where
  purchase_type : String
  status : Option String
  amount : Option JsNumber
  description : Option String
  vendor : Option String
  fulfillment_method : Option String
  created_time : Option String
  reason : Option String

/-- The body of the `forEach` of `loadProjects`: the card of one project. -/
def projectCard (h : Host) (project : Project) : Node :=
  let card := createElement "div" "card" ""
  let cardHeader := createElement "div" "card-header" ""
  let headerDiv := createElement "div" "" ""
  let title := createElement "h3" "" project.name
  let headerDiv := headerDiv.appendChild title
  let headerDiv :=
    if project.featured then headerDiv.appendChild (createElement "span" "" "Featured")
    else headerDiv
  let cardHeader := cardHeader.appendChild headerDiv
  let cardBody := createElement "div" "card-body" ""
  let description := createElement "p" ""
    (orElseOpt project.description "No description available")
  let cardBody := cardBody.appendChild description
  let infoDiv := createElement "div" "" ""
  let infoDiv := infoDiv.appendChild (infoSpan "fas fa-user" (" " ++ project.owner.username))
  let infoDiv := infoDiv.appendChild (infoSpan "fas fa-calendar"
    (" " ++ h.toLocaleDateString project.updated_at))
  let cardBody := cardBody.appendChild infoDiv
  (card.appendChild cardHeader).appendChild cardBody

/-- Continuation of `loadProjects` on its response: the children of `#projectsList` and
the text of `#projectsCount` afterwards, and the effects. -/
def loadProjectsResponse (h : Host) (prior : List Node) (count : String)
    (r : Outcome (Option (List Project))) : List Node × String × List Effect :=
  match r with
  | .failure => (prior, count, [showToast "error" "Failed to load projects" "Error"])
  | .response _ projects =>
    let projectsList : List Node := []
    if (projects.getD []).length > 0 then
      (renderCards (projectCard h) projectsList (projects.getD []),
       toString (projects.getD []).length, [])
    else
      (projectsList ++
        [emptyState "fas fa-code" "No projects yet"
          "Members can start creating projects to showcase here!"], "0", [])

/-- The link `Visit Resource` of a meeting or resource card. -/
def visitLink (href : String) : Node :=
  let linkSpan := infoSpan "fas fa-link" " "
  let link := createElement "a" "" ""
  let link := link.setAttribute "href" href
  let link := link.setAttribute "target" "_blank"
  let link := link.setChildren [createTextNode "Visit Resource"]
  linkSpan.appendChild link

/-- The body of the `forEach` of `loadResources`: the card of one resource. -/
def resourceCard (g : Globals) (resource : Resource) : Node :=
  let card := createElement "div" "card" ""
  let card := card.setAttribute "id" ("resource-" ++ toString resource.id)
  let cardHeader := createElement "div" "card-header" ""
  let headerDiv := createElement "div" "" ""
  let title := createElement "h3" "" ""
  let icon := createElement "i" ("fas fa-" ++ resource.icon) ""
  let title := (title.appendChild icon).appendChild (createTextNode (" " ++ resource.title))
  let headerDiv := headerDiv.appendChild title
  let cardHeader := cardHeader.appendChild headerDiv
  let cardHeader :=
    if isLeader g then
      cardHeader.appendChild
        (deleteButton "deleteResourceDesktop" resource.id resource.title "Delete Resource")
    else cardHeader
  let cardBody := createElement "div" "card-body" ""
  let cardBody :=
    if optTruthy resource.description then
      cardBody.appendChild (createElement "p" "" (resource.description.getD ""))
    else cardBody
  let infoDiv := createElement "div" "" ""
  let infoDiv := infoDiv.appendChild (visitLink resource.url)
  let cardBody := cardBody.appendChild infoDiv
  (card.appendChild cardHeader).appendChild cardBody

/-- Continuation of `loadResources` on its response: the children of `#resourcesList`
afterwards, and the effects. -/
def loadResourcesResponse (g : Globals) (prior : List Node)
    (r : Outcome (Option (List Resource))) : List Node × List Effect :=
  match r with
  | .failure => (prior, [showToast "error" "Failed to load resources" "Error"])
  | .response _ resources =>
    let resourcesList : List Node := []
    if (resources.getD []).length > 0 then
      (renderCards (resourceCard g) resourcesList (resources.getD []), [])
    else
      (resourcesList ++
        [emptyState "fas fa-book" "No resources yet"
          "Add helpful links and learning materials for your club!"], [])

/-- The error placeholder of the two loaders that inspect `data.error`. -/
def errorState (title description : String) : Node :=
  let errorState := createElement "div" "empty-state" ""
  let errorIcon := createElement "i" "fas fa-exclamation-triangle" ""
  let errorTitle := createElement "h3" "" title
  let errorDescription := createElement "p" "" description
  ((errorState.appendChild errorIcon).appendChild errorTitle).appendChild errorDescription

/-- A link button of a submission card, with the nodes its `innerHTML` parses to. -/
def linkButton (href iconClass label : String) : Node :=
  let link := createElement "a" "" ""
  let link := link.setAttribute "href" href
  let link := link.setAttribute "target" "_blank"
  let link := link.setClassName "btn btn-secondary btn-sm"
  link.setChildren [createElement "i" iconClass "", createTextNode label]

/-- The body of the `forEach` of `loadClubProjectSubmissions`: the card of one
submission. -/
def submissionCard (h : Host) (submission : Submission) : Node :=
  let card := createElement "div" "card" ""
  let cardHeader := createElement "div" "card-header" ""
  let headerDiv := createElement "div" "" ""
  let title := createElement "h3" "" (orElseOpt submission.project_name "Untitled Project")
  let statusSpan := createElement "span" "" (orElseOpt submission.status "Pending")
  let headerDiv := (headerDiv.appendChild title).appendChild statusSpan
  let cardHeader := cardHeader.appendChild headerDiv
  let grantAmountDiv := createElement "div" "" ""
  let grantAmount := createElement "div" "" (orElseOpt submission.grant_amount "$0")
  let grantLabel := createElement "div" "" "Grant Amount"
  let grantAmountDiv := (grantAmountDiv.appendChild grantAmount).appendChild grantLabel
  let cardHeader := cardHeader.appendChild grantAmountDiv
  let cardBody := createElement "div" "card-body" ""
  let cardBody :=
    if optTruthy submission.description then
      cardBody.appendChild (createElement "p" "" (submission.description.getD ""))
    else cardBody
  let infoDiv := createElement "div" "" ""
  let submitter :=
    if optTruthy submission.first_name && optTruthy submission.last_name then
      submission.first_name.getD "" ++ " " ++ submission.last_name.getD ""
    else orElseOpt submission.github_username "Unknown"
  let infoDiv := infoDiv.appendChild (infoSpan "fas fa-user" (" " ++ submitter))
  let infoDiv :=
    match submission.hours with
    | some hours =>
      if hours.truthy then
        infoDiv.appendChild (infoSpan "fas fa-clock" (" " ++ h.numberToString hours ++ " hours"))
      else infoDiv
    | none => infoDiv
  let infoDiv :=
    if optTruthy submission.created_time then
      infoDiv.appendChild (infoSpan "fas fa-calendar"
        (" " ++ h.toLocaleDateString (submission.created_time.getD "")))
    else infoDiv
  let cardBody := cardBody.appendChild infoDiv
  let cardBody :=
    if optTruthy submission.code_url || optTruthy submission.playable_url then
      let linksDiv := createElement "div" "" ""
      let linksDiv :=
        if optTruthy submission.code_url then
          linksDiv.appendChild
            (linkButton (submission.code_url.getD "") "fab fa-github" " Code")
        else linksDiv
      let linksDiv :=
        if optTruthy submission.playable_url then
          linksDiv.appendChild
            (linkButton (submission.playable_url.getD "") "fas fa-external-link-alt"
              " Live Demo")
        else linksDiv
      cardBody.appendChild linksDiv
    else cardBody
  (card.appendChild cardHeader).appendChild cardBody

/-- Payload of the grant submissions endpoint. -/
structure SubmissionsResponse where
  error : Option String
  submissions : Option (List Submission)

/-- Continuation of `loadClubProjectSubmissions` on its response: the children of
`#clubSubmissionsList` afterwards, and the effects. -/
def loadClubProjectSubmissionsResponse (h : Host) (_prior : List Node)
    (r : Outcome SubmissionsResponse) : List Node × List Effect :=
  let submissionsList : List Node := []
  match r with
  | .failure =>
    (submissionsList ++
      [errorState "Error loading submissions"
        "Failed to fetch pizza grant submissions. Please try again."],
     [showToast "error" "Failed to load pizza grant submissions" "Error"])
  | .response _ data =>
    if optTruthy data.error then
      (submissionsList ++
        [errorState "Error loading submissions" (data.error.getD "")], [])
    else if (data.submissions.getD []).length > 0 then
      (renderCards (submissionCard h) submissionsList (data.submissions.getD []), [])
    else
      (submissionsList ++
        [emptyState "fas fa-pizza-slice" "No submissions yet"
          "Submit your coding projects to earn pizza for the club!"], [])

/-- The body of the `forEach` of `loadPurchaseRequests`: the card of one request. -/
def purchaseRequestCard (h : Host) (request : PurchaseRequest) : Node :=
  let card := createElement "div" "card" ""
  let cardHeader := createElement "div" "card-header" ""
  let headerDiv := createElement "div" "" ""
  let title := createElement "h3" "" (request.purchase_type ++ " Purchase")
  let statusSpan := createElement "span" "" (orElseOpt request.status "Pending")
  let headerDiv := (headerDiv.appendChild title).appendChild statusSpan
  let cardHeader := cardHeader.appendChild headerDiv
  let amountDiv := createElement "div" "" ""
  let requested : JsNumber :=
    match request.amount with
    | some a => if a.truthy then a else .zero
    | none => .zero
  let amount := createElement "div" "" ("$" ++ h.toFixed2 requested)
  let amountLabel := createElement "div" "" "Requested"
  let amountDiv := (amountDiv.appendChild amount).appendChild amountLabel
  let cardHeader := cardHeader.appendChild amountDiv
  let cardBody := createElement "div" "card-body" ""
  let cardBody :=
    if optTruthy request.description then
      cardBody.appendChild (createElement "p" "" (request.description.getD ""))
    else cardBody
  let infoDiv := createElement "div" "" ""
  let infoDiv := infoDiv.appendChild (infoSpan "fas fa-store"
    (" " ++ orElseOpt request.vendor "Unknown"))
  let infoDiv := infoDiv.appendChild (infoSpan "fas fa-credit-card"
    (" " ++ orElseOpt request.fulfillment_method "Unknown"))
  let infoDiv :=
    if optTruthy request.created_time then
      infoDiv.appendChild (infoSpan "fas fa-calendar"
        (" " ++ h.toLocaleDateString (request.created_time.getD "")))
    else infoDiv
  let cardBody := cardBody.appendChild infoDiv
  let cardBody :=
    if optTruthy request.reason then
      let reasonDiv := createElement "div" "" ""
      let reasonLabel := createElement "strong" "" "Reason: "
      let reasonText := createElement "span" "" (request.reason.getD "")
      cardBody.appendChild ((reasonDiv.appendChild reasonLabel).appendChild reasonText)
    else cardBody
  (card.appendChild cardHeader).appendChild cardBody

/-- Payload of the purchase requests endpoint. -/
structure RequestsResponse where
  error : Option String
  requests : Option (List PurchaseRequest)

/-- Function `loadPurchaseRequests()` up to the request: with a club id it replaces the
children of `#purchaseRequestsList` by the loading placeholder and fetches. -/
def loadPurchaseRequests (g : Globals) (prior : List Node) : List Node × List Effect :=
  if !truthy g.clubId then (prior, [])
  else
    let requestsList : List Node := []
    let loadingState := createElement "div" "empty-state" ""
    let loadingIcon := createElement "i" "fas fa-spinner fa-spin" ""
    let loadingTitle := createElement "h3" "" "Loading purchase requests..."
    let loadingState := (loadingState.appendChild loadingIcon).appendChild loadingTitle
    (requestsList ++ [loadingState], [.fetch "GET" (clubUrl g "/purchase-requests") .none])

/-- Continuation of `loadPurchaseRequests` on its response: the children of
`#purchaseRequestsList` afterwards, and the effects. -/
def loadPurchaseRequestsResponse (h : Host) (_prior : List Node)
    (r : Outcome RequestsResponse) : List Node × List Effect :=
  let requestsList : List Node := []
  match r with
  | .failure =>
    (requestsList ++
      [errorState "Error loading requests"
        "Failed to fetch purchase requests. Please try again."],
     [showToast "error" "Failed to load purchase requests" "Error"])
  | .response _ data =>
    if optTruthy data.error then
      (requestsList ++ [errorState "Error loading requests" (data.error.getD "")], [])
    else if (data.requests.getD []).length > 0 then
      (renderCards (purchaseRequestCard h) requestsList (data.requests.getD []), [])
    else
      (requestsList ++
        [emptyState "fas fa-shopping-cart" "No purchase requests yet"
          "Submit your first purchase request to get started!"], [])

/-! ## Section loaders: the part before the request -/

/-- An assignment to `textContent`: the children become one text node. -/
def setTextContent (text : String) : List Node := [.text text]

/-- Function `loadPosts()` up to the request; the argument and the first result are the
children of `#postsList`. -/
def loadPosts (g : Globals) (postsList : List Node) : List Node × List Effect :=
  if !truthy g.clubId then
    (setTextContent "Error: Club information is unavailable to load posts.", [])
  else
    (postsList, [.fetch "GET" (clubUrl g "/posts") .none])

/-- Function `loadAssignments()` up to the request, on the children of
`#assignmentsList`. -/
def loadAssignments (g : Globals) (assignmentsList : List Node) : List Node × List Effect :=
  if !truthy g.clubId then
    (setTextContent "Error: Club information is unavailable to load assignments.", [])
  else
    (assignmentsList, [.fetch "GET" (clubUrl g "/assignments") .none])

/-- Function `loadMeetings()` up to the request, on the children of `#meetingsList`. -/
def loadMeetings (g : Globals) (meetingsList : List Node) : List Node × List Effect :=
  if !truthy g.clubId then
    (setTextContent "Error: Club information is unavailable to load meetings.", [])
  else
    (meetingsList, [.fetch "GET" (clubUrl g "/meetings") .none])

/-- Function `loadProjects()` up to the request.  The cards go to `#projectsList`
(first argument and first result); the message for a missing club id is written to
the element of id `projects-list`, whose children are the second argument and the
second result, `none` when the page has no such element. -/
def loadProjects (g : Globals) (projectsList : List Node) (dashed : Option (List Node)) :
    List Node × Option (List Node) × List Effect :=
  if !truthy g.clubId then
    (projectsList,
     dashed.map (fun _ =>
       setTextContent "Error: Club information is unavailable to load projects."), [])
  else
    (projectsList, dashed, [.fetch "GET" (clubUrl g "/projects") .none])

/-- Function `loadResources()` up to the request, on the children of `#resourcesList`. -/
def loadResources (g : Globals) (resourcesList : List Node) : List Node × List Effect :=
  if !truthy g.clubId then
    (setTextContent "Error: Club information is unavailable to load resources.", [])
  else
    (resourcesList, [.fetch "GET" (clubUrl g "/resources") .none])

/-- Function `loadClubProjectSubmissions()` up to the request, on the children of
`#clubSubmissionsList`. -/
def loadClubProjectSubmissions (g : Globals) (submissionsList : List Node) :
    List Node × List Effect :=
  if !truthy g.clubId then
    (setTextContent "Error: Club information is unavailable to load submissions.", [])
  else
    (submissionsList, [.fetch "GET" (clubUrl g "/pizza-grants") .none])

/-! ## Modal lifecycle: create and edit share one modal -/

/-- Payload answered to a create, update or delete request. -/
structure MutationResponse where
  message : Option String
  success : Bool
  error : Option String

/-- State of a modal that serves both the create and the edit mode: its `display`, its
`data-edit-id` attribute, the text of its header, the children and the `onclick`
attribute of its submit button, and the values of its form fields.  A field holds what
was last assigned to it: the value sanitization of particular input types is not
modelled. -/
structure EditModal (F : Type) where
  display : String
  editId : Option String
  header : String
  submitChildren : List Node
  submitOnclick : Option String
  form : F

/-- Function `editMeeting(id, title, description, date, startTime, endTime, location,
link)`; `id` is the text the attribute receives and `f` holds the seven field values. -/
def editMeeting (_m : EditModal MeetingForm) (id : String) (f : MeetingForm) :
    EditModal MeetingForm where
  form := f
  editId := some id
  header := "Edit Meeting"
  submitChildren := [createElement "i" "fas fa-save" "", createTextNode " Update Meeting"]
  submitOnclick := some "updateMeeting()"
  display := "block"

/-- Function `closeEditMeetingModal()`; `defaults` are the values `form.reset()`
restores. -/
def closeEditMeetingModal (defaults : MeetingForm) (_m : EditModal MeetingForm) :
    EditModal MeetingForm where
  display := "none"
  editId := none
  header := "Schedule Meeting"
  submitChildren :=
    [createElement "i" "fas fa-calendar-plus" "", createTextNode " Schedule Meeting"]
  submitOnclick := some "createMeeting()"
  form := defaults

/-- Function `openCreateMeetingModal()`. -/
def openCreateMeetingModal (defaults : MeetingForm) (m : EditModal MeetingForm) :
    EditModal MeetingForm :=
  let m := closeEditMeetingModal defaults m
  let m := { m with form := defaults }
  { m with display := "block" }

/-- Continuation of `createMeeting` on its response. -/
def createMeetingResponse (defaults : MeetingForm) (m : EditModal MeetingForm)
    (r : Outcome MutationResponse) : EditModal MeetingForm × List Effect :=
  match r with
  | .failure => (m, [showToast "error" "Error scheduling meeting" "Error"])
  | .response _ data =>
    if optTruthy data.message then
      ({ m with display := "none", form := defaults },
       [.load .loadMeetings,
        showToast "success" "Meeting scheduled successfully" "Meeting Scheduled"])
    else
      (m, [showToast "error" (orElseOpt data.error "Failed to schedule meeting") "Error"])

/-- Continuation of `updateMeeting` on its response. -/
def updateMeetingResponse (defaults : MeetingForm) (m : EditModal MeetingForm)
    (r : Outcome MutationResponse) : EditModal MeetingForm × List Effect :=
  match r with
  | .failure => (m, [showToast "error" "Error updating meeting" "Error"])
  | .response _ data =>
    if optTruthy data.message then
      (closeEditMeetingModal defaults m,
       [.load .loadMeetings,
        showToast "success" "Meeting updated successfully" "Meeting Updated"])
    else
      (m, [showToast "error" (orElseOpt data.error "Failed to update meeting") "Error"])

/-- Function `editResource(id, title, url, description, icon)`. -/
def editResource (_m : EditModal ResourceForm) (id : String) (f : ResourceForm) :
    EditModal ResourceForm where
  form := f
  editId := some id
  header := "Edit Resource"
  submitChildren := [createElement "i" "fas fa-save" "", createTextNode " Update Resource"]
  submitOnclick := some "updateResource()"
  display := "block"

/-- Function `closeEditResourceModal()`; `defaults` are the values `form.reset()`
restores. -/
def closeEditResourceModal (defaults : ResourceForm) (_m : EditModal ResourceForm) :
    EditModal ResourceForm where
  display := "none"
  editId := none
  header := "Add Resource"
  submitChildren := [createElement "i" "fas fa-plus" "", createTextNode " Add Resource"]
  submitOnclick := some "addResource()"
  form := defaults

/-- Function `openAddResourceModal()`. -/
def openAddResourceModal (defaults : ResourceForm) (m : EditModal ResourceForm) :
    EditModal ResourceForm :=
  let m := closeEditResourceModal defaults m
  let m := { m with form := defaults }
  { m with display := "block" }

/-- Continuation of `addResource` on its response. -/
def addResourceResponse (defaults : ResourceForm) (m : EditModal ResourceForm)
    (r : Outcome MutationResponse) : EditModal ResourceForm × List Effect :=
  match r with
  | .failure => (m, [showToast "error" "Error adding resource" "Error"])
  | .response _ data =>
    if optTruthy data.message then
      ({ m with display := "none", form := defaults },
       [.load .loadResources,
        showToast "success" "Resource added successfully" "Resource Added"])
    else
      (m, [showToast "error" (orElseOpt data.error "Failed to add resource") "Error"])

/-- Continuation of `updateResource` on its response. -/
def updateResourceResponse (defaults : ResourceForm) (m : EditModal ResourceForm)
    (r : Outcome MutationResponse) : EditModal ResourceForm × List Effect :=
  match r with
  | .failure => (m, [showToast "error" "Error updating resource" "Error"])
  | .response _ data =>
    if optTruthy data.message then
      (closeEditResourceModal defaults m,
       [.load .loadResources,
        showToast "success" "Resource updated successfully" "Resource Updated"])
    else
      (m, [showToast "error" (orElseOpt data.error "Failed to update resource") "Error"])

/-- An operation on the meeting modal: one of the three modal functions, or the
arrival of the response to a `createMeeting` or `updateMeeting` request (neither
function touches the modal before its response). -/
inductive MeetingOp where
  | openCreateMeetingModal
  | editMeeting (id : String) (f : MeetingForm)
  | closeEditMeetingModal
  | createMeeting (r : Outcome MutationResponse)
  | updateMeeting (r : Outcome MutationResponse)

/-- The modal after one operation. -/
def meetingStep (defaults : MeetingForm) (m : EditModal MeetingForm) :
    MeetingOp → EditModal MeetingForm
  | .openCreateMeetingModal => openCreateMeetingModal defaults m
  | .editMeeting id f => editMeeting m id f
  | .closeEditMeetingModal => closeEditMeetingModal defaults m
  | .createMeeting r => (createMeetingResponse defaults m r).1
  | .updateMeeting r => (updateMeetingResponse defaults m r).1

/-- An operation on the resource modal. -/
inductive ResourceOp where
  | openAddResourceModal
  | editResource (id : String) (f : ResourceForm)
  | closeEditResourceModal
  | addResource (r : Outcome MutationResponse)
  | updateResource (r : Outcome MutationResponse)

/-- The modal after one operation. -/
def resourceStep (defaults : ResourceForm) (m : EditModal ResourceForm) :
    ResourceOp → EditModal ResourceForm
  | .openAddResourceModal => openAddResourceModal defaults m
  | .editResource id f => editResource m id f
  | .closeEditResourceModal => closeEditResourceModal defaults m
  | .addResource r => (addResourceResponse defaults m r).1
  | .updateResource r => (updateResourceResponse defaults m r).1

/-- The mode invariant of a modal: the stamp is present exactly when the header and the
submit binding are those of the edit mode, and without the stamp they are those of the
create mode. -/
def ModeConsistent {F : Type} (editHeader editBinding createHeader createBinding : String)
    (m : EditModal F) : Prop :=
  (m.editId.isSome = true ↔ (m.header = editHeader ∧ m.submitOnclick = some editBinding)) ∧
  (m.editId = none → (m.header = createHeader ∧ m.submitOnclick = some createBinding))

/-! ## Navigation -/

/-- What an element is to the navigation controller: a section (class `club-section`),
a navigation control (class `nav-link`, with its `data-section` attribute if it has
one), or anything else.  No element is both a section and a navigation control. -/
inductive ElemKind where
  | clubSection
  | navLink (dataSection : Option String)
  | other

/-- An element of the page: its `id` (empty when it has none), its kind, and whether its
class list holds `active`. -/
structure Elem where
  id : String
  kind : ElemKind
  active : Bool

/-- Whether the element matches `.club-section`. -/
def Elem.isSection (e : Elem) : Bool :=
  match e.kind with
  | .clubSection => true
  | _ => false

/-- Whether the element matches `.nav-link`. -/
def Elem.isNavLink (e : Elem) : Bool :=
  match e.kind with
  | .navLink _ => true
  | _ => false

/-- Whether the element matches the selector `.nav-link[data-section="name"]`, read as
equality of the attribute with the name. -/
def Elem.isNavLinkFor (name : String) (e : Elem) : Bool :=
  match e.kind with
  | .navLink (some d) => d == name
  | _ => false

/-- The call `classList.remove('active')` on an element, made when it matches. -/
def Elem.withoutActive (matching : Elem → Bool) (e : Elem) : Elem :=
  if matching e then { e with active := false } else e

/-- The loop `forEach(x => x.classList.remove('active'))` over the elements that match. -/
def removeActive (matching : Elem → Bool) (page : List Elem) : List Elem :=
  page.map (Elem.withoutActive matching)

/-- The call `classList.add('active')` on the first element, in document order, that
matches; nothing changes when no element matches. -/
def addActiveToFirst (matching : Elem → Bool) : List Elem → List Elem
  | [] => []
  | e :: rest =>
    if matching e then { e with active := true } :: rest
    else e :: addActiveToFirst matching rest

/-- The call `document.getElementById(name)` for a non-empty name: the first element,
in document order, with that id. -/
def getElementById : List Elem → String → Option Elem
  | [], _ => none
  | e :: rest, name => if e.id == name then some e else getElementById rest name

/-- Function `loadSectionData(section)`. -/
def loadSectionData (sectionName : String) : List Effect :=
  if sectionName == "stream" then [.load .loadPosts]
  else if sectionName == "assignments" then [.load .loadAssignments]
  else if sectionName == "schedule" then [.load .loadMeetings]
  else if sectionName == "projects" then [.load .loadProjects]
  else if sectionName == "resources" then [.load .loadResources]
  else if sectionName == "pizza" then [.load .loadClubProjectSubmissions]
  else if sectionName == "shop" then [.load .loadPurchaseRequests]
  else []

/-- Function `openTab(sectionName)` on the elements of the page, in document order: the
page afterwards and the loaders it calls. -/
def openTab (page : List Elem) (sectionName : String) : List Elem × List Effect :=
  if !truthy sectionName then (page, [])
  else
    let page := removeActive Elem.isSection page
    match getElementById page sectionName with
    | some _ =>
      let page := addActiveToFirst (fun e => e.id == sectionName) page
      let page := removeActive Elem.isNavLink page
      let page := addActiveToFirst (Elem.isNavLinkFor sectionName) page
      (page, loadSectionData sectionName)
    | none => (page, [])

/-- The end of `initNavigation()`: the tab named by the URL fragment is opened, or the
tab `dashboard` when the fragment is empty.  `locationHash` is `window.location.hash`. -/
def initNavigation (page : List Elem) (locationHash : String) : List Elem × List Effect :=
  let hash := locationHash.drop 1
  if truthy hash then openTab page hash else openTab page "dashboard"

/-- Whether the name is the id of an existing section: it is not empty and the element
`getElementById` finds for it is a section. -/
def namesSection (page : List Elem) (name : String) : Bool :=
  truthy name &&
    match getElementById page name with
    | some e => e.isSection
    | none => false

/-- The sections of the page that are active. -/
def activeSections (page : List Elem) : List Elem :=
  page.filter fun e => e.isSection && e.active

/-- The navigation controls of the page that are active. -/
def activeNavLinks (page : List Elem) : List Elem :=
  page.filter fun e => e.isNavLink && e.active

/-! ## Send-code response -/

/-- Continuation of `sendVerificationCode` on its response. -/
def sendVerificationCodeResponse (m : VerificationModal) (r : Outcome VerifyResponse) :
    VerificationModal :=
  match r with
  | .failure =>
    { m with errorText := "Failed to send verification code", errorDisplay := "block" }
  | .response _ data =>
    if data.success then
      { m with successText := data.message.getD "", successDisplay := "block",
               errorDisplay := "none" }
    else
      { m with errorText := orElseOpt data.error "Failed to send verification code",
               errorDisplay := "block", successDisplay := "none" }

/-! ## Form submitters: the part after the request -/

/-- State of a modal that holds one form and has a single mode: its `display` and the
values of the fields of its form. -/
structure FormModal (F : Type) where
  display : String
  form : F

/-- Continuation of `createAssignment` on its response; `defaults` are the values
`form.reset()` restores. -/
def createAssignmentResponse (defaults : AssignmentForm) (m : FormModal AssignmentForm)
    (r : Outcome MutationResponse) : FormModal AssignmentForm × List Effect :=
  match r with
  | .failure => (m, [showToast "error" "Error creating assignment" "Error"])
  | .response _ data =>
    if optTruthy data.message then
      ({ m with display := "none", form := defaults },
       [.load .loadAssignments,
        showToast "success" "Assignment created successfully" "Assignment Created"])
    else
      (m, [showToast "error" (orElseOpt data.error "Failed to create assignment") "Error"])

/-- The text of a failure notification in the words of the specification: the error of
the server when it is present and not empty, the fixed text of the submitter
otherwise. -/
def serverErrorOr (error : Option String) (fallback : String) : String :=
  match error with
  | some e => if e = "" then fallback else e
  | none => fallback

/-- Payload answered to a purchase request; `new_balance` is a number when it is
defined. -/
structure PurchaseResponse where
  message : Option String
  error : Option String
  new_balance : Option JsNumber

/-- The part of the page `submitPurchaseRequest` writes after its request: the purchase
modal with its form, and, for every element of class `balance-display` in document
order, the text of its `.balance-amount` descendant (its own text when it has none). -/
structure PurchasePage where
  modal : FormModal PurchaseForm
  balanceTexts : List String

/-- Continuation of `submitPurchaseRequest` on its response: the globals, the page and
the effects afterwards.  `defaults` are the values `form.reset()` restores.  Without a
`new_balance` the success toast reads `data.new_balance.toFixed`, which throws on
`undefined`: the `catch` handler of the chain then shows its error toast, after the
modal was closed and the loader called. -/
def submitPurchaseRequestResponse (h : Host) (g : Globals) (defaults : PurchaseForm)
    (p : PurchasePage) (r : Outcome PurchaseResponse) : Globals × PurchasePage × List Effect :=
  match r with
  | .failure => (g, p, [showToast "error" "Error submitting purchase request" "Error"])
  | .response _ data =>
    if optTruthy data.message then
      let p : PurchasePage := { p with modal := { display := "none", form := defaults } }
      match data.new_balance with
      | some newBalance =>
        let p : PurchasePage :=
          { p with
            balanceTexts := p.balanceTexts.map fun text =>
              if jsIncludes text "$" then "$" ++ h.toFixed2 newBalance else text }
        let g : Globals :=
          { g with clubData := g.clubData.map fun cd => { cd with balance := some newBalance } }
        (g, p,
          [.load .loadPurchaseRequests,
           showToast "success"
             ("Purchase request submitted! New balance: $" ++ h.toFixed2 newBalance)
             "Request Submitted"])
      | none =>
        (g, p,
          [.load .loadPurchaseRequests,
           showToast "error" "Error submitting purchase request" "Error"])
    else
      (g, p,
        [showToast "error" (orElseOpt data.error "Failed to submit purchase request") "Error"])

/-! ## Confirmation modal and delete variants -/

/-- A string as the sequence of its UTF-16 code units, the form in which `length` and
`substring` see it. -/
abbrev CodeUnits := List Nat

/-- The code units of one code point. -/
def utf16Encode (c : Char) : CodeUnits :=
  if c.toNat < 0x10000 then [c.toNat]
  else [0xD800 + (c.toNat - 0x10000) / 0x400, 0xDC00 + (c.toNat - 0x10000) % 0x400]

/-- The code units of a string. -/
def utf16 (s : String) : CodeUnits := s.data.flatMap utf16Encode

/-- The method `substring(start, end)` for two natural numbers: the code units from the
smaller index up to the larger one, both clamped to the length. -/
def jsSubstring (s : CodeUnits) (start stop : Nat) : CodeUnits :=
  (s.take (max start stop)).drop (min start stop)

/-- The preview computed by the first definition of `deletePost`. -/
def deletePostPreviewEarlier (content : CodeUnits) : CodeUnits :=
  if content.length > 50 then jsSubstring content 0 50 ++ utf16 "..." else content

/-- The preview computed by the second definition of `deletePost`, the one in force. -/
def deletePostPreview (content : CodeUnits) : CodeUnits :=
  jsSubstring content 0 50 ++ (if content.length > 50 then utf16 "..." else utf16 "")

/-- The closures the controller hands to `showConfirmModal` as `onConfirm`, each with
the variables it captures.  An id is the text the template literal writes for it. -/
inductive OnConfirm where
  | deletePost (postId : String)
  | deleteAssignmentDesktop (assignmentId : String)
  | deleteMeetingDesktop (meetingId : String)
  | deleteResourceDesktop (resourceId : String)
  | removeMember (userId : String)
  | generateNewJoinCode

/-- The children `showConfirmModal` gives to `#confirmMessage`: a text node and, when
details are given, a line break and a `small` element holding them. -/
structure ConfirmMessage where
  message : CodeUnits
  details : Option CodeUnits

/-- State of the confirmation modal: the content of `#confirmMessage` (`none` when the
page has no such element), the `display` of `#confirmModal`, and the `onclick` handler
of `#confirmButton` (the closure it will run). -/
structure ConfirmModal where
  confirmMessage : Option ConfirmMessage
  display : String
  onclick : Option OnConfirm

/-- Function `showConfirmModal(message, details, onConfirm)`. -/
def showConfirmModal (m : ConfirmModal) (message details : CodeUnits)
    (onConfirm : OnConfirm) : ConfirmModal where
  confirmMessage := m.confirmMessage.map fun _ =>
    { message := message, details := if details.isEmpty then none else some details }
  display := "block"
  onclick := some onConfirm

/-- Function `removeMember(userId)` up to the request. -/
def removeMember (g : Globals) (userId : String) : List Effect :=
  if !truthy g.clubId then
    [showToast "error" "Cannot remove member: Club ID is missing." "Error"]
  else
    [.fetch "DELETE" (clubUrl g ("/members/" ++ userId)) .none]

/-- Running a closure handed to `showConfirmModal`, up to the request it issues. -/
def OnConfirm.run (g : Globals) : OnConfirm → List Effect
  | .deletePost postId => [.fetch "DELETE" (clubUrl g ("/posts/" ++ postId)) .none]
  | .deleteAssignmentDesktop assignmentId =>
    [.fetch "DELETE" (clubUrl g ("/assignments/" ++ assignmentId)) .none]
  | .deleteMeetingDesktop meetingId =>
    [.fetch "DELETE" (clubUrl g ("/meetings/" ++ meetingId)) .none]
  | .deleteResourceDesktop resourceId =>
    [.fetch "DELETE" (clubUrl g ("/resources/" ++ resourceId)) .none]
  | .removeMember userId => Dash.removeMember g userId
  | .generateNewJoinCode => [.fetch "POST" (clubUrl g "/join-code") .none]

/-- A click on `#confirmButton`: the handler `showConfirmModal` registered, if any, hides
the modal and runs the closure. -/
def clickConfirmButton (g : Globals) (m : ConfirmModal) : ConfirmModal × List Effect :=
  match m.onclick with
  | some onConfirm => ({ m with display := "none" }, onConfirm.run g)
  | none => (m, [])

/-- Function `deletePost(postId, content)`, the first of the two definitions of that
name (overridden by the second): the modal afterwards and the effects. -/
def deletePostEarlier (m : ConfirmModal) (postId : String) (content : CodeUnits) :
    ConfirmModal × List Effect :=
  let preview := deletePostPreviewEarlier content
  (showConfirmModal m (utf16 "Delete post?") (utf16 "\"" ++ preview ++ utf16 "\"")
    (.deletePost postId), [])

/-- Function `deletePost(postId, content)`, the second definition (the one in force). -/
def deletePost (m : ConfirmModal) (postId : String) (content : CodeUnits) :
    ConfirmModal × List Effect :=
  (showConfirmModal m (utf16 "Delete this post?")
    (utf16 "\"" ++ deletePostPreview content ++ utf16 "\"") (.deletePost postId), [])

/-- Function `deleteAssignmentDesktop(assignmentId, title)`. -/
def deleteAssignmentDesktop (m : ConfirmModal) (assignmentId : String) (title : CodeUnits) :
    ConfirmModal × List Effect :=
  (showConfirmModal m (utf16 "Delete \"" ++ title ++ utf16 "\"?")
    (utf16 "This action cannot be undone.") (.deleteAssignmentDesktop assignmentId), [])

/-- Function `deleteMeetingDesktop(meetingId, title)`. -/
def deleteMeetingDesktop (m : ConfirmModal) (meetingId : String) (title : CodeUnits) :
    ConfirmModal × List Effect :=
  (showConfirmModal m (utf16 "Delete \"" ++ title ++ utf16 "\"?")
    (utf16 "This action cannot be undone.") (.deleteMeetingDesktop meetingId), [])

/-- Function `deleteResourceDesktop(resourceId, title)`. -/
def deleteResourceDesktop (m : ConfirmModal) (resourceId : String) (title : CodeUnits) :
    ConfirmModal × List Effect :=
  (showConfirmModal m (utf16 "Delete \"" ++ title ++ utf16 "\"?")
    (utf16 "This action cannot be undone.") (.deleteResourceDesktop resourceId), [])

/-- Function `confirmRemoveMember(userId, username)`. -/
def confirmRemoveMember (m : ConfirmModal) (userId : String) (username : CodeUnits) :
    ConfirmModal × List Effect :=
  (showConfirmModal m (utf16 "Remove " ++ username ++ utf16 " from the club?")
    (utf16 "This action cannot be undone.") (.removeMember userId), [])

/-- A call of one of the five delete variants, with its arguments. -/
inductive DeleteVariant where
  | deletePost (postId : String) (content : CodeUnits)
  | deleteAssignmentDesktop (assignmentId : String) (title : CodeUnits)
  | deleteMeetingDesktop (meetingId : String) (title : CodeUnits)
  | deleteResourceDesktop (resourceId : String) (title : CodeUnits)
  | confirmRemoveMember (userId : String) (username : CodeUnits)

/-- Making the call. -/
def DeleteVariant.call (m : ConfirmModal) : DeleteVariant → ConfirmModal × List Effect
  | .deletePost postId content => Dash.deletePost m postId content
  | .deleteAssignmentDesktop assignmentId title => Dash.deleteAssignmentDesktop m assignmentId title
  | .deleteMeetingDesktop meetingId title => Dash.deleteMeetingDesktop m meetingId title
  | .deleteResourceDesktop resourceId title => Dash.deleteResourceDesktop m resourceId title
  | .confirmRemoveMember userId username => Dash.confirmRemoveMember m userId username

/-- The record a delete variant is about, as the path below the club's endpoint. -/
def DeleteVariant.path : DeleteVariant → String
  | .deletePost postId _ => "/posts/" ++ postId
  | .deleteAssignmentDesktop assignmentId _ => "/assignments/" ++ assignmentId
  | .deleteMeetingDesktop meetingId _ => "/meetings/" ++ meetingId
  | .deleteResourceDesktop resourceId _ => "/resources/" ++ resourceId
  | .confirmRemoveMember userId _ => "/members/" ++ userId

/-- Whether the variant checks the club id before its request (`removeMember` does). -/
def DeleteVariant.checksClubId : DeleteVariant → Bool
  | .confirmRemoveMember _ _ => true
  | _ => false

/-! ## Page initialization and the join code -/

/-- The two data attributes of the `.club-dashboard` element the controller reads. -/
structure Dataset where
  clubId : Option String
  joinCode : Option String

/-- The first `DOMContentLoaded` handler: the globals afterwards, the page after
`initNavigation()`, and the loaders called by it and by `loadInitialData()`.
`dashboardElement` is the `.club-dashboard` element, `none` when the page has none. -/
def domContentLoaded (g : Globals) (dashboardElement : Option Dataset) (page : List Elem)
    (locationHash : String) : Globals × List Elem × List Effect :=
  let g : Globals :=
    match dashboardElement with
    | some dataset =>
      { g with clubId := orElseOpt dataset.clubId "", joinCode := orElseOpt dataset.joinCode "" }
    | none => g
  let (page, opened) := initNavigation page locationHash
  let initial : List Effect :=
    if truthy g.clubId then
      [.load .loadPosts, .load .loadAssignments, .load .loadMeetings, .load .loadProjects]
    else []
  (g, page, opened ++ initial)

/-- Payload answered to the join-code request. -/
structure JoinCodeResponse where
  join_code : Option String

/-- The two places of the page that show the join code: the children of
`.join-code-display` and the value of the read-only input of the QR modal, each `none`
when the page has no such element. -/
structure JoinCodePage where
  joinCodeDisplay : Option (List Node)
  qrCodeInput : Option String

/-- Function `generateNewJoinCode()` up to the confirmation. -/
def generateNewJoinCode (g : Globals) (m : ConfirmModal) : ConfirmModal × List Effect :=
  if !truthy g.clubId then
    (m, [showToast "error" "Cannot generate new join code: Club ID is missing." "Error"])
  else
    (showConfirmModal m (utf16 "Generate a new join code?")
      (utf16 "The old code will stop working.") .generateNewJoinCode, [])

/-- Continuation of the join-code request on its response: the globals, the page and the
effects afterwards.  The new code is written to the page; no variable is assigned. -/
def generateNewJoinCodeResponse (g : Globals) (p : JoinCodePage)
    (r : Outcome JoinCodeResponse) : Globals × JoinCodePage × List Effect :=
  match r with
  | .failure => (g, p, [showToast "error" "Error generating join code" "Error"])
  | .response _ data =>
    if optTruthy data.join_code then
      let join_code := data.join_code.getD ""
      let p : JoinCodePage :=
        { joinCodeDisplay := p.joinCodeDisplay.map fun _ =>
            [createElement "i" "fas fa-key" "", createTextNode (" " ++ join_code)]
          qrCodeInput := p.qrCodeInput.map fun _ => join_code }
      (g, p, [showToast "success" "New join code generated!" "Generated"])
    else
      (g, p, [showToast "error" "Failed to generate new join code" "Error"])

/-- The join link `showQRModal()` builds from the variable `joinCode`; `origin` is
`window.location.origin`. -/
def joinUrl (g : Globals) (origin : String) : String :=
  origin ++ "/join-club?code=" ++ g.joinCode

/-! ## Endpoint of the verification requests -/

/-- The endpoint of the verification requests in the words of the specification:
`/verify-leader` on a page whose path contains it; otherwise the club's endpoint of the
stored action when that is one of the four known names, and the settings endpoint for
any other name. -/
def verificationEndpoint (g : Globals) (action : String) : String :=
  if jsIncludes g.pathname "/verify-leader" then "/verify-leader"
  else if action ∈ ["settings", "co-leader", "make-co-leader", "remove-co-leader"] then
    "/api/clubs/" ++ g.clubId ++ "/" ++ action
  else "/api/clubs/" ++ g.clubId ++ "/settings"

/-! ## Single-quoted string literals -/

/-- The apostrophe. -/
def apostrophe : Char := Char.ofNat 39

/-- The backslash. -/
def backslash : Char := Char.ofNat 92

/-- The code points that are line terminators of the language. -/
def isLineTerminator (c : Char) : Bool :=
  c.toNat == 0x0A || c.toNat == 0x0D || c.toNat == 0x2028 || c.toNat == 0x2029

/-- What reading a single-quoted string literal gives, its opening quote being consumed:
the string it denotes together with the source text after its closing quote; a syntax
error (the text or the line ends before a closing quote); or a numeric escape (`\x`,
`\u`, a digit), which this reader does not decode. -/
inductive Literal where
  | closed (value rest : List Char)
  | unterminated
  | numericEscape
  deriving DecidableEq

/-- One more character in front of the value of a literal. -/
def Literal.cons (c : Char) : Literal → Literal
  | .closed value rest => .closed (c :: value) rest
  | l => l

/-- The character a single-character escape denotes: `\b`, `\f`, `\n`, `\r`, `\t`, `\v`
are control characters, any other character stands for itself. -/
def singleEscape (c : Char) : Char :=
  if c = 'b' then Char.ofNat 8
  else if c = 'f' then Char.ofNat 12
  else if c = 'n' then Char.ofNat 10
  else if c = 'r' then Char.ofNat 13
  else if c = 't' then Char.ofNat 9
  else if c = 'v' then Char.ofNat 11
  else c

/-- Reading the source text after the opening quote of a single-quoted string literal.
An unescaped apostrophe closes the literal; a backslash escapes the character after it
(a backslash before a line terminator is a line continuation and denotes nothing); an
unescaped line feed or carriage return is a syntax error. -/
def readLiteral : List Char → Literal
  | [] => .unterminated
  | c :: rest =>
    if c = apostrophe then .closed [] rest
    else if c = backslash then
      match rest with
      | [] => .unterminated
      | e :: rest =>
        if e.isDigit || e = 'x' || e = 'u' then .numericEscape
        else if isLineTerminator e then
          match rest with
          | l :: rest => if e.toNat == 0x0D && l.toNat == 0x0A then readLiteral rest
            else readLiteral (l :: rest)
          | [] => .unterminated
        else (readLiteral rest).cons (singleEscape e)
    else if c.toNat == 0x0A || c.toNat == 0x0D then .unterminated
    else (readLiteral rest).cons c

/-- The source text of the argument the loaders write into an inline delete handler,
after the opening quote: the escaped text, the closing quote and the closing bracket. -/
def handlerArgument (text : String) : List Char :=
  (escapeQuotes text).data ++ [apostrophe, ')']

/-! ## Leadership transfer -/

/-- The part of the page the leadership transfer works on: the value and the text of the
selected option of `#newLeaderSelect`, the three texts of the modal, the confirmation
input, whether the confirm button is disabled, and the `display` of the modal. -/
structure TransferPage where
  selectedValue : String
  selectedText : String
  newLeaderName : String
  newLeaderEmail : String
  newLeaderAvatar : String
  confirmationInput : String
  confirmDisabled : Bool
  modalDisplay : String

/-- The expression `text.split(sep)[0]` for a separator that is not empty: the text
before the first occurrence of the separator. -/
def beforeFirst (sep : List Char) : List Char → List Char
  | [] => []
  | c :: cs => if sep.isPrefixOf (c :: cs) then [] else c :: beforeFirst sep cs

/-- The text up to the first closing bracket, `none` when a line terminator or the end
of the text comes first. -/
def untilClosing : List Char → Option (List Char)
  | [] => none
  | c :: cs =>
    if c = ')' then some []
    else if isLineTerminator c then none
    else (untilClosing cs).map (c :: ·)

/-- The first capture group of `text.match(/\((.*?)\)/)`, `none` when there is no
match. -/
def matchParenthesised : List Char → Option (List Char)
  | [] => none
  | c :: cs =>
    if c = '(' then
      match untilClosing cs with
      | some captured => some captured
      | none => matchParenthesised cs
    else matchParenthesised cs

/-- Function `initiateLeadershipTransfer()`: the page afterwards and the effects, `none`
when it throws (the text of the selected option has no bracketed part, so `match` gives
`null`; nothing has been written by then).  `charAt0` is the builtin `charAt(0)`. -/
def initiateLeadershipTransfer (h : Host) (charAt0 : String → String) (p : TransferPage) :
    Option (TransferPage × List Effect) :=
  let selectedValue := p.selectedValue
  if !truthy selectedValue then
    some (p, [showToast "error" "Please select a member to transfer leadership to"
      "Validation Error"])
  else
    let newLeaderName : String := ⟨beforeFirst " (".data p.selectedText.data⟩
    match matchParenthesised p.selectedText.data with
    | none => none
    | some newLeaderEmail =>
      some ({ p with
              newLeaderName := newLeaderName
              newLeaderEmail := ⟨newLeaderEmail⟩
              newLeaderAvatar := h.toUpperCase (charAt0 newLeaderName)
              confirmationInput := ""
              confirmDisabled := true
              modalDisplay := "block" }, [])

/-- The `input` listener of `#transferConfirmationInput`. -/
def transferInputListener (h : Host) (p : TransferPage) : TransferPage :=
  let isValid := h.toUpperCase (jsTrim p.confirmationInput) == "TRANSFER"
  { p with confirmDisabled := !isValid }

/-- The user changes the text of the confirmation input: the input holds the text and
its listener runs. -/
def typeConfirmation (h : Host) (p : TransferPage) (text : String) : TransferPage :=
  transferInputListener h { p with confirmationInput := text }

/-! ## Data of the concrete evaluations -/

/-- A page context used in the concrete evaluations below. -/
def sampleGlobals : Globals where
  clubId := "7"
  joinCode := "JOIN7"
  clubData := some { isLeader := true, balance := some (.fin 30), name := "Chess" }
  pathname := "/club-dashboard/7"

/-- The page context with a club balance of `-5`. -/
def overdrawnGlobals : Globals where
  clubId := "7"
  joinCode := "JOIN7"
  clubData := some { isLeader := true, balance := some (.fin (-5)), name := "Chess" }
  pathname := "/club-dashboard/7"

/-- A host with simple formatting functions, in November 2026 and on UTC; used in concrete
evaluations. -/
def sampleHost : Host where
  toFixed2 := fun n => if n = JsNumber.fin 30 then "30.00" else "0.00"
  numberToString := fun n => if n = JsNumber.fin 3 then "3" else "0"
  toUpperCase := fun t => t.toUpper
  toLocaleDateString := fun d => d
  getMonth := fun _ => some 10
  getFullYear := fun _ => some 2026
  thisMonth := 10
  thisYear := 2026
  timezoneOffset := fun _ => 0

/-- A purchase form with every text field filled and the given parsed amount. -/
def samplePurchase (amount : JsNumber) : PurchaseForm where
  leaderFirstName := "Ada"
  leaderLastName := "Byron"
  leaderEmail := "ada@club.org"
  purchaseType := "Pizza"
  purchaseDescription := "Two pizzas"
  purchaseReason := "Meeting"
  fulfillmentMethod := "Card"
  purchaseAmount := amount

/-- The validation error of the assignment and meeting submitters. -/
def requiredFieldsError : List Effect :=
  [showToast "error" "Please fill in all required fields" "Validation Error"]

/-- The validation error of the resource submitters. -/
def titleAndUrlError : List Effect :=
  [showToast "error" "Please fill in title and URL" "Validation Error"]

/-- An assignment form with the given title and description. -/
def sampleAssignment (title description : String) : AssignmentForm where
  title := title
  description := description
  dueDate := ""
  forAllMembers := true

/-- A meeting form with the given title, every other field filled. -/
def sampleMeeting (title : String) : MeetingForm where
  title := title
  description := "Weekly"
  date := "2026-11-06"
  startTime := "17:00"
  endTime := "18:00"
  location := "Room 2"
  link := ""

/-- A resource form with the given title. -/
def sampleResource (title : String) : ResourceForm where
  title := title
  url := "https://example.org"
  description := ""
  icon := "book"

/-- A grant form with every field filled in, a project and a screenshot selected, and
the given GitHub URL. -/
def sampleGrant (githubUrl : String) : GrantForm where
  memberSelect := "12"
  projectValue := .project { name := some "chess-bot", hours := "3.50" }
  projectText := some "chess-bot (3 hrs 30 mins)"
  firstName := "Ada"
  lastName := "Byron"
  email := "ada@club.org"
  birthday := "2008-01-01"
  description := "A chess bot"
  githubUrl := githubUrl
  liveUrl := "https://chess.example.org"
  learning := "Search"
  doingWell := "Snacks"
  improve := "More time"
  address1 := "1 Main St"
  address2 := ""
  city := "Springfield"
  state := "IL"
  zip := "62701"
  country := "US"
  inPersonMeeting := true
  screenshot := some "shot.png"

/-- The submit button of the grant modal before the submission. -/
def sampleButton : SubmitButton where
  textContent := "Submit"
  disabled := false

/-- The post of the concrete evaluations, by the given author. -/
def samplePost (username : String) : Post where
  id := 1
  content := "Welcome"
  user := { username := username }
  created_at := "2026-11-01"

/-- The assignment of the example scenario: id `1`, title `X`, status `active`, for all
members. -/
def sampleAssignmentRecord : Assignment where
  id := 1
  title := "X"
  description := ""
  due_date := none
  for_all_members := true
  status := "active"

/-- A meeting. -/
def sampleMeetingRecord : Meeting where
  id := 2
  title := "Kickoff"
  description := none
  meeting_date := "2026-11-06"
  start_time := "17:00"
  end_time := none
  location := none
  meeting_link := none

/-- A project. -/
def sampleProject : Project where
  name := "chess-bot"
  description := none
  owner := { username := "ada" }
  updated_at := "2026-11-02"
  featured := false

/-- A resource. -/
def sampleResourceRecord : Resource where
  id := 3
  title := "Docs"
  url := "https://example.org"
  description := none
  icon := "book"

/-- A grant submission with no optional field set. -/
def sampleSubmission : Submission where
  project_name := some "chess-bot"
  status := none
  grant_amount := none
  description := none
  first_name := none
  last_name := none
  github_username := none
  hours := none
  created_time := none
  code_url := none
  playable_url := none

/-- A purchase request with no optional field set. -/
def sampleRequest : PurchaseRequest where
  purchase_type := "Pizza"
  status := none
  amount := none
  description := none
  vendor := none
  fulfillment_method := none
  created_time := none
  reason := none

/-- The page context of a page that carries no club id. -/
def noClubGlobals : Globals where
  clubId := ""
  joinCode := ""
  clubData := none
  pathname := "/club-dashboard"

/-- A page with two sections and their navigation controls, the dashboard being open,
and the container of the posts. -/
def samplePage : List Elem :=
  [{ id := "", kind := .navLink (some "dashboard"), active := true },
   { id := "", kind := .navLink (some "stream"), active := false },
   { id := "dashboard", kind := .clubSection, active := true },
   { id := "stream", kind := .clubSection, active := false },
   { id := "postsList", kind := .other, active := false }]

/-- The values of the meeting form after `reset()`. -/
def blankMeetingForm : MeetingForm where
  title := ""
  description := ""
  date := ""
  startTime := ""
  endTime := ""
  location := ""
  link := ""

/-- The values of the resource form after `reset()`. -/
def blankResourceForm : ResourceForm where
  title := ""
  url := ""
  description := ""
  icon := "book"

/-- A modal is in one of its two modes: no stamp with the header and binding of the
create mode, or a stamp with those of the edit mode. -/
def InMode {F : Type} (editHeader editBinding createHeader createBinding : String)
    (m : EditModal F) : Prop :=
  (m.editId = none ∧ m.header = createHeader ∧ m.submitOnclick = some createBinding) ∨
  (m.editId.isSome = true ∧ m.header = editHeader ∧ m.submitOnclick = some editBinding)

/-- The meeting modal as the page delivers it: hidden, in create mode, blank. -/
def initialMeetingModal : EditModal MeetingForm where
  display := "none"
  editId := none
  header := "Schedule Meeting"
  submitChildren :=
    [createElement "i" "fas fa-calendar-plus" "", createTextNode " Schedule Meeting"]
  submitOnclick := some "createMeeting()"
  form := blankMeetingForm

/-- The resource modal as the page delivers it: hidden, in create mode, blank. -/
def initialResourceModal : EditModal ResourceForm where
  display := "none"
  editId := none
  header := "Add Resource"
  submitChildren := [createElement "i" "fas fa-plus" "", createTextNode " Add Resource"]
  submitOnclick := some "addResource()"
  form := blankResourceForm

/-- The settings page before a submission. -/
def sampleSettings : SettingsPage where
  clubName := "Chess"
  clubDescription := "We play chess"
  clubLocation := "Paris"
  submitDisabled := true
  submitHtml := "<i class=\"fas fa-spinner fa-spin\"></i> Saving..."
  clubHeader := some "Chess"
  locationHtml := none

/-- A purchase form with no purchase type and an amount input that does not parse. -/
def incompletePurchase : PurchaseForm where
  leaderFirstName := "Ada"
  leaderLastName := "Byron"
  leaderEmail := "ada@club.org"
  purchaseType := ""
  purchaseDescription := "Two pizzas"
  purchaseReason := "Meeting"
  fulfillmentMethod := "Card"
  purchaseAmount := .nan

/-- The filled-in grant form with a city made of one space. -/
def blankCityGrant : GrantForm :=
  { sampleGrant "https://github.com/ada/chess-bot" with city := " " }

/-- The values of the purchase form after `reset()`. -/
def blankPurchaseForm : PurchaseForm where
  leaderFirstName := ""
  leaderLastName := ""
  leaderEmail := ""
  purchaseType := ""
  purchaseDescription := ""
  purchaseReason := ""
  fulfillmentMethod := ""
  purchaseAmount := .nan

/-- The purchase modal, open with a filled-in form, on a page with one balance display
and one display that shows no amount. -/
def samplePurchasePage : PurchasePage where
  modal := { display := "block", form := samplePurchase (.fin 20) }
  balanceTexts := ["$30.00", "Balance"]

/-- A success payload of the purchase endpoint that carries a message and no
`new_balance`. -/
def messageOnlyResponse : PurchaseResponse where
  message := some "Purchase request submitted"
  error := none
  new_balance := none

/-- A failure payload of a create or update request: no message, an error text. -/
def titleTooLong : MutationResponse where
  message := none
  success := false
  error := some "Title too long"

/-- An open assignment modal with a filled-in form. -/
def sampleAssignmentModal : FormModal AssignmentForm where
  display := "block"
  form := sampleAssignment "Essay" "Two pages"

/-- The confirmation modal as the page delivers it: hidden, no handler registered. -/
def initialConfirmModal : ConfirmModal where
  confirmMessage := some { message := [], details := none }
  display := "none"
  onclick := none

/-- A page that shows the join code in both places. -/
def sampleJoinCodePage : JoinCodePage where
  joinCodeDisplay := some [createElement "i" "fas fa-key" "", createTextNode " JOIN7"]
  qrCodeInput := some "JOIN7"

/-- A success payload of the purchase endpoint with the new balance `10`. -/
def balanceTenResponse : PurchaseResponse where
  message := some "Purchase request submitted"
  error := none
  new_balance := some (.fin 10)

/-- The answer of the settings endpoint that asks for a verification of
`lead@club.org`. -/
def verificationRequired : ActionResponse where
  requires_verification := true
  verification_email := "lead@club.org"
  success := false
  message := none
  error := none

/-- A post content that holds a backslash before an apostrophe, followed by script
text: the thirteen characters of `\');alert(1);//` written by their code points. -/
def hostileContent : String :=
  ⟨[backslash, apostrophe, ')', ';', 'a', 'l', 'e', 'r', 't', '(', '1', ')', ';', '/', '/']⟩

/-- The filled-in grant form with a live URL made of one space. -/
def blankLiveUrlGrant : GrantForm :=
  { sampleGrant "https://github.com/ada/chess-bot" with liveUrl := " " }

/-- The transfer page with a member selected, the modal closed, and the confirmation
input still holding a confirmation typed earlier. -/
def sampleTransferPage : TransferPage where
  selectedValue := "12"
  selectedText := "Ada Byron (ada@club.org)"
  newLeaderName := ""
  newLeaderEmail := ""
  newLeaderAvatar := ""
  confirmationInput := "TRANSFER"
  confirmDisabled := false
  modalDisplay := "none"

/-- The same page with the placeholder option selected: no member. -/
def noMemberTransferPage : TransferPage :=
  { sampleTransferPage with selectedValue := "", selectedText := "Select a member" }

/-- The first character of a text as a text of its own, for texts that start in the
basic plane. -/
def firstCharacter (s : String) : String := ⟨s.data.take 1⟩

/-- The sample host with an upper-casing that works character by character. -/
def upperCaseHost : Host :=
  { sampleHost with toUpperCase := fun t => ⟨t.data.map Char.toUpper⟩ }

/-- The sample host in a browser five hours behind UTC. -/
def westernHost : Host :=
  { sampleHost with timezoneOffset := fun _ => 300 }

/-- The sample meeting held on the given date. -/
def meetingOn (date : String) : Meeting :=
  { sampleMeetingRecord with meeting_date := date }

/-! ## Properties of the verification flow -/

/-- A one-element array is never equal to its own element. -/
theorem JsVal.arr_singleton_ne (v : JsVal) : JsVal.arr [v] ≠ v := by
  intro h
  have hs := congrArg sizeOf h
  simp at hs
  omega

/-- C1 (defect in the code).  After `makeCoLeader(userId)` was answered with
`requires_verification` and the verify call with success and `email_verified`, the flow
replays `makeCoLeader` with the verified flag set, but its first argument is the stored
`params` array `[userId]`, not `userId`: the replayed request body carries
`user_id = [userId]`, which differs from the `user_id` of the original request. -/
theorem makeCoLeader_replay_wraps_userId (g : Globals) (m : VerificationModal)
    (p : SettingsPage) (userId : JsVal) (data : ActionResponse) (v : VerifyResponse)
    (s1 s2 : Nat) (c : Bool) :
    let opened := makeCoLeaderResponse g m userId false
      (.response s1 { data with requires_verification := true })
    let replayed := verifyEmailCodeResponse opened.1
      (.response s2 { v with success := true, email_verified := true })
    makeCoLeader g true userId false =
        [.fetch "POST" (clubUrl g "/make-co-leader")
          (.json (.obj [("user_id", userId), ("email_verified", .bool false)]))] ∧
      replayed.2 = some (Call.makeCoLeader (.arr [userId]) true) ∧
      (replayed.2.map (runCall g p c)) = some
        [.fetch "POST" (clubUrl g "/make-co-leader")
          (.json (.obj [("user_id", .arr [userId]), ("email_verified", .bool true)]))] ∧
      JsVal.arr [userId] ≠ userId := by
  refine ⟨rfl, ?_, ?_, JsVal.arr_singleton_ne userId⟩
  · simp [makeCoLeaderResponse, verifyEmailCodeResponse, showEmailVerificationModal,
      closeEmailVerificationModal, showVerificationSuccess, windowCall]
  · simp [makeCoLeaderResponse, verifyEmailCodeResponse, showEmailVerificationModal,
      closeEmailVerificationModal, showVerificationSuccess, windowCall, runCall, makeCoLeader]

/-- The replay of `updateClubSettings` passes the stored `null` and the verified flag. -/
theorem updateClubSettings_replay (g : Globals) (m : VerificationModal) (p : SettingsPage)
    (o n l : String) (data : ActionResponse) (v : VerifyResponse) (s : Nat) :
    let opened := updateClubSettingsResponse g m p o n l
      (.response 403 { data with requires_verification := true })
    (verifyEmailCodeResponse opened.2.1
      (.response s { v with success := true, email_verified := true })).2 =
      some (Call.updateClubSettings .null true) := by
  simp [updateClubSettingsResponse, verifyEmailCodeResponse, showEmailVerificationModal,
    closeEmailVerificationModal, showVerificationSuccess, windowCall]

/-- The replay of `removeCoLeader` passes the stored `null` and the verified flag. -/
theorem removeCoLeader_replay (g : Globals) (m : VerificationModal)
    (data : ActionResponse) (v : VerifyResponse) (s1 s2 : Nat) :
    let opened := removeCoLeaderResponse g m false
      (.response s1 { data with requires_verification := true })
    (verifyEmailCodeResponse opened.1
      (.response s2 { v with success := true, email_verified := true })).2 =
      some (Call.removeCoLeader .null true) := by
  simp [removeCoLeaderResponse, verifyEmailCodeResponse, showEmailVerificationModal,
    closeEmailVerificationModal, showVerificationSuccess, windowCall]

/-- The empty string has no code units. -/
theorem jsLength_of_not_truthy (s : String) (h : truthy s = false) : jsLength s = 0 := by
  have hs : s = "" := by simpa [truthy] using h
  subst hs
  rfl

/-- C2 (as stated, refuted).  The input `"1234 "` has exactly five characters, yet
`verifyEmailCode` issues no request for it and shows the inline error: the length test
is made on the trimmed input. -/
theorem verifyEmailCode_five_chars_rejected :
    jsLength "1234 " = 5 ∧
    (verifyEmailCode sampleGlobals
      { createEmailVerificationModal with codeInput := "1234 " }).2 = [] ∧
    (verifyEmailCode sampleGlobals
      { createEmailVerificationModal with codeInput := "1234 " }).1.errorDisplay = "block" ∧
    (verifyEmailCode sampleGlobals
      { createEmailVerificationModal with codeInput := "1234 " }).1.errorText =
        "Please enter a valid 5-digit code" := by
  refine ⟨by decide, ?_, ?_, ?_⟩ <;> rfl

/-- A six-character input whose trimmed form has five is sent to the server. -/
theorem verifyEmailCode_six_chars_accepted :
    jsLength " 12345" = 6 ∧
    (verifyEmailCode sampleGlobals
      { createEmailVerificationModal with codeInput := " 12345" }).2.any Effect.isFetch
        = true := by
  refine ⟨by decide, ?_⟩
  rfl

/-- C2 (amended).  `verifyEmailCode` issues the verify request exactly when the input,
with surrounding white space trimmed, has five UTF-16 code units; otherwise it issues
nothing at all and shows an inline error (hiding the success message). -/
theorem verifyEmailCode_request_iff_trimmed_length (g : Globals) (m : VerificationModal) :
    ((verifyEmailCode g m).2.any Effect.isFetch = true ↔
        jsLength (jsTrim m.codeInput) = 5) ∧
    (jsLength (jsTrim m.codeInput) = 5 ∨
      ((verifyEmailCode g m).2 = [] ∧
       (verifyEmailCode g m).1 = showVerificationError m
          (if truthy (jsTrim m.codeInput) then "Please enter a valid 5-digit code"
           else "Please enter the verification code"))) := by
  unfold verifyEmailCode
  by_cases ht : truthy (jsTrim m.codeInput) = true
  · by_cases hl : jsLength (jsTrim m.codeInput) = 5
    · simp [ht, hl, Effect.isFetch]
    · simp [ht, hl]
  · have ht0 : truthy (jsTrim m.codeInput) = false := by simpa using ht
    have hl := jsLength_of_not_truthy _ ht0
    simp [ht0, hl]

/-! ## Properties of the purchase request form -/

/-- C3 (as stated, refuted).  Amount `-1` against balance `-5`: the amount exceeds the
balance and every other required field is filled, yet the rejection shown is the
invalid-amount message, not the exceeds-balance one. -/
theorem submitPurchaseRequest_negative_amount :
    (JsNumber.fin (-1)).gt (clubBalance overdrawnGlobals) = true ∧
    purchaseMissingFields (samplePurchase (.fin (-1))) = [] ∧
    submitPurchaseRequest sampleHost overdrawnGlobals (samplePurchase (.fin (-1))) =
      [showToast "error" "Please enter a valid amount" "Validation Error"] := by
  refine ⟨?_, ?_, ?_⟩
  · simp [clubBalance, overdrawnGlobals, JsNumber.truthy, JsNumber.gt]
  · simp [purchaseMissingFields, samplePurchase, truthy, JsNumber.truthy]
  · simp [submitPurchaseRequest, purchaseMissingFields, samplePurchase, truthy,
      JsNumber.truthy, JsNumber.isNaN, JsNumber.le, JsNumber.zero]

/-- An amount above the club balance never reaches the request: it is stopped by the
missing-fields test, by the amount test or by the balance test. -/
theorem submitPurchaseRequest_no_request_of_gt (h : Host) (g : Globals) (f : PurchaseForm)
    (hgt : f.purchaseAmount.gt (clubBalance g) = true) :
    (submitPurchaseRequest h g f).any Effect.isFetch = false := by
  unfold submitPurchaseRequest
  simp only [hgt]
  split
  · simp [showToast, Effect.isFetch]
  · split
    · simp [showToast, Effect.isFetch]
    · simp [showToast, Effect.isFetch]

/-- C3 (amended).  Whenever the amount exceeds the club balance, `submitPurchaseRequest`
issues no network call; if moreover the other required fields are filled and the amount
is greater than zero, the one thing it does is to show the exceeds-balance message.  A
missing `clubData` and a missing balance both count as balance `0`. -/
theorem submitPurchaseRequest_exceeds_balance (h : Host) (g : Globals) (f : PurchaseForm)
    (hgt : f.purchaseAmount.gt (clubBalance g) = true) :
    (submitPurchaseRequest h g f).any Effect.isFetch = false ∧
    (truthy f.purchaseType = true → truthy f.purchaseDescription = true →
      truthy f.purchaseReason = true → truthy f.fulfillmentMethod = true →
      f.purchaseAmount.gt .zero = true →
      submitPurchaseRequest h g f =
        [showToast "error"
          ("Amount cannot exceed club balance of $" ++ h.toFixed2 (clubBalance g))
          "Insufficient Balance"]) ∧
    clubBalance { g with clubData := none } = .zero ∧
    (∀ cd : ClubData, clubBalance { g with clubData := some { cd with balance := none } }
      = .zero) := by
  refine ⟨submitPurchaseRequest_no_request_of_gt h g f hgt, ?_, rfl, fun _ => rfl⟩
  intro h1 h2 h3 h4 hpos
  have hamt : f.purchaseAmount.truthy = true ∧ f.purchaseAmount.isNaN = false ∧
      f.purchaseAmount.le .zero = false := by
    cases hq : f.purchaseAmount with
    | nan => simp [hq, JsNumber.gt, JsNumber.zero] at hpos
    | negInf => simp [hq, JsNumber.gt, JsNumber.zero] at hpos
    | posInf => simp [JsNumber.truthy, JsNumber.isNaN, JsNumber.le, JsNumber.zero]
    | fin q =>
      have hq0 : (0 : ℚ) < q := by simpa [hq, JsNumber.gt, JsNumber.zero] using hpos
      have hne : q ≠ 0 := ne_of_gt hq0
      simp [JsNumber.truthy, JsNumber.isNaN, JsNumber.le, JsNumber.zero, hne, hq0]
  obtain ⟨ht, hn, hle⟩ := hamt
  simp [submitPurchaseRequest, purchaseMissingFields, h1, h2, h3, h4, ht, hn, hle, hgt]

/-- C3 (witness): amount `50` against `window.clubData.balance = 30`. -/
theorem submitPurchaseRequest_exceeds_balance_witness :
    (JsNumber.fin 50).gt (clubBalance sampleGlobals) = true ∧
    (submitPurchaseRequest sampleHost sampleGlobals (samplePurchase (.fin 50))).any
      Effect.isFetch = false ∧
    submitPurchaseRequest sampleHost sampleGlobals (samplePurchase (.fin 50)) =
      [showToast "error" "Amount cannot exceed club balance of $30.00"
        "Insufficient Balance"] := by
  have hgt : (samplePurchase (.fin 50)).purchaseAmount.gt (clubBalance sampleGlobals)
      = true := by
    simp [samplePurchase, clubBalance, sampleGlobals, JsNumber.truthy, JsNumber.gt]
    norm_num
  have key := submitPurchaseRequest_exceeds_balance sampleHost sampleGlobals
    (samplePurchase (.fin 50)) hgt
  refine ⟨hgt, key.1, ?_⟩
  have := key.2.1 (by decide) (by decide) (by decide) (by decide)
    (by simp [samplePurchase, JsNumber.gt, JsNumber.zero])
  simpa [sampleHost, clubBalance, sampleGlobals, JsNumber.truthy] using this

/-! ## Properties of the form submitters -/

/-- A string is truthy exactly when it is not the empty string. -/
theorem truthy_iff (s : String) : truthy s = true ↔ s ≠ "" := by
  simp [truthy]

/-- C4.  With a club id present, each of the five submitters issues its request exactly
when every required field is non-empty, whatever the optional fields hold; when a
required field is the empty string the one thing it does is to show its validation
error. -/
theorem submitters_request_iff_required_filled (g : Globals) (hclub : g.clubId ≠ "")
    (a : AssignmentForm) (mf : MeetingForm) (rf : ResourceForm) (editId : Option String) :
    (((createAssignment g a).any Effect.isFetch = true ↔ (a.title ≠ "" ∧ a.description ≠ "")) ∧
      ((a.title = "" ∨ a.description = "") → createAssignment g a = requiredFieldsError)) ∧
    (((createMeeting g mf).any Effect.isFetch = true ↔
        (mf.title ≠ "" ∧ mf.date ≠ "" ∧ mf.startTime ≠ "")) ∧
      ((mf.title = "" ∨ mf.date = "" ∨ mf.startTime = "") →
        createMeeting g mf = requiredFieldsError)) ∧
    (((updateMeeting g editId mf).any Effect.isFetch = true ↔
        (mf.title ≠ "" ∧ mf.date ≠ "" ∧ mf.startTime ≠ "")) ∧
      ((mf.title = "" ∨ mf.date = "" ∨ mf.startTime = "") →
        updateMeeting g editId mf = requiredFieldsError)) ∧
    (((addResource g rf).any Effect.isFetch = true ↔ (rf.title ≠ "" ∧ rf.url ≠ "")) ∧
      ((rf.title = "" ∨ rf.url = "") → addResource g rf = titleAndUrlError)) ∧
    (((updateResource g editId rf).any Effect.isFetch = true ↔
        (rf.title ≠ "" ∧ rf.url ≠ "")) ∧
      ((rf.title = "" ∨ rf.url = "") → updateResource g editId rf = titleAndUrlError)) := by
  refine ⟨?_, ?_, ?_, ?_, ?_⟩
  · by_cases h1 : a.title = "" <;> by_cases h2 : a.description = "" <;>
      simp [createAssignment, requiredFieldsError, hclub, truthy, h1, h2, showToast,
        Effect.isFetch]
  · by_cases h1 : mf.title = "" <;> by_cases h2 : mf.date = "" <;>
      by_cases h3 : mf.startTime = "" <;>
      simp [createMeeting, requiredFieldsError, hclub, truthy, h1, h2, h3, showToast,
        Effect.isFetch]
  · by_cases h1 : mf.title = "" <;> by_cases h2 : mf.date = "" <;>
      by_cases h3 : mf.startTime = "" <;>
      simp [updateMeeting, requiredFieldsError, truthy, h1, h2, h3, showToast,
        Effect.isFetch]
  · by_cases h1 : rf.title = "" <;> by_cases h2 : rf.url = "" <;>
      simp [addResource, titleAndUrlError, hclub, truthy, h1, h2, showToast, Effect.isFetch]
  · by_cases h1 : rf.title = "" <;> by_cases h2 : rf.url = "" <;>
      simp [updateResource, titleAndUrlError, truthy, h1, h2, showToast, Effect.isFetch]

/-- C4 (witness): club `7`; an assignment with an empty description is rejected and one
with both fields filled is sent. -/
theorem submitters_request_iff_required_filled_witness :
    sampleGlobals.clubId ≠ "" ∧
    createAssignment sampleGlobals (sampleAssignment "Essay" "") = requiredFieldsError ∧
    (createAssignment sampleGlobals (sampleAssignment "Essay" "Two pages")).any
      Effect.isFetch = true := by
  have key := submitters_request_iff_required_filled sampleGlobals (by decide)
    (sampleAssignment "Essay" "") (sampleMeeting "Kickoff") (sampleResource "Docs") none
  have key2 := submitters_request_iff_required_filled sampleGlobals (by decide)
    (sampleAssignment "Essay" "Two pages") (sampleMeeting "Kickoff") (sampleResource "Docs")
    none
  exact ⟨by decide, key.1.2 (Or.inr rfl), key2.1.1.2 ⟨by decide, by decide⟩⟩

/-- The two submitters that trim, `createPost` and `updateClubSettings`, reject a
required field made of white space only and issue no request. -/
theorem trimming_submitters_reject_whitespace (g : Globals) (p : SettingsPage)
    (content : String) (params : JsVal) (verified : Bool)
    (hc : jsTrim content = "") (hn : jsTrim p.clubName = "") :
    (createPost g content).any Effect.isFetch = false ∧
    (updateClubSettings g p params verified).2.any Effect.isFetch = false := by
  constructor
  · unfold createPost
    split
    · simp [showToast, Effect.isFetch]
    · simp [hc, truthy, showToast, Effect.isFetch]
  · unfold updateClubSettings
    split
    · simp [showToast, Effect.isFetch]
    · simp [hn, truthy, showToast, Effect.isFetch]

/-- C5 (defect in the code).  A title made of one space passes the required-field test
of `createAssignment`, `createMeeting`, `updateMeeting`, `addResource` and
`updateResource`: each of them issues its request, with the blank title in the body. -/
theorem whitespace_title_is_submitted :
    jsTrim " " = "" ∧
    createAssignment sampleGlobals (sampleAssignment " " "Two pages") =
      [.fetch "POST" "/api/clubs/7/assignments"
        (.json (.obj [("title", .str " "), ("description", .str "Two pages"),
          ("due_date", .null), ("for_all_members", .bool true)]))] ∧
    createMeeting sampleGlobals (sampleMeeting " ") =
      [.fetch "POST" "/api/clubs/7/meetings" (.json (meetingBody (sampleMeeting " ")))] ∧
    updateMeeting sampleGlobals (some "3") (sampleMeeting " ") =
      [.fetch "PUT" "/api/clubs/7/meetings/3" (.json (meetingBody (sampleMeeting " ")))] ∧
    addResource sampleGlobals (sampleResource " ") =
      [.fetch "POST" "/api/clubs/7/resources" (.json (resourceBody (sampleResource " ")))] ∧
    updateResource sampleGlobals (some "3") (sampleResource " ") =
      [.fetch "PUT" "/api/clubs/7/resources/3"
        (.json (resourceBody (sampleResource " ")))] := by
  refine ⟨by decide, ?_, ?_, ?_, ?_, ?_⟩ <;> rfl

/-! ## Properties of the grant submission -/

/-- C6 (as stated, refuted).  With a screenshot selected and a blank GitHub URL the
validation fails, yet a network call has been issued: the screenshot upload, which
`submitCardGrant` starts before any field is validated. -/
theorem grant_validation_failure_after_upload :
    hasHttpScheme (jsTrim (sampleGrant "").githubUrl) = false ∧
    (grantSubmission sampleGlobals (sampleGrant "") sampleButton
      (.response { success := true, url := "https://cdn.example.org/s.png", error := none })).2 =
      [uploadRequest "shot.png",
       showToast "error" "GitHub URL must start with http:// or https://"
         "Validation Error"] ∧
    (grantSubmission sampleGlobals (sampleGrant "") sampleButton
      (.response { success := true, url := "https://cdn.example.org/s.png", error := none })).2.any
      Effect.isFetch = true := by
  refine ⟨by decide, ?_, ?_⟩ <;> rfl

/-- The continuation of the upload issues no request when the validation fails: it shows
one error toast and gives the button back. -/
theorem submitGrantWithScreenshot_rejects (g : Globals) (f : GrantForm) (url : String)
    (pd : Option ProjectData) (originalText : String)
    (hfail : hasHttpScheme (jsTrim f.githubUrl) = false ∨
      hasHttpScheme (jsTrim f.liveUrl) = false ∨ f.inPersonMeeting = false ∨
      grantMissingFields (grantFormData f url pd) ≠ []) :
    ∃ message title, submitGrantWithScreenshot g f url pd originalText =
      ({ textContent := originalText, disabled := false },
       [showToast "error" message title]) := by
  unfold submitGrantWithScreenshot
  by_cases h1 : hasHttpScheme (jsTrim f.githubUrl) = true
  · by_cases h2 : hasHttpScheme (jsTrim f.liveUrl) = true
    · by_cases h3 : f.inPersonMeeting = true
      · have h4 : grantMissingFields (grantFormData f url pd) ≠ [] := by
          rcases hfail with h | h | h | h
          · simp [h] at h1
          · simp [h] at h2
          · simp [h] at h3
          · exact h
        have h5 : (grantMissingFields (grantFormData f url pd)).length > 0 :=
          List.length_pos.2 h4
        exact ⟨"Please fill in: " ++
          ", ".intercalate (grantMissingFields (grantFormData f url pd)), "Missing Fields",
          by simp [h1, h2, h3, h5]⟩
      · exact ⟨"You must confirm this project was worked on during an in-person meeting",
          "Validation Error", by simp [h1, h2, h3]⟩
    · exact ⟨"Live URL must start with http:// or https://", "Validation Error",
        by simp [h1, h2]⟩
  · exact ⟨"GitHub URL must start with http:// or https://", "Validation Error",
      by simp [h1]⟩

/-- C6 (amended).  With a screenshot file selected and a readable project selection,
`submitCardGrant` issues the screenshot upload before any field is validated.  When
the upload succeeds and the client-side validation then fails (a required field is
blank, the trimmed GitHub or live URL has no `http://` or `https://` scheme, or the
in-person-meeting box is unchecked), the failure is handled locally: the upload is the
one network call of the whole submission, no grant request is issued, one error toast
is shown and the button gets its text back and is enabled. -/
theorem grant_validation_failure_only_upload (g : Globals) (f : GrantForm)
    (button : SubmitButton) (file : String) (data : UploadResponse)
    (hfile : f.screenshot = some file) (hsel : f.projectValue.parses = true)
    (hok : data.success = true)
    (hfail : hasHttpScheme (jsTrim f.githubUrl) = false ∨
      hasHttpScheme (jsTrim f.liveUrl) = false ∨ f.inPersonMeeting = false ∨
      grantMissingFields (grantFormData f data.url f.projectValue.data) ≠ []) :
    (submitCardGrant f button).2.1 = [uploadRequest file] ∧
    ∃ message title, grantSubmission g f button (.response data) =
      ({ textContent := button.textContent, disabled := false },
       [uploadRequest file, showToast "error" message title]) := by
  obtain ⟨message, title, hrej⟩ :=
    submitGrantWithScreenshot_rejects g f data.url f.projectValue.data button.textContent hfail
  cases hp : f.projectValue with
  | invalid => simp [hp, ProjectValue.parses] at hsel
  | empty =>
    rw [hp] at hrej
    refine ⟨by simp [submitCardGrant, hp, hfile], message, title, ?_⟩
    simp only [ProjectValue.data] at hrej
    simp [grantSubmission, submitCardGrant, hp, hfile, submitCardGrantResponse, hok, hrej]
  | project d =>
    rw [hp] at hrej
    refine ⟨by simp [submitCardGrant, hp, hfile], message, title, ?_⟩
    simp only [ProjectValue.data] at hrej
    simp [grantSubmission, submitCardGrant, hp, hfile, submitCardGrantResponse, hok, hrej]

/-- C6 (witness): the filled-in form with a GitHub URL that has no scheme. -/
theorem grant_validation_failure_only_upload_witness :
    (sampleGrant "github.com/ada/chess-bot").screenshot = some "shot.png" ∧
    (submitCardGrant (sampleGrant "github.com/ada/chess-bot") sampleButton).2.1 =
      [uploadRequest "shot.png"] ∧
    ∃ message title,
      grantSubmission sampleGlobals (sampleGrant "github.com/ada/chess-bot") sampleButton
        (.response { success := true, url := "https://cdn.example.org/s.png", error := none }) =
      ({ textContent := sampleButton.textContent, disabled := false },
       [uploadRequest "shot.png", showToast "error" message title]) := by
  have key := grant_validation_failure_only_upload sampleGlobals
    (sampleGrant "github.com/ada/chess-bot") sampleButton "shot.png"
    { success := true, url := "https://cdn.example.org/s.png", error := none }
    rfl rfl rfl (Or.inl (by decide))
  exact ⟨rfl, key.1, key.2⟩

/-! ## Properties of the section loaders -/

/-- The loop of a loader appends the cards of the items, in order, to the container. -/
theorem renderCards_eq {α : Type} (card : α → Node) (kids : List Node) (items : List α) :
    renderCards card kids items = kids ++ items.map card := by
  induction items generalizing kids with
  | nil => simp [renderCards]
  | cons item rest ih => simp [renderCards, ih]

/-- The placeholder is one element of class `empty-state`. -/
theorem emptyState_className (iconClass title description : String) :
    (emptyState iconClass title description).className = "empty-state" := rfl

/-- C7.  For every section loader and every prior content of its container: on a success
response whose collection is empty or absent, the container afterwards holds exactly one
child, the empty-state placeholder of the section, and the count badge of the
assignments, meetings and projects sections reads `0`. -/
theorem loaders_empty_collection (h : Host) (g : Globals) (prior : List Node)
    (count : String) (status : Nat)
    (posts : Option (List Post)) (assignments : Option (List Assignment))
    (meetings : Option (List Meeting)) (projects : Option (List Project))
    (resources : Option (List Resource)) (submissions : SubmissionsResponse)
    (requests : RequestsResponse)
    (hposts : posts.getD [] = []) (hassignments : assignments.getD [] = [])
    (hmeetings : meetings.getD [] = []) (hprojects : projects.getD [] = [])
    (hresources : resources.getD [] = [])
    (hsubmissions : optTruthy submissions.error = false ∧ submissions.submissions.getD [] = [])
    (hrequests : optTruthy requests.error = false ∧ requests.requests.getD [] = []) :
    (loadPostsResponse h g prior (.response status posts)).1 =
      [emptyState "fas fa-stream" "No posts yet"
        "Be the first to share something with your club!"] ∧
    (loadAssignmentsResponse h g prior count (.response status assignments)).1 =
      [emptyState "fas fa-clipboard-list" "No assignments yet"
        "Create your first assignment to get started!"] ∧
    (loadAssignmentsResponse h g prior count (.response status assignments)).2.1 = "0" ∧
    (loadMeetingsResponse h g prior count (.response status meetings)).1 =
      [emptyState "fas fa-calendar-times" "No meetings scheduled"
        "Schedule your first club meeting to get started!"] ∧
    (loadMeetingsResponse h g prior count (.response status meetings)).2.1 = "0" ∧
    (loadProjectsResponse h prior count (.response status projects)).1 =
      [emptyState "fas fa-code" "No projects yet"
        "Members can start creating projects to showcase here!"] ∧
    (loadProjectsResponse h prior count (.response status projects)).2.1 = "0" ∧
    (loadResourcesResponse g prior (.response status resources)).1 =
      [emptyState "fas fa-book" "No resources yet"
        "Add helpful links and learning materials for your club!"] ∧
    (loadClubProjectSubmissionsResponse h prior (.response status submissions)).1 =
      [emptyState "fas fa-pizza-slice" "No submissions yet"
        "Submit your coding projects to earn pizza for the club!"] ∧
    (loadPurchaseRequestsResponse h (loadPurchaseRequests g prior).1
        (.response status requests)).1 =
      [emptyState "fas fa-shopping-cart" "No purchase requests yet"
        "Submit your first purchase request to get started!"] := by
  refine ⟨?_, ?_, ?_, ?_, ?_, ?_, ?_, ?_, ?_, ?_⟩
  · simp [loadPostsResponse, hposts]
  · simp [loadAssignmentsResponse, hassignments]
  · simp [loadAssignmentsResponse, hassignments]
  · simp [loadMeetingsResponse, hmeetings]
  · simp [loadMeetingsResponse, hmeetings]
  · simp [loadProjectsResponse, hprojects]
  · simp [loadProjectsResponse, hprojects]
  · simp [loadResourcesResponse, hresources]
  · simp [loadClubProjectSubmissionsResponse, hsubmissions.1, hsubmissions.2]
  · simp [loadPurchaseRequestsResponse, hrequests.1, hrequests.2]

/-- C7 (witness): every collection absent, over a container that held one text node. -/
theorem loaders_empty_collection_witness :
    (loadPostsResponse sampleHost sampleGlobals [.text "old"] (.response 200 none)).1 =
      [emptyState "fas fa-stream" "No posts yet"
        "Be the first to share something with your club!"] ∧
    (loadAssignmentsResponse sampleHost sampleGlobals [.text "old"] "4"
      (.response 200 (some []))).2.1 = "0" ∧
    (emptyState "fas fa-stream" "No posts yet"
      "Be the first to share something with your club!").className = "empty-state" := by
  have key := loaders_empty_collection sampleHost sampleGlobals [.text "old"] "4" 200
    none (some []) none none none ⟨none, none⟩ ⟨some "", some []⟩
    rfl rfl rfl rfl rfl ⟨rfl, rfl⟩ ⟨rfl, rfl⟩
  exact ⟨key.1, key.2.2.1, emptyState_className _ _ _⟩

/-- A string whose character list is empty is the empty string. -/
theorem eq_empty_of_data_nil (s : String) (h : s.data = []) : s = "" := by
  cases s
  simp_all

/-- The empty string is falsy. -/
@[simp]
theorem truthy_empty : truthy "" = false := rfl

/-- Unfolding of `hasDeleteControl` on an element. -/
@[simp]
theorem hasDeleteControl_element (tag cls : String) (attrs : List (String × String))
    (kids : List Node) :
    (Node.element tag cls attrs kids).hasDeleteControl =
      ((tag == "button" && cls == "btn-icon delete-btn") || hasDeleteControlList kids) := by
  simp [Node.hasDeleteControl]

/-- A text node holds no delete control. -/
@[simp]
theorem hasDeleteControl_text (data : String) : (Node.text data).hasDeleteControl = false := by
  simp [Node.hasDeleteControl]

/-- The empty list of nodes holds no delete control. -/
@[simp]
theorem hasDeleteControlList_nil : hasDeleteControlList [] = false := by
  simp [hasDeleteControlList]

/-- Unfolding of `hasDeleteControlList` on a non-empty list. -/
@[simp]
theorem hasDeleteControlList_cons (n : Node) (ns : List Node) :
    hasDeleteControlList (n :: ns) = (n.hasDeleteControl || hasDeleteControlList ns) := by
  simp [hasDeleteControlList]

/-- A list of nodes holds a delete control when one of its two parts does. -/
@[simp]
theorem hasDeleteControlList_append (a b : List Node) :
    hasDeleteControlList (a ++ b) = (hasDeleteControlList a || hasDeleteControlList b) := by
  induction a with
  | nil => simp
  | cons n ns ih => simp [ih, Bool.or_assoc]

/-- The optional text child of a new element holds no delete control. -/
@[simp]
theorem hasDeleteControlList_textChild (t : String) :
    hasDeleteControlList (if truthy t = true then [Node.text t] else []) = false := by
  split <;> simp

/-- The delete button is a delete control. -/
@[simp]
theorem deleteButton_hasDeleteControl (handler : String) (id : Int) (quoted title : String) :
    (deleteButton handler id quoted title).hasDeleteControl = true := by
  simp [deleteButton, createElement, Node.setAttribute, Node.setChildren]

/-- An info row holds no delete control. -/
@[simp]
theorem infoSpan_hasDeleteControl (iconClass text : String) :
    (infoSpan iconClass text).hasDeleteControl = false := by
  simp [infoSpan, createElement, createTextNode, Node.appendChild]

/-- The card of a post exists when the author has a non-empty username; it is an element
of class `post-card` and holds a delete control exactly for a leader. -/
theorem postCard_of_username (h : Host) (g : Globals) (post : Post)
    (hu : post.user.username ≠ "") :
    ∃ card, postCard h g post = some card ∧ card.className = "post-card" ∧
      card.hasDeleteControl = isLeader g := by
  unfold postCard
  cases hd : post.user.username.data with
  | nil => exact absurd (eq_empty_of_data_nil _ hd) hu
  | cons c cs =>
    refine ⟨_, rfl, ?_, ?_⟩
    · cases isLeader g <;> simp [createElement, Node.appendChild, Node.className]
    · cases hl : isLeader g <;>
        simp [createElement, Node.appendChild]

/-- The loop of `loadPosts` over posts whose authors all have a username appends one
card per post, in order, and is not left by an exception. -/
theorem renderPosts_of_usernames (h : Host) (g : Globals) (kids : List Node)
    (posts : List Post) (hu : ∀ p ∈ posts, p.user.username ≠ "") :
    ∃ cards, renderPosts h g kids posts = (kids ++ cards, false) ∧
      List.Forall₂ (fun p c => postCard h g p = some c) posts cards := by
  induction posts generalizing kids with
  | nil => exact ⟨[], by simp [renderPosts], List.Forall₂.nil⟩
  | cons p rest ih =>
    obtain ⟨card, hcard, _, _⟩ := postCard_of_username h g p (hu p (List.mem_cons_self _ _))
    obtain ⟨cards, hcards, hall⟩ := ih (kids ++ [card])
      (fun q hq => hu q (List.mem_cons_of_mem _ hq))
    exact ⟨card :: cards, by simp [renderPosts, hcard, hcards], List.Forall₂.cons hcard hall⟩

/-- The card of an assignment is an element of class `card`. -/
theorem assignmentCard_className (h : Host) (g : Globals) (a : Assignment) :
    (assignmentCard h g a).className = "card" := rfl

/-- The card of a meeting is an element of class `card`. -/
theorem meetingCard_className (h : Host) (g : Globals) (m : Meeting) :
    (meetingCard h g m).className = "card" := rfl

/-- The card of a project is an element of class `card`. -/
theorem projectCard_className (h : Host) (p : Project) :
    (projectCard h p).className = "card" := rfl

/-- The card of a resource is an element of class `card`. -/
theorem resourceCard_className (g : Globals) (r : Resource) :
    (resourceCard g r).className = "card" := rfl

/-- The card of a submission is an element of class `card`. -/
theorem submissionCard_className (h : Host) (s : Submission) :
    (submissionCard h s).className = "card" := rfl

/-- The card of a purchase request is an element of class `card`. -/
theorem purchaseRequestCard_className (h : Host) (r : PurchaseRequest) :
    (purchaseRequestCard h r).className = "card" := rfl

/-- The card of an assignment holds a delete control exactly for a leader. -/
theorem assignmentCard_hasDeleteControl (h : Host) (g : Globals) (a : Assignment) :
    (assignmentCard h g a).hasDeleteControl = isLeader g := by
  unfold assignmentCard
  cases isLeader g <;> cases optTruthy a.due_date <;>
    simp [createElement, Node.appendChild]

/-- The card of a meeting holds a delete control exactly for a leader. -/
theorem meetingCard_hasDeleteControl (h : Host) (g : Globals) (m : Meeting) :
    (meetingCard h g m).hasDeleteControl = isLeader g := by
  unfold meetingCard
  cases isLeader g <;> cases optTruthy m.description <;> cases optTruthy m.location <;>
    cases optTruthy m.meeting_link <;>
    simp [createElement, createTextNode, Node.appendChild, Node.setAttribute,
      Node.setChildren, infoSpan]

/-- The card of a resource holds a delete control exactly for a leader. -/
theorem resourceCard_hasDeleteControl (g : Globals) (r : Resource) :
    (resourceCard g r).hasDeleteControl = isLeader g := by
  unfold resourceCard
  cases isLeader g <;> cases optTruthy r.description <;>
    simp [createElement, createTextNode, Node.appendChild, Node.setAttribute,
      Node.setChildren, infoSpan, visitLink]

/-- C8 (as stated, refuted).  Two responses whose collection holds one item and after
which the container holds no card.  A purchase requests payload that also carries an
error leaves the error placeholder, an element of class `empty-state`.  A post whose
author has an empty username stops the loop of `loadPosts`: the container stays empty
and the failure toast is shown. -/
theorem loaders_render_cards_refuted :
    (loadPurchaseRequestsResponse sampleHost (loadPurchaseRequests sampleGlobals []).1
      (.response 200 { error := some "Quota exceeded", requests := some [sampleRequest] })).1 =
      [errorState "Error loading requests" "Quota exceeded"] ∧
    (errorState "Error loading requests" "Quota exceeded").className = "empty-state" ∧
    loadPostsResponse sampleHost sampleGlobals [.text "old"]
      (.response 200 (some [samplePost ""])) =
      ([], [showToast "error" "Failed to load posts" "Error"]) := by
  refine ⟨?_, ?_, ?_⟩ <;> rfl

/-- C8 (amended).  For every section loader, every prior content of its container and
every response whose collection holds `N ≥ 1` items (for the two loaders that test it,
a response carrying no error; for `loadPosts`, posts whose authors have a non-empty
username): the container afterwards holds exactly the `N` cards of the items, in
response order, each an element of class `card` (`post-card` for posts), so neither a
placeholder nor a previous child. -/
theorem loaders_render_cards (h : Host) (g : Globals) (prior : List Node) (count : String)
    (status : Nat) (post : Post) (posts : List Post) (assignment : Assignment)
    (assignments : List Assignment) (meeting : Meeting) (meetings : List Meeting)
    (project : Project) (projects : List Project) (resource : Resource)
    (resources : List Resource) (submission : Submission) (submissions : List Submission)
    (request : PurchaseRequest) (requests : List PurchaseRequest) (e1 e2 : Option String)
    (hu : ∀ p ∈ post :: posts, p.user.username ≠ "")
    (he1 : optTruthy e1 = false) (he2 : optTruthy e2 = false) :
    (∃ cards, loadPostsResponse h g prior (.response status (some (post :: posts))) =
        (cards, []) ∧ cards.length = posts.length + 1 ∧
        List.Forall₂ (fun p c => postCard h g p = some c ∧ c.className = "post-card")
          (post :: posts) cards) ∧
    ((loadAssignmentsResponse h g prior count
        (.response status (some (assignment :: assignments)))).1 =
        (assignment :: assignments).map (assignmentCard h g) ∧
      ∀ a, (assignmentCard h g a).className = "card") ∧
    ((loadMeetingsResponse h g prior count (.response status (some (meeting :: meetings)))).1 =
        (meeting :: meetings).map (meetingCard h g) ∧
      ∀ m, (meetingCard h g m).className = "card") ∧
    ((loadProjectsResponse h prior count (.response status (some (project :: projects)))).1 =
        (project :: projects).map (projectCard h) ∧
      ∀ p, (projectCard h p).className = "card") ∧
    ((loadResourcesResponse g prior (.response status (some (resource :: resources)))).1 =
        (resource :: resources).map (resourceCard g) ∧
      ∀ r, (resourceCard g r).className = "card") ∧
    ((loadClubProjectSubmissionsResponse h prior
        (.response status { error := e1, submissions := some (submission :: submissions) })).1 =
        (submission :: submissions).map (submissionCard h) ∧
      ∀ s, (submissionCard h s).className = "card") ∧
    ((loadPurchaseRequestsResponse h (loadPurchaseRequests g prior).1
        (.response status { error := e2, requests := some (request :: requests) })).1 =
        (request :: requests).map (purchaseRequestCard h) ∧
      ∀ r, (purchaseRequestCard h r).className = "card") := by
  refine ⟨?_, ⟨?_, assignmentCard_className h g⟩, ⟨?_, meetingCard_className h g⟩,
    ⟨?_, projectCard_className h⟩, ⟨?_, resourceCard_className g⟩,
    ⟨?_, submissionCard_className h⟩, ⟨?_, purchaseRequestCard_className h⟩⟩
  · obtain ⟨cards, hcards, hall⟩ := renderPosts_of_usernames h g [] (post :: posts) hu
    refine ⟨cards, ?_, ?_, ?_⟩
    · simp [loadPostsResponse, hcards]
    · simpa using hall.length_eq.symm
    · refine List.Forall₂.imp ?_ hall
      intro p c hpc
      refine ⟨hpc, ?_⟩
      cases hd : p.user.username.data with
      | nil => simp [postCard, hd] at hpc
      | cons ch cs =>
        simp only [postCard, hd, Option.some.injEq] at hpc
        rw [← hpc]
        rfl
  · simp [loadAssignmentsResponse, renderCards_eq]
  · simp [loadMeetingsResponse, renderCards_eq]
  · simp [loadProjectsResponse, renderCards_eq]
  · simp [loadResourcesResponse, renderCards_eq]
  · simp [loadClubProjectSubmissionsResponse, renderCards_eq, he1]
  · simp [loadPurchaseRequestsResponse, renderCards_eq, he2]

/-- C8 (witness): the example scenario.  One assignment titled `X` with status `active`
gives one card whose header holds the title `X` and the badge `active`; the count badge
shows `1`. -/
theorem loaders_render_cards_witness :
    (∀ p ∈ samplePost "ada" :: [], p.user.username ≠ "") ∧
    (loadAssignmentsResponse sampleHost { sampleGlobals with clubData := none }
        [.text "old"] "0" (.response 200 (some [sampleAssignmentRecord]))).1 =
      [assignmentCard sampleHost { sampleGlobals with clubData := none }
        sampleAssignmentRecord] ∧
    assignmentCard sampleHost { sampleGlobals with clubData := none } sampleAssignmentRecord =
      .element "div" "card" []
        [.element "div" "card-header" []
          [.element "div" "" []
            [.element "h3" "" [] [.text "X"], .element "span" "" [] [.text "active"]]],
         .element "div" "card-body" []
          [.element "p" "" [] [],
           .element "div" "" []
            [.element "span" "" []
              [.element "i" "fas fa-users" [] [], .text " All members"]]]] ∧
    (loadAssignmentsResponse sampleHost { sampleGlobals with clubData := none }
        [.text "old"] "0" (.response 200 (some [sampleAssignmentRecord]))).2.1 = "1" := by
  have hu : ∀ p ∈ samplePost "ada" :: [], p.user.username ≠ "" := by
    intro p hp
    simp at hp
    subst hp
    decide
  have key := loaders_render_cards sampleHost { sampleGlobals with clubData := none }
    [.text "old"] "0" 200 (samplePost "ada") [] sampleAssignmentRecord [] sampleMeetingRecord []
    sampleProject [] sampleResourceRecord [] sampleSubmission [] sampleRequest [] none (some "")
    hu rfl rfl
  exact ⟨hu, by simpa using key.2.1.1, rfl, rfl⟩

/-- The count badges of non-empty collections: `loadAssignments` sets the badge to the
number of items whose status is `active`, `loadMeetings` to the number of items for
which `new Date(meeting_date)` has, in local time, the month and the year of the current
date, and `loadProjects` to the number of items; each count is at most the number of
rendered cards. -/
theorem count_badges (h : Host) (g : Globals) (prior : List Node) (count : String)
    (status : Nat) (assignment : Assignment) (assignments : List Assignment)
    (meeting : Meeting) (meetings : List Meeting) (project : Project)
    (projects : List Project) :
    ((loadAssignmentsResponse h g prior count
        (.response status (some (assignment :: assignments)))).2.1 =
        toString ((assignment :: assignments).countP (fun a => decide (a.status = "active"))) ∧
      (assignment :: assignments).countP (fun a => decide (a.status = "active")) ≤
        (loadAssignmentsResponse h g prior count
          (.response status (some (assignment :: assignments)))).1.length) ∧
    ((loadMeetingsResponse h g prior count
        (.response status (some (meeting :: meetings)))).2.1 =
        toString ((meeting :: meetings).countP (fun m =>
          decide (dateGetMonth h m.meeting_date = some h.thisMonth ∧
            dateGetFullYear h m.meeting_date = some h.thisYear))) ∧
      (meeting :: meetings).countP (fun m =>
          decide (dateGetMonth h m.meeting_date = some h.thisMonth ∧
            dateGetFullYear h m.meeting_date = some h.thisYear)) ≤
        (loadMeetingsResponse h g prior count
          (.response status (some (meeting :: meetings)))).1.length) ∧
    ((loadProjectsResponse h prior count
        (.response status (some (project :: projects)))).2.1 =
        toString (projects.length + 1) ∧
      projects.length + 1 ≤
        (loadProjectsResponse h prior count
          (.response status (some (project :: projects)))).1.length) := by
  refine ⟨⟨?_, ?_⟩, ⟨?_, ?_⟩, ⟨?_, ?_⟩⟩
  · have hp : (fun a : Assignment => a.status == "active") =
        (fun a => decide (a.status = "active")) := by
      funext a
      rfl
    simp only [loadAssignmentsResponse, Option.getD_some, List.length_cons]
    simp [List.countP_eq_length_filter, hp]
  · have hle := List.countP_le_length (fun a : Assignment => decide (a.status = "active"))
      (l := assignment :: assignments)
    simpa [loadAssignmentsResponse, renderCards_eq] using hle
  · have hp : inThisMonth h = (fun m : Meeting =>
        decide (dateGetMonth h m.meeting_date = some h.thisMonth ∧
          dateGetFullYear h m.meeting_date = some h.thisYear)) := by
      funext m
      by_cases h1 : dateGetMonth h m.meeting_date = some h.thisMonth <;>
        by_cases h2 : dateGetFullYear h m.meeting_date = some h.thisYear <;>
        simp [inThisMonth, h1, h2]
    simp only [loadMeetingsResponse, Option.getD_some, List.length_cons]
    simp [List.countP_eq_length_filter, hp]
  · have hle := List.countP_le_length (fun m : Meeting =>
      decide (dateGetMonth h m.meeting_date = some h.thisMonth ∧
        dateGetFullYear h m.meeting_date = some h.thisYear)) (l := meeting :: meetings)
    simpa [loadMeetingsResponse, renderCards_eq] using hle
  · simp [loadProjectsResponse]
  · simp [loadProjectsResponse, renderCards_eq]

/-- Every card the loop of `loadPosts` appends holds a delete control exactly for a
leader, also when the loop is left early. -/
theorem renderPosts_hasDeleteControl (h : Host) (g : Globals) (kids : List Node)
    (posts : List Post)
    (hk : kids.all (fun c => c.hasDeleteControl == isLeader g) = true) :
    (renderPosts h g kids posts).1.all (fun c => c.hasDeleteControl == isLeader g) = true := by
  induction posts generalizing kids with
  | nil => simpa [renderPosts] using hk
  | cons p rest ih =>
    unfold renderPosts
    cases hp : postCard h g p with
    | none => simpa using hk
    | some card =>
      have hcard : card.hasDeleteControl = isLeader g := by
        cases hd : p.user.username.data with
        | nil => simp [postCard, hd] at hp
        | cons ch cs =>
          have hne : p.user.username ≠ "" := by
            intro he
            rw [he] at hd
            simp at hd
          obtain ⟨c2, hc2, _, hdel⟩ := postCard_of_username h g p hne
          rw [hp] at hc2
          cases hc2
          exact hdel
      apply ih
      simp only [List.all_append, hk, Bool.true_and]
      simp [hcard]

/-- C10.  Every card rendered by `loadPosts`, `loadAssignments`, `loadMeetings` and
`loadResources` contains a delete control if and only if the ambient leader flag is
true; when `clubData` is missing or the flag is false no card contains one. -/
theorem delete_control_iff_leader (h : Host) (g : Globals) (prior : List Node)
    (count : String) (status : Nat) (post : Post) (posts : List Post)
    (assignment : Assignment) (assignments : List Assignment) (meeting : Meeting)
    (meetings : List Meeting) (resource : Resource) (resources : List Resource)
    (cd : ClubData) :
    (loadPostsResponse h g prior (.response status (some (post :: posts)))).1.all
        (fun c => c.hasDeleteControl == isLeader g) = true ∧
    (loadAssignmentsResponse h g prior count
        (.response status (some (assignment :: assignments)))).1.all
        (fun c => c.hasDeleteControl == isLeader g) = true ∧
    (loadMeetingsResponse h g prior count (.response status (some (meeting :: meetings)))).1.all
        (fun c => c.hasDeleteControl == isLeader g) = true ∧
    (loadResourcesResponse g prior (.response status (some (resource :: resources)))).1.all
        (fun c => c.hasDeleteControl == isLeader g) = true ∧
    (isLeader g = true ↔ ∃ d, g.clubData = some d ∧ d.isLeader = true) ∧
    isLeader { g with clubData := none } = false ∧
    isLeader { g with clubData := some { cd with isLeader := false } } = false := by
  refine ⟨?_, ?_, ?_, ?_, ?_, rfl, rfl⟩
  · have hall := renderPosts_hasDeleteControl h g [] (post :: posts) (by simp)
    simp only [loadPostsResponse, Option.getD_some, List.length_cons]
    cases hr : renderPosts h g [] (post :: posts) with
    | mk kids threw =>
      rw [hr] at hall
      cases threw <;> simpa using hall
  · simp [loadAssignmentsResponse, renderCards_eq, assignmentCard_hasDeleteControl]
  · simp [loadMeetingsResponse, renderCards_eq, meetingCard_hasDeleteControl]
  · simp [loadResourcesResponse, renderCards_eq, resourceCard_hasDeleteControl]
  · unfold isLeader
    cases g.clubData with
    | none => simp
    | some d => simp

/-! ## Properties of the loaders without a club id and on failure -/

/-- Without a club id, `loadPosts`, `loadAssignments`, `loadMeetings`, `loadResources`
and `loadClubProjectSubmissions` issue no request and replace the children of their
card container by a static message. -/
theorem loaders_without_club_id_message (g : Globals) (prior : List Node) :
    loadPosts { g with clubId := "" } prior =
      ([.text "Error: Club information is unavailable to load posts."], []) ∧
    loadAssignments { g with clubId := "" } prior =
      ([.text "Error: Club information is unavailable to load assignments."], []) ∧
    loadMeetings { g with clubId := "" } prior =
      ([.text "Error: Club information is unavailable to load meetings."], []) ∧
    loadResources { g with clubId := "" } prior =
      ([.text "Error: Club information is unavailable to load resources."], []) ∧
    loadClubProjectSubmissions { g with clubId := "" } prior =
      ([.text "Error: Club information is unavailable to load submissions."], []) := by
  refine ⟨?_, ?_, ?_, ?_, ?_⟩ <;> rfl

/-- C11 (defect in the code).  Without a club id `loadProjects` and
`loadPurchaseRequests` issue no request, but neither shows a message in the container
it renders its cards into: `loadProjects` leaves `#projectsList` as it was and writes
its message to the element of id `projects-list`, if the page has one, and
`loadPurchaseRequests` leaves `#purchaseRequestsList` as it was and shows nothing. -/
theorem loaders_without_club_id_no_message (g : Globals) (prior : List Node)
    (dashed : Option (List Node)) :
    loadProjects { g with clubId := "" } prior dashed =
      (prior,
       dashed.map (fun _ => [.text "Error: Club information is unavailable to load projects."]),
       []) ∧
    loadProjects { g with clubId := "" } prior none = (prior, none, []) ∧
    loadPurchaseRequests { g with clubId := "" } prior = (prior, []) := by
  refine ⟨?_, ?_, ?_⟩ <;> rfl

/-- C12 (as stated, refuted).  Over a container that held one text node: a failed fetch
of `loadClubProjectSubmissions` replaces the children by the error placeholder; an
error payload of `loadPurchaseRequests` does the same and shows no notification; and an
error payload of `loadPosts`, which carries no collection, replaces the children by the
empty-state placeholder and shows no notification. -/
theorem loaders_failure_refuted :
    loadClubProjectSubmissionsResponse sampleHost [.text "old"] .failure =
      ([errorState "Error loading submissions"
          "Failed to fetch pizza grant submissions. Please try again."],
       [showToast "error" "Failed to load pizza grant submissions" "Error"]) ∧
    loadPurchaseRequestsResponse sampleHost
        (loadPurchaseRequests sampleGlobals [.text "old"]).1
        (.response 403 { error := some "Access denied", requests := none }) =
      ([errorState "Error loading requests" "Access denied"], []) ∧
    loadPostsResponse sampleHost sampleGlobals [.text "old"] (.response 403 none) =
      ([emptyState "fas fa-stream" "No posts yet"
          "Be the first to share something with your club!"], []) := by
  refine ⟨?_, ?_, ?_⟩ <;> rfl

/-- C12 (amended).  When the fetch fails, `loadPosts`, `loadAssignments`,
`loadMeetings`, `loadProjects` and `loadResources` leave the children of their container
(and their count badge) as they were and show a failure toast, while
`loadClubProjectSubmissions` and `loadPurchaseRequests` replace the children by one
error placeholder and show a failure toast.  On a payload that carries an error, the
latter two replace the children by one error placeholder with the text of the error
and show no toast.  Every continuation is a total function: no exception escapes. -/
theorem loaders_on_failure (h : Host) (g : Globals) (prior : List Node) (count : String)
    (status : Nat) (submissions : SubmissionsResponse) (requests : RequestsResponse)
    (hs : optTruthy submissions.error = true) (hr : optTruthy requests.error = true) :
    loadPostsResponse h g prior .failure =
      (prior, [showToast "error" "Failed to load posts" "Error"]) ∧
    loadAssignmentsResponse h g prior count .failure =
      (prior, count, [showToast "error" "Failed to load assignments" "Error"]) ∧
    loadMeetingsResponse h g prior count .failure =
      (prior, count, [showToast "error" "Failed to load meetings" "Error"]) ∧
    loadProjectsResponse h prior count .failure =
      (prior, count, [showToast "error" "Failed to load projects" "Error"]) ∧
    loadResourcesResponse g prior .failure =
      (prior, [showToast "error" "Failed to load resources" "Error"]) ∧
    loadClubProjectSubmissionsResponse h prior .failure =
      ([errorState "Error loading submissions"
          "Failed to fetch pizza grant submissions. Please try again."],
       [showToast "error" "Failed to load pizza grant submissions" "Error"]) ∧
    loadPurchaseRequestsResponse h (loadPurchaseRequests g prior).1 .failure =
      ([errorState "Error loading requests"
          "Failed to fetch purchase requests. Please try again."],
       [showToast "error" "Failed to load purchase requests" "Error"]) ∧
    loadClubProjectSubmissionsResponse h prior (.response status submissions) =
      ([errorState "Error loading submissions" (submissions.error.getD "")], []) ∧
    loadPurchaseRequestsResponse h (loadPurchaseRequests g prior).1
        (.response status requests) =
      ([errorState "Error loading requests" (requests.error.getD "")], []) := by
  refine ⟨rfl, rfl, rfl, rfl, rfl, rfl, rfl, ?_, ?_⟩
  · simp [loadClubProjectSubmissionsResponse, hs]
  · simp [loadPurchaseRequestsResponse, hr]

/-- C12 (witness): the failed fetch of `loadPosts` over a container that held one text
node, and the payload `error: "Access denied"` for the submissions. -/
theorem loaders_on_failure_witness :
    loadPostsResponse sampleHost sampleGlobals [.text "old"] .failure =
      ([.text "old"], [showToast "error" "Failed to load posts" "Error"]) ∧
    loadClubProjectSubmissionsResponse sampleHost [.text "old"]
        (.response 403 { error := some "Access denied", submissions := none }) =
      ([errorState "Error loading submissions" "Access denied"], []) := by
  have key := loaders_on_failure sampleHost sampleGlobals [.text "old"] "3" 403
    { error := some "Access denied", submissions := none }
    { error := some "Access denied", requests := none } rfl rfl
  exact ⟨key.1, key.2.2.2.2.2.2.2.1⟩

/-! ## Properties of the modal lifecycle -/

/-- C13.  For the meeting and the resource modal: entering edit mode with record `a`
and then with record `b` gives the modal that entering with `b` alone gives, stamped
with the id of `b` and holding the fields of `b`; and from every prior state, exiting
clears the stamp and restores the header text, the submit label and the submit binding
of the create mode, so that exiting twice equals exiting once. -/
theorem edit_mode_entry_exit (dm : MeetingForm) (dr : ResourceForm)
    (m : EditModal MeetingForm) (r : EditModal ResourceForm) (ida idb : String)
    (fa fb : MeetingForm) (ga gb : ResourceForm) :
    (editMeeting (editMeeting m ida fa) idb fb = editMeeting m idb fb ∧
      (editMeeting (editMeeting m ida fa) idb fb).editId = some idb ∧
      (editMeeting (editMeeting m ida fa) idb fb).form = fb) ∧
    (closeEditMeetingModal dm (closeEditMeetingModal dm m) = closeEditMeetingModal dm m ∧
      (closeEditMeetingModal dm m).editId = none ∧
      (closeEditMeetingModal dm m).header = "Schedule Meeting" ∧
      (closeEditMeetingModal dm m).submitChildren =
        [.element "i" "fas fa-calendar-plus" [] [], .text " Schedule Meeting"] ∧
      (closeEditMeetingModal dm m).submitOnclick = some "createMeeting()") ∧
    (editResource (editResource r ida ga) idb gb = editResource r idb gb ∧
      (editResource (editResource r ida ga) idb gb).editId = some idb ∧
      (editResource (editResource r ida ga) idb gb).form = gb) ∧
    (closeEditResourceModal dr (closeEditResourceModal dr r) = closeEditResourceModal dr r ∧
      (closeEditResourceModal dr r).editId = none ∧
      (closeEditResourceModal dr r).header = "Add Resource" ∧
      (closeEditResourceModal dr r).submitChildren =
        [.element "i" "fas fa-plus" [] [], .text " Add Resource"] ∧
      (closeEditResourceModal dr r).submitOnclick = some "addResource()") := by
  refine ⟨⟨rfl, rfl, rfl⟩, ⟨rfl, rfl, rfl, rfl, rfl⟩, ⟨rfl, rfl, rfl⟩, ⟨rfl, rfl, rfl, rfl, rfl⟩⟩

/-- A modal in one of its two modes satisfies the mode invariant, provided the two
headers differ. -/
theorem ModeConsistent_of_InMode {F : Type} (eh eb ch cb : String) (hne : ch ≠ eh)
    (m : EditModal F) (hm : InMode eh eb ch cb m) : ModeConsistent eh eb ch cb m := by
  rcases hm with ⟨hid, hh, ho⟩ | ⟨hid, hh, ho⟩
  · refine ⟨⟨fun hs => ?_, fun hx => ?_⟩, fun _ => ⟨hh, ho⟩⟩
    · simp [hid] at hs
    · exact absurd (hh.symm.trans hx.1) hne
  · refine ⟨⟨fun _ => ⟨hh, ho⟩, fun _ => hid⟩, fun hn => ?_⟩
    simp [hn] at hid

/-- Every operation on the meeting modal leaves it in one of its two modes. -/
theorem meetingStep_InMode (dm : MeetingForm) (m : EditModal MeetingForm) (op : MeetingOp)
    (hm : InMode "Edit Meeting" "updateMeeting()" "Schedule Meeting" "createMeeting()" m) :
    InMode "Edit Meeting" "updateMeeting()" "Schedule Meeting" "createMeeting()"
      (meetingStep dm m op) := by
  cases op with
  | openCreateMeetingModal => exact Or.inl ⟨rfl, rfl, rfl⟩
  | editMeeting id f => exact Or.inr ⟨rfl, rfl, rfl⟩
  | closeEditMeetingModal => exact Or.inl ⟨rfl, rfl, rfl⟩
  | createMeeting r =>
    cases r with
    | failure => exact hm
    | response status data =>
      simp only [meetingStep, createMeetingResponse]
      split
      · exact hm
      · exact hm
  | updateMeeting r =>
    cases r with
    | failure => exact hm
    | response status data =>
      simp only [meetingStep, updateMeetingResponse]
      split
      · exact Or.inl ⟨rfl, rfl, rfl⟩
      · exact hm

/-- Every operation on the resource modal leaves it in one of its two modes. -/
theorem resourceStep_InMode (dr : ResourceForm) (m : EditModal ResourceForm)
    (op : ResourceOp)
    (hm : InMode "Edit Resource" "updateResource()" "Add Resource" "addResource()" m) :
    InMode "Edit Resource" "updateResource()" "Add Resource" "addResource()"
      (resourceStep dr m op) := by
  cases op with
  | openAddResourceModal => exact Or.inl ⟨rfl, rfl, rfl⟩
  | editResource id f => exact Or.inr ⟨rfl, rfl, rfl⟩
  | closeEditResourceModal => exact Or.inl ⟨rfl, rfl, rfl⟩
  | addResource r =>
    cases r with
    | failure => exact hm
    | response status data =>
      simp only [resourceStep, addResourceResponse]
      split
      · exact hm
      · exact hm
  | updateResource r =>
    cases r with
    | failure => exact hm
    | response status data =>
      simp only [resourceStep, updateResourceResponse]
      split
      · exact Or.inl ⟨rfl, rfl, rfl⟩
      · exact hm

/-- A run of operations from a modal in one of its modes ends in one of its modes. -/
theorem foldl_InMode {F Op : Type} (eh eb ch cb : String)
    (step : EditModal F → Op → EditModal F)
    (hstep : ∀ m op, InMode eh eb ch cb m → InMode eh eb ch cb (step m op))
    (ops : List Op) (m : EditModal F) (hm : InMode eh eb ch cb m) :
    InMode eh eb ch cb (ops.foldl step m) := by
  induction ops generalizing m with
  | nil => exact hm
  | cons op rest ih => exact ih (step m op) (hstep m op hm)

/-- C14.  In every state of the meeting modal reached from a create-mode state (no
stamp, header `Schedule Meeting`, submit bound to `createMeeting()`) by any run of
`openCreateMeetingModal`, `editMeeting`, `closeEditMeetingModal` and responses to
`createMeeting` and `updateMeeting`, the stamp is present exactly when the header reads
`Edit Meeting` and the submit control is bound to `updateMeeting()`, and without the
stamp the header reads `Schedule Meeting` and the control is bound to `createMeeting()`.
The same holds for the resource modal with its operations, headers and bindings. -/
theorem mode_invariant (dm : MeetingForm) (dr : ResourceForm)
    (m0 : EditModal MeetingForm) (r0 : EditModal ResourceForm)
    (mops : List MeetingOp) (rops : List ResourceOp)
    (hm : m0.editId = none ∧ m0.header = "Schedule Meeting" ∧
      m0.submitOnclick = some "createMeeting()")
    (hr : r0.editId = none ∧ r0.header = "Add Resource" ∧
      r0.submitOnclick = some "addResource()") :
    ModeConsistent "Edit Meeting" "updateMeeting()" "Schedule Meeting" "createMeeting()"
      (mops.foldl (meetingStep dm) m0) ∧
    ModeConsistent "Edit Resource" "updateResource()" "Add Resource" "addResource()"
      (rops.foldl (resourceStep dr) r0) := by
  constructor
  · exact ModeConsistent_of_InMode _ _ _ _ (by decide) _
      (foldl_InMode _ _ _ _ _ (meetingStep_InMode dm) mops m0 (Or.inl hm))
  · exact ModeConsistent_of_InMode _ _ _ _ (by decide) _
      (foldl_InMode _ _ _ _ _ (resourceStep_InMode dr) rops r0 (Or.inl hr))

/-- C14 (witness): from the delivered modals, an edit followed by a failed update leaves
the stamp `4` with the edit header; an edit followed by a successful update leaves no
stamp with the create header. -/
theorem mode_invariant_witness :
    (initialMeetingModal.editId = none ∧ initialMeetingModal.header = "Schedule Meeting" ∧
      initialMeetingModal.submitOnclick = some "createMeeting()") ∧
    ModeConsistent "Edit Meeting" "updateMeeting()" "Schedule Meeting" "createMeeting()"
      ([MeetingOp.editMeeting "4" (sampleMeeting "Kickoff"),
        MeetingOp.updateMeeting .failure].foldl (meetingStep blankMeetingForm)
        initialMeetingModal) ∧
    ([MeetingOp.editMeeting "4" (sampleMeeting "Kickoff"),
        MeetingOp.updateMeeting .failure].foldl (meetingStep blankMeetingForm)
        initialMeetingModal).editId = some "4" ∧
    ModeConsistent "Edit Resource" "updateResource()" "Add Resource" "addResource()"
      ([ResourceOp.editResource "9" (sampleResource "Docs"),
        ResourceOp.updateResource
          (.response 200 { message := some "ok", success := true, error := none })].foldl
        (resourceStep blankResourceForm) initialResourceModal) := by
  have key := mode_invariant blankMeetingForm blankResourceForm initialMeetingModal
    initialResourceModal
    [MeetingOp.editMeeting "4" (sampleMeeting "Kickoff"), MeetingOp.updateMeeting .failure]
    [ResourceOp.editResource "9" (sampleResource "Docs"),
      ResourceOp.updateResource
        (.response 200 { message := some "ok", success := true, error := none })]
    ⟨rfl, rfl, rfl⟩ ⟨rfl, rfl, rfl⟩
  exact ⟨⟨rfl, rfl, rfl⟩, key.1, rfl, key.2⟩

/-! ## Properties of the navigation controller -/

/-- Changing the `active` flag does not change whether an element is a section. -/
@[simp]
theorem isSection_setActive (e : Elem) (b : Bool) :
    ({ e with active := b } : Elem).isSection = e.isSection := rfl

/-- Changing the `active` flag does not change whether an element is a navigation
control. -/
@[simp]
theorem isNavLink_setActive (e : Elem) (b : Bool) :
    ({ e with active := b } : Elem).isNavLink = e.isNavLink := rfl

/-- Changing the `active` flag does not change the section a control points to. -/
@[simp]
theorem isNavLinkFor_setActive (name : String) (e : Elem) (b : Bool) :
    ({ e with active := b } : Elem).isNavLinkFor name = e.isNavLinkFor name := rfl

/-- Removing `active` keeps the id. -/
@[simp]
theorem withoutActive_id (p : Elem → Bool) (e : Elem) : (e.withoutActive p).id = e.id := by
  unfold Elem.withoutActive
  split <;> rfl

/-- Removing `active` keeps an element a section or not. -/
@[simp]
theorem withoutActive_isSection (p : Elem → Bool) (e : Elem) :
    (e.withoutActive p).isSection = e.isSection := by
  unfold Elem.withoutActive
  split <;> rfl

/-- Removing `active` keeps an element a navigation control or not. -/
@[simp]
theorem withoutActive_isNavLink (p : Elem → Bool) (e : Elem) :
    (e.withoutActive p).isNavLink = e.isNavLink := by
  unfold Elem.withoutActive
  split <;> rfl

/-- Removing `active` keeps the section a control points to. -/
@[simp]
theorem withoutActive_isNavLinkFor (p : Elem → Bool) (name : String) (e : Elem) :
    (e.withoutActive p).isNavLinkFor name = e.isNavLinkFor name := by
  unfold Elem.withoutActive
  split <;> rfl

/-- An element that matched is inactive afterwards; any other keeps its flag. -/
theorem withoutActive_active (p : Elem → Bool) (e : Elem) :
    (e.withoutActive p).active = (!p e && e.active) := by
  unfold Elem.withoutActive
  cases hp : p e <;> simp

/-- A navigation control is not a section. -/
theorem isSection_of_isNavLink (e : Elem) (h : e.isNavLink = true) : e.isSection = false := by
  unfold Elem.isNavLink at h
  unfold Elem.isSection
  cases hk : e.kind <;> simp_all

/-- A control that points to a section is a navigation control with that attribute. -/
theorem kind_of_isNavLinkFor (name : String) (e : Elem) (h : e.isNavLinkFor name = true) :
    e.kind = .navLink (some name) := by
  unfold Elem.isNavLinkFor at h
  cases hk : e.kind with
  | clubSection => simp [hk] at h
  | other => simp [hk] at h
  | navLink d =>
    cases d with
    | none => simp [hk] at h
    | some d =>
      have hd : d = name := by simpa [hk] using h
      rw [hd]

/-- A control that points to a section is a navigation control. -/
theorem isNavLink_of_isNavLinkFor (name : String) (e : Elem)
    (h : e.isNavLinkFor name = true) : e.isNavLink = true := by
  unfold Elem.isNavLink
  rw [kind_of_isNavLinkFor name e h]

/-- The element found for a name after a deactivation loop is the element found before,
deactivated if it matched. -/
theorem getElementById_removeActive (p : Elem → Bool) (page : List Elem) (name : String) :
    getElementById (removeActive p page) name =
      (getElementById page name).map (Elem.withoutActive p) := by
  induction page with
  | nil => rfl
  | cons e rest ih =>
    simp only [removeActive, List.map_cons, getElementById, withoutActive_id] at ih ⊢
    split
    · rfl
    · exact ih

/-- After the sections were deactivated no section is active. -/
theorem activeSections_removeActive (page : List Elem) :
    activeSections (removeActive Elem.isSection page) = [] := by
  unfold activeSections removeActive
  rw [List.filter_eq_nil_iff]
  intro a ha
  obtain ⟨e, _, rfl⟩ := List.mem_map.1 ha
  rw [withoutActive_isSection, withoutActive_active]
  cases e.isSection <;> simp

/-- After the navigation controls were deactivated no control is active. -/
theorem activeNavLinks_removeActive (page : List Elem) :
    activeNavLinks (removeActive Elem.isNavLink page) = [] := by
  unfold activeNavLinks removeActive
  rw [List.filter_eq_nil_iff]
  intro a ha
  obtain ⟨e, _, rfl⟩ := List.mem_map.1 ha
  rw [withoutActive_isNavLink, withoutActive_active]
  cases e.isNavLink <;> simp

/-- Activating the element found for a name, when it is a section and no section was
active, leaves exactly one active section, of that name. -/
theorem activeSections_addActiveToFirst (name : String) (page : List Elem)
    (hnone : activeSections page = [])
    (hfound : ∃ e, getElementById page name = some e ∧ e.isSection = true) :
    (activeSections (addActiveToFirst (fun e => e.id == name) page)).map (fun e => e.id) =
      [name] := by
  induction page with
  | nil =>
    obtain ⟨e, he, _⟩ := hfound
    simp [getElementById] at he
  | cons e rest ih =>
    have hhead : (e.isSection && e.active) = false := by
      by_contra hc
      have hc2 : (e.isSection && e.active) = true := by simpa using hc
      simp [activeSections, List.filter_cons, hc2] at hnone
    have hrest : activeSections rest = [] := by
      simpa [activeSections, List.filter_cons, hhead] using hnone
    by_cases hid : (e.id == name) = true
    · obtain ⟨e2, he2, hsec⟩ := hfound
      simp only [getElementById, hid, if_true, Option.some.injEq] at he2
      subst he2
      have hname : e.id = name := by simpa using hid
      have hrest2 : List.filter (fun e => e.isSection && e.active) rest = [] := hrest
      rw [addActiveToFirst, if_pos hid]
      simpa [activeSections, List.filter_cons, hsec, hrest2] using hname
    · have hid2 : (e.id == name) = false := by simpa using hid
      obtain ⟨e2, he2, hsec⟩ := hfound
      simp only [getElementById, hid2] at he2
      have := ih hrest ⟨e2, by simpa using he2, hsec⟩
      simpa [addActiveToFirst, hid2, activeSections, List.filter_cons, hhead] using this

/-- Deactivating the navigation controls does not change the active sections. -/
theorem activeSections_removeActive_navLinks (page : List Elem) :
    activeSections (removeActive Elem.isNavLink page) = activeSections page := by
  induction page with
  | nil => rfl
  | cons e rest ih =>
    simp only [activeSections, removeActive, List.map_cons] at ih ⊢
    cases hn : e.isNavLink with
    | true =>
      have hs := isSection_of_isNavLink e hn
      simp [List.filter_cons, hs, ih]
    | false =>
      have he : e.withoutActive Elem.isNavLink = e := by simp [Elem.withoutActive, hn]
      simp [List.filter_cons, he, ih]

/-- Activating a navigation control does not change the active sections. -/
theorem activeSections_addActiveToFirst_navLinks (name : String) (page : List Elem) :
    activeSections (addActiveToFirst (Elem.isNavLinkFor name) page) = activeSections page := by
  induction page with
  | nil => rfl
  | cons e rest ih =>
    simp only [activeSections] at ih ⊢
    cases hn : e.isNavLinkFor name with
    | true =>
      have hs := isSection_of_isNavLink e (isNavLink_of_isNavLinkFor name e hn)
      simp [addActiveToFirst, hn, List.filter_cons, hs]
    | false =>
      simp [addActiveToFirst, hn, List.filter_cons, ih]

/-- Activating the first control that points to a section, when no control was active,
leaves that control as the one active control, if there is such a control at all. -/
theorem activeNavLinks_addActiveToFirst (name : String) (page : List Elem)
    (hnone : activeNavLinks page = []) :
    (activeNavLinks (addActiveToFirst (Elem.isNavLinkFor name) page)).map (fun e => e.kind) =
      if page.any (Elem.isNavLinkFor name) then [ElemKind.navLink (some name)] else [] := by
  induction page with
  | nil => rfl
  | cons e rest ih =>
    have hhead : (e.isNavLink && e.active) = false := by
      by_contra hc
      have hc2 : (e.isNavLink && e.active) = true := by simpa using hc
      simp [activeNavLinks, List.filter_cons, hc2] at hnone
    have hrest : activeNavLinks rest = [] := by
      simpa [activeNavLinks, List.filter_cons, hhead] using hnone
    cases hn : e.isNavLinkFor name with
    | true =>
      have hk := kind_of_isNavLinkFor name e hn
      have hl := isNavLink_of_isNavLinkFor name e hn
      have hrest2 : List.filter (fun e => e.isNavLink && e.active) rest = [] := hrest
      have hany : (e :: rest).any (Elem.isNavLinkFor name) = true := by
        simp [List.any_cons, hn]
      rw [addActiveToFirst, if_pos hn, if_pos hany]
      simpa [activeNavLinks, List.filter_cons, hl, hrest2] using hk
    | false =>
      have := ih hrest
      simpa [addActiveToFirst, hn, activeNavLinks, List.filter_cons, hhead] using this

/-- A deactivation loop does not change which controls point to a section. -/
theorem any_isNavLinkFor_removeActive (p : Elem → Bool) (name : String) (page : List Elem) :
    (removeActive p page).any (Elem.isNavLinkFor name) = page.any (Elem.isNavLinkFor name) := by
  induction page with
  | nil => rfl
  | cons e rest ih =>
    simp only [removeActive, List.map_cons, List.any_cons, withoutActive_isNavLinkFor] at ih ⊢
    rw [ih]

/-- An activation does not change which controls point to a section. -/
theorem any_isNavLinkFor_addActiveToFirst (q : Elem → Bool) (name : String)
    (page : List Elem) :
    (addActiveToFirst q page).any (Elem.isNavLinkFor name) =
      page.any (Elem.isNavLinkFor name) := by
  induction page with
  | nil => rfl
  | cons e rest ih =>
    cases hq : q e with
    | true => simp [addActiveToFirst, hq]
    | false => simp [addActiveToFirst, hq, ih]

/-- Deactivating the sections leaves every navigation control as it was. -/
theorem navLinks_removeActive_sections (page : List Elem) :
    (removeActive Elem.isSection page).filter Elem.isNavLink = page.filter Elem.isNavLink := by
  induction page with
  | nil => rfl
  | cons e rest ih =>
    simp only [removeActive, List.map_cons] at ih ⊢
    cases hn : e.isNavLink with
    | true =>
      have hs := isSection_of_isNavLink e hn
      have he : e.withoutActive Elem.isSection = e := by simp [Elem.withoutActive, hs]
      simp [List.filter_cons, he, hn, ih]
    | false => simp [List.filter_cons, hn, ih]

/-- When the name is the id of an element, `openTab` runs all four steps. -/
theorem openTab_of_found (page : List Elem) (name : String) (e : Elem)
    (ht : truthy name = true) (he : getElementById page name = some e) :
    openTab page name =
      (addActiveToFirst (Elem.isNavLinkFor name)
        (removeActive Elem.isNavLink
          (addActiveToFirst (fun x => x.id == name) (removeActive Elem.isSection page))),
       loadSectionData name) := by
  have h1 := getElementById_removeActive Elem.isSection page name
  rw [he] at h1
  simp only [openTab, ht, Bool.not_true, Bool.false_eq_true, if_false, h1, Option.map_some']

/-- C15.  For every name `s` that is the id of an existing section: after `openTab(s)`
exactly one section is active and its id is `s`; the only active navigation control is
the first control whose `data-section` is `s` (no control is active when none points to
`s`); and the loaders called are those of `loadSectionData(s)`, at most one: `stream`
calls `loadPosts`, `assignments` `loadAssignments`, `schedule` `loadMeetings`,
`projects` `loadProjects`, `resources` `loadResources`, `pizza`
`loadClubProjectSubmissions`, `shop` `loadPurchaseRequests`, and any other name none.
At load an empty URL fragment opens the tab `dashboard`. -/
theorem openTab_existing_section (page : List Elem) (s : String)
    (hs : namesSection page s = true) :
    (activeSections (openTab page s).1).map (fun e => e.id) = [s] ∧
    (activeNavLinks (openTab page s).1).map (fun e => e.kind) =
      (if page.any (Elem.isNavLinkFor s) then [ElemKind.navLink (some s)] else []) ∧
    (openTab page s).2 = loadSectionData s ∧
    (loadSectionData "stream" = [.load .loadPosts] ∧
      loadSectionData "assignments" = [.load .loadAssignments] ∧
      loadSectionData "schedule" = [.load .loadMeetings] ∧
      loadSectionData "projects" = [.load .loadProjects] ∧
      loadSectionData "resources" = [.load .loadResources] ∧
      loadSectionData "pizza" = [.load .loadClubProjectSubmissions] ∧
      loadSectionData "shop" = [.load .loadPurchaseRequests] ∧
      (s ≠ "stream" → s ≠ "assignments" → s ≠ "schedule" → s ≠ "projects" →
        s ≠ "resources" → s ≠ "pizza" → s ≠ "shop" → loadSectionData s = [])) ∧
    initNavigation page "" = openTab page "dashboard" ∧
    initNavigation page "#" = openTab page "dashboard" := by
  have ht : truthy s = true := by
    unfold namesSection at hs
    simp only [Bool.and_eq_true] at hs
    exact hs.1
  obtain ⟨e, he, hsec⟩ : ∃ e, getElementById page s = some e ∧ e.isSection = true := by
    unfold namesSection at hs
    simp only [Bool.and_eq_true] at hs
    cases hg : getElementById page s with
    | none => simp [hg] at hs
    | some e => exact ⟨e, rfl, by simpa [hg] using hs.2⟩
  have hopen := openTab_of_found page s e ht he
  have hfound : ∃ x, getElementById (removeActive Elem.isSection page) s = some x ∧
      x.isSection = true := by
    refine ⟨e.withoutActive Elem.isSection, ?_, ?_⟩
    · rw [getElementById_removeActive, he]
      rfl
    · rw [withoutActive_isSection, hsec]
  refine ⟨?_, ?_, ?_, ⟨rfl, rfl, rfl, rfl, rfl, rfl, rfl, ?_⟩, rfl, rfl⟩
  · rw [hopen]
    simp only []
    rw [activeSections_addActiveToFirst_navLinks, activeSections_removeActive_navLinks]
    exact activeSections_addActiveToFirst s _ (activeSections_removeActive page) hfound
  · rw [hopen]
    simp only []
    rw [activeNavLinks_addActiveToFirst s _ (activeNavLinks_removeActive _),
      any_isNavLinkFor_removeActive, any_isNavLinkFor_addActiveToFirst,
      any_isNavLinkFor_removeActive]
  · rw [hopen]
  · intro h1 h2 h3 h4 h5 h6 h7
    simp [loadSectionData, h1, h2, h3, h4, h5, h6, h7]

/-- C15 (witness): on the sample page, whose dashboard is open, `openTab("stream")`
activates the section `stream` and its control and calls `loadPosts`. -/
theorem openTab_existing_section_witness :
    namesSection samplePage "stream" = true ∧
    (activeSections (openTab samplePage "stream").1).map (fun e => e.id) = ["stream"] ∧
    (activeNavLinks (openTab samplePage "stream").1).map (fun e => e.kind) =
      [ElemKind.navLink (some "stream")] ∧
    (openTab samplePage "stream").2 = [.load .loadPosts] := by
  have key := openTab_existing_section samplePage "stream" (by decide)
  refine ⟨by decide, key.1, ?_, ?_⟩
  · have h2 := key.2.1
    rw [h2]
    rfl
  · rw [key.2.2.1]
    rfl

/-- C16 (as stated, refuted).  The name `postsList` is not empty and is the id of no
section, but of another element: after `openTab("postsList")` the navigation control
of the dashboard, active before, is no longer active. -/
theorem openTab_non_section_id_refuted :
    namesSection samplePage "postsList" = false ∧
    (activeNavLinks samplePage).map (fun e => e.kind) = [ElemKind.navLink (some "dashboard")] ∧
    activeNavLinks (openTab samplePage "postsList").1 = [] := by
  refine ⟨by decide, ?_, ?_⟩ <;> rfl

/-- C16 (amended).  For every non-empty name that is the id of no element of the page:
`openTab` deactivates every section and does nothing else, so that afterwards no
section is active, every navigation control is as it was, and no loader is called.
For the empty name `openTab` changes nothing. -/
theorem openTab_unknown_id (page : List Elem) (s : String) (hs : s ≠ "")
    (hno : getElementById page s = none) :
    openTab page s = (removeActive Elem.isSection page, []) ∧
    activeSections (openTab page s).1 = [] ∧
    (openTab page s).1.filter Elem.isNavLink = page.filter Elem.isNavLink ∧
    (openTab page s).2 = [] ∧
    openTab page "" = (page, []) := by
  have ht : truthy s = true := (truthy_iff s).2 hs
  have h1 := getElementById_removeActive Elem.isSection page s
  rw [hno] at h1
  have hopen : openTab page s = (removeActive Elem.isSection page, []) := by
    simp only [openTab, ht, Bool.not_true, Bool.false_eq_true, if_false, h1, Option.map_none']
  refine ⟨hopen, ?_, ?_, ?_, rfl⟩
  · rw [hopen]
    exact activeSections_removeActive page
  · rw [hopen]
    exact navLinks_removeActive_sections page
  · rw [hopen]

/-- C16 (witness): on the sample page no element has the id `settings`. -/
theorem openTab_unknown_id_witness :
    getElementById samplePage "settings" = none ∧
    activeSections (openTab samplePage "settings").1 = [] ∧
    (openTab samplePage "settings").1.filter Elem.isNavLink =
      samplePage.filter Elem.isNavLink ∧
    (openTab samplePage "settings").2 = [] := by
  have key := openTab_unknown_id samplePage "settings" (by decide) rfl
  exact ⟨rfl, key.2.1, key.2.2.1, key.2.2.2.1⟩

/-! ## Properties of the code flow: opening, resending, failing -/

/-- The send-code request carries the email it is given. -/
theorem sendVerificationCode_body (g : Globals) (m : VerificationModal) (email : String) :
    ∃ endpoint step, sendVerificationCode g m email =
      .fetch "PUT" endpoint (.json (.obj [("step", .str step), ("email", .str email)])) := by
  unfold sendVerificationCode
  split_ifs <;> exact ⟨_, _, rfl⟩

/-- The send-code request depends on the modal through the stored action only. -/
theorem sendVerificationCode_congr (g : Globals) (m1 m2 : VerificationModal) (email : String)
    (h : m1.action = m2.action) :
    sendVerificationCode g m1 email = sendVerificationCode g m2 email := by
  unfold sendVerificationCode
  rw [h]

/-- The answer to the send-code request changes the two messages only. -/
theorem sendVerificationCodeResponse_frame (m : VerificationModal)
    (r : Outcome VerifyResponse) :
    (sendVerificationCodeResponse m r).action = m.action ∧
    (sendVerificationCodeResponse m r).callback = m.callback ∧
    (sendVerificationCodeResponse m r).emailDisplay = m.emailDisplay ∧
    (sendVerificationCodeResponse m r).display = m.display := by
  cases r with
  | failure => exact ⟨rfl, rfl, rfl, rfl⟩
  | response status data =>
    cases hs : data.success <;> simp [sendVerificationCodeResponse, hs]

/-- C17.  For every email `e`, action name `a` and callback `c`,
`showEmailVerificationModal(e, a, c)` leaves the modal open with the displayed email
`e`, the stored action `a`, the stored callback `c`, an empty code input and cleared
messages, and issues exactly one request, the send-code request whose body carries the
email `e`.  After any answer to that request a Resend issues the same request again
(same endpoint, same step, same email), and the stored action and callback are
unchanged. -/
theorem showEmailVerificationModal_codeSent (g : Globals) (m : VerificationModal)
    (e a : String) (c : Callback) (r : Outcome VerifyResponse) :
    ((showEmailVerificationModal g m e a c).1.display = "block" ∧
      (showEmailVerificationModal g m e a c).1.emailDisplay = e ∧
      (showEmailVerificationModal g m e a c).1.action = a ∧
      (showEmailVerificationModal g m e a c).1.callback = some c ∧
      (showEmailVerificationModal g m e a c).1.codeInput = "" ∧
      (showEmailVerificationModal g m e a c).1.errorText = "" ∧
      (showEmailVerificationModal g m e a c).1.errorDisplay = "none" ∧
      (showEmailVerificationModal g m e a c).1.successText = "" ∧
      (showEmailVerificationModal g m e a c).1.successDisplay = "none") ∧
    (∃ endpoint step, (showEmailVerificationModal g m e a c).2 =
      [.fetch "PUT" endpoint (.json (.obj [("step", .str step), ("email", .str e)]))]) ∧
    resendVerificationCode g
        (sendVerificationCodeResponse (showEmailVerificationModal g m e a c).1 r) =
      (showEmailVerificationModal g m e a c).2 ∧
    (sendVerificationCodeResponse (showEmailVerificationModal g m e a c).1 r).action = a ∧
    (sendVerificationCodeResponse (showEmailVerificationModal g m e a c).1 r).callback =
      some c := by
  have hframe := sendVerificationCodeResponse_frame (showEmailVerificationModal g m e a c).1 r
  refine ⟨⟨rfl, rfl, rfl, rfl, rfl, rfl, rfl, rfl, rfl⟩, ?_, ?_, ?_, ?_⟩
  · obtain ⟨endpoint, step, hreq⟩ :=
      sendVerificationCode_body g (showEmailVerificationModal g m e a c).1 e
    exact ⟨endpoint, step, by rw [← hreq]; rfl⟩
  · unfold resendVerificationCode
    rw [hframe.2.2.1]
    rw [sendVerificationCode_congr g _ (showEmailVerificationModal g m e a c).1 _ hframe.1]
    rfl
  · exact hframe.1
  · exact hframe.2.1

/-- A code of five code units is not the empty string. -/
theorem truthy_of_jsLength_five (s : String) (h : jsLength s = 5) : truthy s = true := by
  cases ht : truthy s with
  | true => rfl
  | false =>
    have h0 := jsLength_of_not_truthy s ht
    omega

/-- C18.  With a code whose trimmed text has five code units, `verifyEmailCode` issues
the verify request and leaves the modal as it is.  When that request fails, or its
answer is not both `success` and `email_verified`, the continuation shows an inline
error (`Verification failed`, or the error text of the answer), hides the success
message, leaves the modal open with the stored action and callback unchanged, and
makes no call of the deferred action. -/
theorem verifyEmailCode_failure (g : Globals) (m : VerificationModal)
    (r : Outcome VerifyResponse) (hcode : jsLength (jsTrim m.codeInput) = 5)
    (hr : r = .failure ∨
      ∃ status data, r = .response status data ∧ (data.success && data.email_verified) = false) :
    (verifyEmailCode g m).1 = m ∧
    (verifyEmailCode g m).2.any Effect.isFetch = true ∧
    verifyEmailCodeResponse m r =
      (showVerificationError m
        (match r with
          | .failure => "Verification failed"
          | .response _ data => orElseOpt data.error "Verification failed"), none) ∧
    (verifyEmailCodeResponse m r).1.errorDisplay = "block" ∧
    (verifyEmailCodeResponse m r).1.successDisplay = "none" ∧
    (verifyEmailCodeResponse m r).1.display = m.display ∧
    (verifyEmailCodeResponse m r).1.action = m.action ∧
    (verifyEmailCodeResponse m r).1.callback = m.callback ∧
    (verifyEmailCodeResponse m r).2 = none := by
  have ht := truthy_of_jsLength_five _ hcode
  have hresp : verifyEmailCodeResponse m r =
      (showVerificationError m
        (match r with
          | .failure => "Verification failed"
          | .response _ data => orElseOpt data.error "Verification failed"), none) := by
    rcases hr with hr | ⟨status, data, hr, hbad⟩
    · subst hr
      rfl
    · subst hr
      simp [verifyEmailCodeResponse, hbad]
  refine ⟨?_, ?_, hresp, ?_, ?_, ?_, ?_, ?_, ?_⟩
  · simp [verifyEmailCode, ht, hcode]
  · simp [verifyEmailCode, ht, hcode, Effect.isFetch]
  all_goals rw [hresp]
  all_goals rfl

/-- C18 (witness): the code `12345`, answered with `success: false` and the error
`Invalid code`. -/
theorem verifyEmailCode_failure_witness :
    jsLength (jsTrim "12345") = 5 ∧
    verifyEmailCodeResponse
        { createEmailVerificationModal with codeInput := "12345", display := "block" }
        (.response 400
          { success := false, email_verified := false, message := none,
            error := some "Invalid code" }) =
      (showVerificationError
        { createEmailVerificationModal with codeInput := "12345", display := "block" }
        "Invalid code", none) := by
  have key := verifyEmailCode_failure sampleGlobals
    { createEmailVerificationModal with codeInput := "12345", display := "block" }
    (.response 400
      { success := false, email_verified := false, message := none,
        error := some "Invalid code" })
    (by decide) (Or.inr ⟨_, _, rfl, rfl⟩)
  exact ⟨by decide, key.2.2.1⟩

/-- C19.  For every settings update answered with status 403 the submit button is
enabled again with its original markup and nothing else of the settings page changes
(the club header and the location display are not updated).  If the payload carries
`requires_verification`, the verification flow is opened for the payload's
`verification_email` with the action `settings`, and the one effect is the send-code
request: no toast.  Otherwise the one effect is an error toast with the error text of
the payload, or `Access denied` when it has none. -/
theorem updateClubSettings_forbidden (g : Globals) (m : VerificationModal) (p : SettingsPage)
    (originalText clubName clubLocation : String) (data : ActionResponse) :
    (updateClubSettingsResponse g m p originalText clubName clubLocation
        (.response 403 data)).1 =
      { p with submitDisabled := false, submitHtml := originalText } ∧
    (data.requires_verification = true →
      (updateClubSettingsResponse g m p originalText clubName clubLocation
          (.response 403 data)).2 =
        showEmailVerificationModal g m data.verification_email "settings"
          ⟨"updateClubSettings", .null⟩ ∧
      (showEmailVerificationModal g m data.verification_email "settings"
          ⟨"updateClubSettings", .null⟩).1.emailDisplay = data.verification_email ∧
      (showEmailVerificationModal g m data.verification_email "settings"
          ⟨"updateClubSettings", .null⟩).1.action = "settings" ∧
      (showEmailVerificationModal g m data.verification_email "settings"
          ⟨"updateClubSettings", .null⟩).2 =
        [.fetch "PUT" (if jsIncludes g.pathname "/verify-leader" then "/verify-leader"
            else clubUrl g "/settings")
          (.json (.obj
            [("step", .str (if jsIncludes g.pathname "/verify-leader" then "resend_code"
                else "send_verification")),
             ("email", .str data.verification_email)]))]) ∧
    (data.requires_verification = false →
      (updateClubSettingsResponse g m p originalText clubName clubLocation
          (.response 403 data)).2 =
        (m, [showToast "error" (orElseOpt data.error "Access denied") "Error"])) := by
  refine ⟨?_, ?_, ?_⟩
  · cases hreq : data.requires_verification <;> simp [updateClubSettingsResponse, hreq]
  · intro hreq
    refine ⟨?_, rfl, rfl, ?_⟩
    · simp [updateClubSettingsResponse, hreq]
    · unfold showEmailVerificationModal sendVerificationCode
      cases jsIncludes g.pathname "/verify-leader" <;> rfl
  · intro hreq
    simp [updateClubSettingsResponse, hreq]

/-- C19 (witness): a 403 answer that requires verification for `lead@club.org`, and one
that does not and carries no error text. -/
theorem updateClubSettings_forbidden_witness :
    (updateClubSettingsResponse sampleGlobals createEmailVerificationModal sampleSettings
        "Save" "Chess" "Paris"
        (.response 403
          { requires_verification := true, verification_email := "lead@club.org",
            success := false, message := none, error := none })).2 =
      showEmailVerificationModal sampleGlobals createEmailVerificationModal "lead@club.org"
        "settings" ⟨"updateClubSettings", .null⟩ ∧
    (updateClubSettingsResponse sampleGlobals createEmailVerificationModal sampleSettings
        "Save" "Chess" "Paris"
        (.response 403
          { requires_verification := false, verification_email := "",
            success := false, message := none, error := none })).2 =
      (createEmailVerificationModal, [showToast "error" "Access denied" "Error"]) := by
  have key1 := updateClubSettings_forbidden sampleGlobals createEmailVerificationModal
    sampleSettings "Save" "Chess" "Paris"
    { requires_verification := true, verification_email := "lead@club.org",
      success := false, message := none, error := none }
  have key2 := updateClubSettings_forbidden sampleGlobals createEmailVerificationModal
    sampleSettings "Save" "Chess" "Paris"
    { requires_verification := false, verification_email := "",
      success := false, message := none, error := none }
  exact ⟨(key1.2.1 rfl).1, key2.2.2 rfl⟩

/-! ## Properties of the field-list errors -/

/-- The labels a loop keeps are a sublist of all labels, in the same order. -/
theorem filterMap_sublist_map {α β : Type} (c : α → Bool) (f : α → β) (l : List α) :
    List.Sublist (l.filterMap fun x => if c x then some (f x) else none) (l.map f) := by
  induction l with
  | nil => exact List.Sublist.slnil
  | cons a rest ih =>
    cases hc : c a with
    | true => simpa [List.filterMap_cons, hc] using ih
    | false => simpa [List.filterMap_cons, hc] using List.Sublist.cons _ ih

/-- The labels a loop keeps are those of the entries whose test holds. -/
theorem filterMap_eq_filter_pairs {α β : Type} (c : α → Bool) (f : α → β) (l : List α) :
    (l.filterMap fun x => if c x then some (f x) else none) =
      ((l.map fun x => (f x, c x)).filter (fun x => x.2)).map (fun x => x.1) := by
  induction l with
  | nil => rfl
  | cons a rest ih =>
    cases hc : c a with
    | true => simp [List.filterMap_cons, hc, ih]
    | false => simp [List.filterMap_cons, hc, ih]

/-- C20 (as stated, refuted).  A purchase form whose fields are all filled in, the amount
field with a text that `parseFloat` reads as `0`: the field-list error is shown and it
lists `amount`, a field that is filled. -/
theorem purchase_zero_amount_listed :
    (samplePurchase (.fin 0)).purchaseAmount.isNaN = false ∧
    submitPurchaseRequest sampleHost sampleGlobals (samplePurchase (.fin 0)) =
      [showToast "error" "Please fill in all required fields. Missing: amount"
        "Validation Error"] := by
  refine ⟨rfl, ?_⟩
  simp [submitPurchaseRequest, purchaseMissingFields, samplePurchase, truthy,
    JsNumber.truthy]
  rfl

/-- C20 (amended).  Whenever `submitPurchaseRequest` rejects with its field-list error,
the message lists exactly the required fields whose value is falsy (a text field that
is the empty string; an amount that is `NaN` or zero), each once, in the order
`purchase_type`, `description`, `reason`, `fulfillment_method`, `amount`.  Whenever
`submitGrantWithScreenshot` rejects with its field-list error, the message lists
exactly the labels of the required fields that are undefined, empty or made of white
space only, each once, in the declaration order of the 17 required fields. -/
theorem field_list_errors (h : Host) (g : Globals) (f : PurchaseForm) (gf : GrantForm)
    (url : String) (pd : Option ProjectData) (originalText : String) :
    (purchaseMissingFields f =
        (([("purchase_type", !truthy f.purchaseType),
           ("description", !truthy f.purchaseDescription),
           ("reason", !truthy f.purchaseReason),
           ("fulfillment_method", !truthy f.fulfillmentMethod),
           ("amount", !f.purchaseAmount.truthy)] : List (String × Bool)).filter
          (fun x => x.2)).map (fun x => x.1) ∧
      List.Sublist (purchaseMissingFields f)
        ["purchase_type", "description", "reason", "fulfillment_method", "amount"] ∧
      (purchaseMissingFields f).Nodup ∧
      (purchaseMissingFields f ≠ [] →
        submitPurchaseRequest h g f =
          [showToast "error"
            ("Please fill in all required fields. Missing: " ++
              ", ".intercalate (purchaseMissingFields f)) "Validation Error"])) ∧
    (grantMissingFields (grantFormData gf url pd) =
        (([("Member selection", (FormValue.text gf.memberSelect).missing),
           ("Project name",
             (match pd with
              | some d => (match d.name with | some n => FormValue.text n | none => .undefined)
              | none => .text (orElseOpt gf.projectText "")).missing),
           ("First name", (FormValue.text gf.firstName).missing),
           ("Last name", (FormValue.text gf.lastName).missing),
           ("Email address", (FormValue.text gf.email).missing),
           ("Birthday", (FormValue.text gf.birthday).missing),
           ("Project description", (FormValue.text gf.description).missing),
           ("GitHub URL", (FormValue.text gf.githubUrl).missing),
           ("Live URL", (FormValue.text gf.liveUrl).missing),
           ("What you learned", (FormValue.text gf.learning).missing),
           ("What we are doing well", (FormValue.text gf.doingWell).missing),
           ("How we can improve", (FormValue.text gf.improve).missing),
           ("Address line 1", (FormValue.text gf.address1).missing),
           ("City", (FormValue.text gf.city).missing),
           ("State/Province", (FormValue.text gf.state).missing),
           ("ZIP/Postal code", (FormValue.text gf.zip).missing),
           ("Country", (FormValue.text gf.country).missing)] : List (String × Bool)).filter
          (fun x => x.2)).map (fun x => x.1) ∧
      List.Sublist (grantMissingFields (grantFormData gf url pd))
        (grantRequiredFields.map (fun x => x.2)) ∧
      (grantMissingFields (grantFormData gf url pd)).Nodup ∧
      (hasHttpScheme (jsTrim gf.githubUrl) = true → hasHttpScheme (jsTrim gf.liveUrl) = true →
        gf.inPersonMeeting = true → grantMissingFields (grantFormData gf url pd) ≠ [] →
        submitGrantWithScreenshot g gf url pd originalText =
          ({ textContent := originalText, disabled := false },
           [showToast "error"
             ("Please fill in: " ++
               ", ".intercalate (grantMissingFields (grantFormData gf url pd)))
             "Missing Fields"]))) := by
  have hpeq : purchaseMissingFields f =
      (([("purchase_type", !truthy f.purchaseType),
         ("description", !truthy f.purchaseDescription),
         ("reason", !truthy f.purchaseReason),
         ("fulfillment_method", !truthy f.fulfillmentMethod),
         ("amount", !f.purchaseAmount.truthy)] : List (String × Bool)).filter
        (fun x => x.2)).map (fun x => x.1) := by
    unfold purchaseMissingFields
    cases truthy f.purchaseType <;> cases truthy f.purchaseDescription <;>
      cases truthy f.purchaseReason <;> cases truthy f.fulfillmentMethod <;>
      cases f.purchaseAmount.truthy <;> rfl
  have hpsub : List.Sublist (purchaseMissingFields f)
      ["purchase_type", "description", "reason", "fulfillment_method", "amount"] := by
    rw [hpeq]
    exact (List.filter_sublist _).map (fun x : String × Bool => x.1)
  have hgsub : List.Sublist (grantMissingFields (grantFormData gf url pd))
      (grantRequiredFields.map (fun x => x.2)) :=
    filterMap_sublist_map
      (fun x : String × String =>
        (((grantFormData gf url pd).lookup x.1).getD .undefined).missing)
      (fun x => x.2) grantRequiredFields
  refine ⟨⟨hpeq, hpsub, hpsub.nodup (by decide), ?_⟩, ⟨?_, hgsub, hgsub.nodup (by decide), ?_⟩⟩
  · intro hne
    have hlen : (purchaseMissingFields f).length > 0 := List.length_pos.2 hne
    simp [submitPurchaseRequest, hlen]
  · unfold grantMissingFields
    rw [filterMap_eq_filter_pairs
      (fun x : String × String =>
        (((grantFormData gf url pd).lookup x.1).getD .undefined).missing)
      (fun x => x.2) grantRequiredFields]
    rfl
  · intro h1 h2 h3 hne
    have hlen : (grantMissingFields (grantFormData gf url pd)).length > 0 :=
      List.length_pos.2 hne
    simp [submitGrantWithScreenshot, h1, h2, h3, hlen]

/-- C20 (witness): a purchase form with no purchase type and no amount, and a grant form
whose city is one space. -/
theorem field_list_errors_witness :
    purchaseMissingFields incompletePurchase ≠ [] ∧
    submitPurchaseRequest sampleHost sampleGlobals incompletePurchase =
      [showToast "error" "Please fill in all required fields. Missing: purchase_type, amount"
        "Validation Error"] ∧
    submitGrantWithScreenshot sampleGlobals blankCityGrant "https://cdn.example.org/s.png"
        (some { name := some "chess-bot", hours := "3.50" }) "Submit" =
      ({ textContent := "Submit", disabled := false },
       [showToast "error" "Please fill in: City" "Missing Fields"]) := by
  have key := field_list_errors sampleHost sampleGlobals incompletePurchase blankCityGrant
    "https://cdn.example.org/s.png" (some { name := some "chess-bot", hours := "3.50" })
    "Submit"
  have hp : purchaseMissingFields incompletePurchase = ["purchase_type", "amount"] := by
    decide
  have hg : grantMissingFields (grantFormData blankCityGrant "https://cdn.example.org/s.png"
      (some { name := some "chess-bot", hours := "3.50" })) = ["City"] := by
    decide
  refine ⟨by rw [hp]; decide, ?_, ?_⟩
  · have h1 := key.1.2.2.2 (by rw [hp]; decide)
    rw [hp] at h1
    exact h1
  · have h2 := key.2.2.2.2 (by decide) (by decide) rfl (by rw [hg]; decide)
    rw [hg] at h2
    exact h2

/-! ## Properties of the submitters after the request -/

/-- After a success payload the purchase modal is closed, the form is reset and the loader
is called, whether or not the payload carries `new_balance`; the notification after
them is the success toast with `new_balance`, and the error toast of the `catch`
handler without it. -/
theorem submitPurchaseRequestResponse_success (h : Host) (g : Globals)
    (defaults : PurchaseForm) (p : PurchasePage) (status : Nat) (data : PurchaseResponse)
    (hmsg : optTruthy data.message = true) :
    (submitPurchaseRequestResponse h g defaults p (.response status data)).2.1.modal =
      { display := "none", form := defaults } ∧
    (submitPurchaseRequestResponse h g defaults p (.response status data)).2.2 =
      [.load .loadPurchaseRequests,
       match data.new_balance with
       | some newBalance =>
         showToast "success"
           ("Purchase request submitted! New balance: $" ++ h.toFixed2 newBalance)
           "Request Submitted"
       | none => showToast "error" "Error submitting purchase request" "Error"] := by
  cases hb : data.new_balance <;> simp [submitPurchaseRequestResponse, hmsg, hb]

/-- C21 (failing input).  A valid purchase request of `20` against a balance of `30` is
sent; its answer carries a message and no `new_balance`.  The modal is closed, the form
is reset and `loadPurchaseRequests` is called, but no success notification is shown:
the only notification is the error toast `Error submitting purchase request`. -/
theorem submitPurchaseRequest_success_without_new_balance :
    (submitPurchaseRequest sampleHost sampleGlobals (samplePurchase (.fin 20))).any
        Effect.isFetch = true ∧
    submitPurchaseRequestResponse sampleHost sampleGlobals blankPurchaseForm
        samplePurchasePage (.response 200 messageOnlyResponse) =
      (sampleGlobals,
       { modal := { display := "none", form := blankPurchaseForm },
         balanceTexts := ["$30.00", "Balance"] },
       [.load .loadPurchaseRequests,
        showToast "error" "Error submitting purchase request" "Error"]) := by
  refine ⟨?_, rfl⟩
  simp [submitPurchaseRequest, purchaseMissingFields, samplePurchase, truthy,
    JsNumber.truthy, JsNumber.isNaN, JsNumber.le, JsNumber.gt, JsNumber.zero, clubBalance,
    sampleGlobals, Effect.isFetch]
  norm_num

/-- The expression `error || fallback` is the error of the server when it is present and
not empty, and the fallback otherwise. -/
theorem orElseOpt_eq_serverErrorOr (error : Option String) (fallback : String) :
    orElseOpt error fallback = serverErrorOr error fallback := by
  cases error with
  | none => rfl
  | some e =>
    by_cases he : e = ""
    · simp [orElseOpt, orElse, serverErrorOr, truthy, he]
    · simp [orElseOpt, orElse, serverErrorOr, truthy, he]

/-- C22.  For `createAssignment`, `createMeeting`, `updateMeeting`, `addResource` and
`updateResource`, every modal state and every answered payload without a (non-empty)
message: the modal is exactly as before (its display, the values of its form fields and
its edit-id stamp), and the only effect is one error notification titled `Error` whose
text is the error of the server when it is present and not empty, and the fixed text of
the submitter otherwise; in particular no loader is called. -/
theorem submitters_failure_response (da : AssignmentForm) (dm : MeetingForm)
    (dr : ResourceForm) (ma : FormModal AssignmentForm) (mm : EditModal MeetingForm)
    (mr : EditModal ResourceForm) (status : Nat) (data : MutationResponse)
    (hmsg : optTruthy data.message = false) :
    createAssignmentResponse da ma (.response status data) =
      (ma, [showToast "error" (serverErrorOr data.error "Failed to create assignment")
        "Error"]) ∧
    createMeetingResponse dm mm (.response status data) =
      (mm, [showToast "error" (serverErrorOr data.error "Failed to schedule meeting")
        "Error"]) ∧
    updateMeetingResponse dm mm (.response status data) =
      (mm, [showToast "error" (serverErrorOr data.error "Failed to update meeting")
        "Error"]) ∧
    addResourceResponse dr mr (.response status data) =
      (mr, [showToast "error" (serverErrorOr data.error "Failed to add resource")
        "Error"]) ∧
    updateResourceResponse dr mr (.response status data) =
      (mr, [showToast "error" (serverErrorOr data.error "Failed to update resource")
        "Error"]) ∧
    (∀ loader, Effect.load loader ∉
      (createAssignmentResponse da ma (.response status data)).2 ++
      (createMeetingResponse dm mm (.response status data)).2 ++
      (updateMeetingResponse dm mm (.response status data)).2 ++
      (addResourceResponse dr mr (.response status data)).2 ++
      (updateResourceResponse dr mr (.response status data)).2) := by
  have h1 : createAssignmentResponse da ma (.response status data) =
      (ma, [showToast "error" (serverErrorOr data.error "Failed to create assignment")
        "Error"]) := by
    simp [createAssignmentResponse, hmsg, orElseOpt_eq_serverErrorOr]
  have h2 : createMeetingResponse dm mm (.response status data) =
      (mm, [showToast "error" (serverErrorOr data.error "Failed to schedule meeting")
        "Error"]) := by
    simp [createMeetingResponse, hmsg, orElseOpt_eq_serverErrorOr]
  have h3 : updateMeetingResponse dm mm (.response status data) =
      (mm, [showToast "error" (serverErrorOr data.error "Failed to update meeting")
        "Error"]) := by
    simp [updateMeetingResponse, hmsg, orElseOpt_eq_serverErrorOr]
  have h4 : addResourceResponse dr mr (.response status data) =
      (mr, [showToast "error" (serverErrorOr data.error "Failed to add resource")
        "Error"]) := by
    simp [addResourceResponse, hmsg, orElseOpt_eq_serverErrorOr]
  have h5 : updateResourceResponse dr mr (.response status data) =
      (mr, [showToast "error" (serverErrorOr data.error "Failed to update resource")
        "Error"]) := by
    simp [updateResourceResponse, hmsg, orElseOpt_eq_serverErrorOr]
  refine ⟨h1, h2, h3, h4, h5, ?_⟩
  intro loader
  rw [h1, h2, h3, h4, h5]
  simp [showToast]

/-- C22 (witness): the payload with the error `Title too long` and no message, answered
to the five submitters; the assignment modal and the meeting modal in edit mode stay as
they were. -/
theorem submitters_failure_response_witness :
    optTruthy titleTooLong.message = false ∧
    createAssignmentResponse (sampleAssignment "" "") sampleAssignmentModal
        (.response 400 titleTooLong) =
      (sampleAssignmentModal, [showToast "error" "Title too long" "Error"]) ∧
    updateMeetingResponse blankMeetingForm
        (editMeeting initialMeetingModal "4" (sampleMeeting "Kickoff"))
        (.response 400 titleTooLong) =
      (editMeeting initialMeetingModal "4" (sampleMeeting "Kickoff"),
       [showToast "error" "Title too long" "Error"]) := by
  have key := submitters_failure_response (sampleAssignment "" "") blankMeetingForm
    blankResourceForm sampleAssignmentModal
    (editMeeting initialMeetingModal "4" (sampleMeeting "Kickoff")) initialResourceModal
    400 titleTooLong rfl
  exact ⟨rfl, key.1, key.2.2.1⟩

/-! ## Properties of the confirmation modal -/

/-- C23.  For each of the five delete variants, every argument and every state of the
confirmation modal: the call has no effect at all (no request, no notification) and
leaves the modal open; a click on the confirm button then hides the modal and runs the
closure of the call, whose only effect is the `DELETE` request for the record (for
`confirmRemoveMember` on a page without club id, the error toast of `removeMember`
instead), whatever the arguments are: no field is validated.  When a second variant is
called before the click, the click runs the closure of the second call only; and every
further click runs the registered closure once more. -/
theorem delete_variants_confirm (g : Globals) (m : ConfirmModal) (v w : DeleteVariant) :
    (v.call m).2 = [] ∧
    (v.call m).1.display = "block" ∧
    clickConfirmButton g (v.call m).1 =
      ({ (v.call m).1 with display := "none" },
       if v.checksClubId && !truthy g.clubId then
         [showToast "error" "Cannot remove member: Club ID is missing." "Error"]
       else [.fetch "DELETE" (clubUrl g v.path) .none]) ∧
    (clickConfirmButton g (w.call (v.call m).1).1).2 = (clickConfirmButton g (w.call m).1).2 ∧
    (clickConfirmButton g (clickConfirmButton g (v.call m).1).1).2 =
      (clickConfirmButton g (v.call m).1).2 := by
  refine ⟨?_, ?_, ?_, ?_, ?_⟩
  · cases v <;> rfl
  · cases v <;> rfl
  · cases v with
    | confirmRemoveMember userId username =>
      cases hc : truthy g.clubId <;>
        simp [DeleteVariant.call, confirmRemoveMember, showConfirmModal, clickConfirmButton,
          OnConfirm.run, removeMember, DeleteVariant.checksClubId, DeleteVariant.path, hc]
    | _ => rfl
  · cases w <;> rfl
  · cases v <;> rfl

/-! ## Properties of the post preview -/

/-- The number of code units of a string is its `length`. -/
theorem utf16_length (s : String) : (utf16 s).length = jsLength s := by
  unfold utf16 jsLength
  induction s.data with
  | nil => rfl
  | cons c cs ih =>
    have hc : (utf16Encode c).length = utf16Units c := by
      unfold utf16Encode utf16Units
      split_ifs <;> rfl
    simp [List.flatMap_cons, hc, ih]

/-- The first fifty code units of a string. -/
theorem jsSubstring_zero (s : CodeUnits) (n : Nat) : jsSubstring s 0 n = s.take n := by
  simp [jsSubstring]

/-- C28.  For every content string (a sequence of UTF-16 code units) the two definitions
of `deletePost` compute the same preview: the content itself when its length is at most
50, and its first 50 code units followed by `...` otherwise; the preview has at most 53
code units.  Both definitions hand the same details text and the same closure to the
confirmation modal. -/
theorem deletePost_previews_agree (content : CodeUnits) (m : ConfirmModal)
    (postId : String) :
    deletePostPreviewEarlier content = deletePostPreview content ∧
    deletePostPreview content =
      (if content.length ≤ 50 then content else content.take 50 ++ utf16 "...") ∧
    (deletePostPreview content).length ≤ 53 ∧
    (deletePostEarlier m postId content).1.onclick = (deletePost m postId content).1.onclick ∧
    (deletePostEarlier m postId content).1.confirmMessage.map (fun c => c.details) =
      (deletePost m postId content).1.confirmMessage.map (fun c => c.details) := by
  have hlater : deletePostPreview content =
      (if content.length ≤ 50 then content else content.take 50 ++ utf16 "...") := by
    unfold deletePostPreview
    rw [jsSubstring_zero]
    by_cases hlen : content.length ≤ 50
    · have hnot : ¬ content.length > 50 := by omega
      rw [if_pos hlen, if_neg hnot, List.take_of_length_le hlen]
      exact List.append_nil _
    · have hgt : content.length > 50 := by omega
      rw [if_neg hlen, if_pos hgt]
  have hagree : deletePostPreviewEarlier content = deletePostPreview content := by
    rw [hlater]
    unfold deletePostPreviewEarlier
    rw [jsSubstring_zero]
    by_cases hlen : content.length ≤ 50
    · have hnot : ¬ content.length > 50 := by omega
      rw [if_pos hlen, if_neg hnot]
    · have hgt : content.length > 50 := by omega
      rw [if_neg hlen, if_pos hgt]
  refine ⟨hagree, hlater, ?_, rfl, ?_⟩
  · rw [hlater]
    by_cases hlen : content.length ≤ 50
    · rw [if_pos hlen]
      omega
    · rw [if_neg hlen, List.length_append, List.length_take]
      have h3 : (utf16 "...").length = 3 := by decide
      omega
  · unfold deletePostEarlier deletePost showConfirmModal
    rw [hagree]
    cases m.confirmMessage <;> rfl

/-! ## Properties of the process-wide state -/

/-- C24.  The initialization handler assigns `clubId` and `joinCode` from the data
attributes of the dashboard element (the empty string for a missing attribute; nothing
without the element) and leaves `clubData` as it is.  The continuation of
`generateNewJoinCode` leaves every global as it is, whatever the answer: the variable
`joinCode`, and with it the join link, stays the old one.  The continuation of
`submitPurchaseRequest` leaves `clubId` and `joinCode` as they are; it changes
`clubData` only on a payload with a message and a defined `new_balance`, and then the
balance becomes `new_balance` while `isLeader` and `name` stay. -/
theorem globals_frame (h : Host) (g : Globals) (dashboardElement : Option Dataset)
    (page : List Elem) (locationHash origin : String) (jp : JoinCodePage)
    (jr : Outcome JoinCodeResponse) (defaults : PurchaseForm) (pp : PurchasePage)
    (pr : Outcome PurchaseResponse) :
    ((domContentLoaded g dashboardElement page locationHash).1.clubId =
        (match dashboardElement with
         | some dataset => (match dataset.clubId with | some id => id | none => "")
         | none => g.clubId) ∧
      (domContentLoaded g dashboardElement page locationHash).1.joinCode =
        (match dashboardElement with
         | some dataset => (match dataset.joinCode with | some code => code | none => "")
         | none => g.joinCode) ∧
      (domContentLoaded g dashboardElement page locationHash).1.clubData = g.clubData) ∧
    ((generateNewJoinCodeResponse g jp jr).1 = g ∧
      joinUrl (generateNewJoinCodeResponse g jp jr).1 origin = joinUrl g origin) ∧
    ((submitPurchaseRequestResponse h g defaults pp pr).1.clubId = g.clubId ∧
      (submitPurchaseRequestResponse h g defaults pp pr).1.joinCode = g.joinCode ∧
      ((submitPurchaseRequestResponse h g defaults pp pr).1.clubData ≠ g.clubData →
        ∃ status data newBalance, pr = .response status data ∧
          optTruthy data.message = true ∧ data.new_balance = some newBalance) ∧
      (∀ status data newBalance cd, pr = .response status data →
        optTruthy data.message = true → data.new_balance = some newBalance →
        g.clubData = some cd →
        (submitPurchaseRequestResponse h g defaults pp pr).1.clubData =
          some { isLeader := cd.isLeader, balance := some newBalance, name := cd.name })) := by
  refine ⟨⟨?_, ?_, ?_⟩, ⟨?_, ?_⟩, ⟨?_, ?_, ?_, ?_⟩⟩
  · cases dashboardElement with
    | none => rfl
    | some dataset =>
      cases hid : dataset.clubId with
      | none => simp [domContentLoaded, orElseOpt, hid]
      | some id =>
        by_cases he : id = ""
        · simp [domContentLoaded, orElseOpt, orElse, truthy, hid, he]
        · simp [domContentLoaded, orElseOpt, orElse, truthy, hid, he]
  · cases dashboardElement with
    | none => rfl
    | some dataset =>
      cases hcode : dataset.joinCode with
      | none => simp [domContentLoaded, orElseOpt, hcode]
      | some code =>
        by_cases he : code = ""
        · simp [domContentLoaded, orElseOpt, orElse, truthy, hcode, he]
        · simp [domContentLoaded, orElseOpt, orElse, truthy, hcode, he]
  · cases dashboardElement <;> rfl
  · cases jr with
    | failure => rfl
    | response status data =>
      cases hj : optTruthy data.join_code <;> simp [generateNewJoinCodeResponse, hj]
  · cases jr with
    | failure => rfl
    | response status data =>
      cases hj : optTruthy data.join_code <;> simp [generateNewJoinCodeResponse, hj]
  · cases pr with
    | failure => rfl
    | response status data =>
      cases hm : optTruthy data.message <;> cases hb : data.new_balance <;>
        simp [submitPurchaseRequestResponse, hm, hb]
  · cases pr with
    | failure => rfl
    | response status data =>
      cases hm : optTruthy data.message <;> cases hb : data.new_balance <;>
        simp [submitPurchaseRequestResponse, hm, hb]
  · intro hne
    cases pr with
    | failure => exact absurd rfl hne
    | response status data =>
      cases hm : optTruthy data.message with
      | false =>
        exfalso
        apply hne
        simp [submitPurchaseRequestResponse, hm]
      | true =>
        cases hb : data.new_balance with
        | none =>
          exfalso
          apply hne
          simp [submitPurchaseRequestResponse, hm, hb]
        | some newBalance => exact ⟨status, data, newBalance, rfl, hm, hb⟩
  · intro status data newBalance cd hpr hm hb hcd
    subst hpr
    simp [submitPurchaseRequestResponse, hm, hb, hcd]

/-- C24 (concrete evaluation): a new join code `NEW42` is written to the page while the
variable keeps `JOIN7`; a purchase answered with the new balance `10` turns the balance
`30` of the globals into `10`. -/
theorem globals_frame_witness :
    (generateNewJoinCodeResponse sampleGlobals sampleJoinCodePage
        (.response 200 { join_code := some "NEW42" })).2.1.qrCodeInput = some "NEW42" ∧
    (generateNewJoinCodeResponse sampleGlobals sampleJoinCodePage
        (.response 200 { join_code := some "NEW42" })).1.joinCode = "JOIN7" ∧
    (submitPurchaseRequestResponse sampleHost sampleGlobals blankPurchaseForm
        samplePurchasePage (.response 200 balanceTenResponse)).1.clubData =
      some { isLeader := true, balance := some (.fin 10), name := "Chess" } := by
  have key := globals_frame sampleHost sampleGlobals none [] "" "" sampleJoinCodePage
    (.response 200 { join_code := some "NEW42" }) blankPurchaseForm samplePurchasePage
    (.response 200 balanceTenResponse)
  refine ⟨rfl, ?_, ?_⟩
  · rw [key.2.1.1]
    rfl
  · exact key.2.2.2.2.2 200 balanceTenResponse (.fin 10)
      { isLeader := true, balance := some (.fin 30), name := "Chess" } rfl rfl rfl rfl

/-! ## Properties of the verification endpoints -/

/-- The endpoint in the words of the specification, as the chain of tests the two
functions make. -/
theorem verificationEndpoint_eq (g : Globals) (action : String) :
    verificationEndpoint g action =
      (if jsIncludes g.pathname "/verify-leader" then "/verify-leader"
       else if action == "settings" then clubUrl g "/settings"
       else if action == "co-leader" then clubUrl g "/co-leader"
       else if action == "make-co-leader" then clubUrl g "/make-co-leader"
       else if action == "remove-co-leader" then clubUrl g "/remove-co-leader"
       else clubUrl g "/settings") := by
  unfold verificationEndpoint
  by_cases hp : jsIncludes g.pathname "/verify-leader" = true
  · rw [if_pos hp, if_pos hp]
  · rw [if_neg hp, if_neg hp]
    by_cases h1 : action = "settings"
    · subst h1
      simp [clubUrl, String.append_assoc]
    · by_cases h2 : action = "co-leader"
      · subst h2
        simp [clubUrl, String.append_assoc]
      · by_cases h3 : action = "make-co-leader"
        · subst h3
          simp [clubUrl, String.append_assoc]
        · by_cases h4 : action = "remove-co-leader"
          · subst h4
            simp [clubUrl, String.append_assoc]
          · simp [h1, h2, h3, h4, clubUrl]

/-- The send-code request goes to the endpoint of the stored action. -/
theorem sendVerificationCode_endpoint (g : Globals) (m : VerificationModal) (email : String) :
    ∃ body, sendVerificationCode g m email =
      .fetch "PUT" (verificationEndpoint g m.action) body := by
  rw [verificationEndpoint_eq]
  unfold sendVerificationCode
  dsimp only
  split_ifs <;> exact ⟨_, rfl⟩

/-- The verify request goes to the endpoint of the stored action. -/
theorem verifyEmailCode_endpoint (g : Globals) (m : VerificationModal)
    (hcode : jsLength (jsTrim m.codeInput) = 5) :
    ∃ body, (verifyEmailCode g m).2 =
      [.fetch "PUT" (verificationEndpoint g m.action) body] := by
  have ht := truthy_of_jsLength_five _ hcode
  rw [verificationEndpoint_eq]
  refine ⟨.json (.obj [("step", .str "verify_email"),
    ("verification_code", .str (jsTrim m.codeInput))]), ?_⟩
  simp [verifyEmailCode, ht, hcode]

/-- C25.  For every page path, stored action name and typed code of five code units:
`sendVerificationCode` and `verifyEmailCode` both send a `PUT` request to the endpoint
the specification names for the stored action (`/verify-leader` on a page whose path
contains it; the club's `settings`, `co-leader`, `make-co-leader` or `remove-co-leader`
endpoint for these four names; the settings endpoint for any other name).  In the flow
that `showEmailVerificationModal` opens for an action, the code is requested, requested
again by Resend, and verified at one and the same endpoint. -/
theorem verification_endpoints_agree (g : Globals) (m : VerificationModal)
    (email action code : String) (callback : Callback)
    (hcode : jsLength (jsTrim code) = 5) :
    (∃ body, sendVerificationCode g m email =
      .fetch "PUT" (verificationEndpoint g m.action) body) ∧
    (∃ body, (verifyEmailCode g { m with codeInput := code }).2 =
      [.fetch "PUT" (verificationEndpoint g m.action) body]) ∧
    (∃ sent resent verified,
      (showEmailVerificationModal g m email action callback).2 =
        [.fetch "PUT" (verificationEndpoint g action) sent] ∧
      resendVerificationCode g
          { (showEmailVerificationModal g m email action callback).1 with codeInput := code } =
        [.fetch "PUT" (verificationEndpoint g action) resent] ∧
      (verifyEmailCode g
          { (showEmailVerificationModal g m email action callback).1 with
            codeInput := code }).2 =
        [.fetch "PUT" (verificationEndpoint g action) verified]) := by
  refine ⟨sendVerificationCode_endpoint g m email, ?_, ?_⟩
  · exact verifyEmailCode_endpoint g { m with codeInput := code } hcode
  · obtain ⟨sent, hsent⟩ :=
      sendVerificationCode_endpoint g (showEmailVerificationModal g m email action callback).1
        email
    obtain ⟨resent, hresent⟩ :=
      sendVerificationCode_endpoint g
        { (showEmailVerificationModal g m email action callback).1 with codeInput := code }
        email
    obtain ⟨verified, hverified⟩ :=
      verifyEmailCode_endpoint g
        { (showEmailVerificationModal g m email action callback).1 with codeInput := code }
        hcode
    refine ⟨sent, resent, verified, ?_, ?_, hverified⟩
    · show [sendVerificationCode g (showEmailVerificationModal g m email action callback).1
        email] = _
      rw [hsent]
      rfl
    · show [sendVerificationCode g
        { (showEmailVerificationModal g m email action callback).1 with codeInput := code }
        email] = _
      rw [hresent]
      rfl

/-- C25 (witness): a flow opened for `make-co-leader` on the dashboard of club `7`, the
code `12345` typed: the code is requested and verified at
`/api/clubs/7/make-co-leader`. -/
theorem verification_endpoints_agree_witness :
    jsLength (jsTrim "12345") = 5 ∧
    verificationEndpoint sampleGlobals "make-co-leader" = "/api/clubs/7/make-co-leader" ∧
    (∃ sent verified,
      (showEmailVerificationModal sampleGlobals createEmailVerificationModal "lead@club.org"
          "make-co-leader" ⟨"makeCoLeader", .arr [.num (.fin 5)]⟩).2 =
        [.fetch "PUT" "/api/clubs/7/make-co-leader" sent] ∧
      (verifyEmailCode sampleGlobals
          { (showEmailVerificationModal sampleGlobals createEmailVerificationModal
              "lead@club.org" "make-co-leader" ⟨"makeCoLeader", .arr [.num (.fin 5)]⟩).1 with
            codeInput := "12345" }).2 =
        [.fetch "PUT" "/api/clubs/7/make-co-leader" verified]) := by
  have key := verification_endpoints_agree sampleGlobals createEmailVerificationModal
    "lead@club.org" "make-co-leader" "12345" ⟨"makeCoLeader", .arr [.num (.fin 5)]⟩
    (by decide)
  have hend : verificationEndpoint sampleGlobals "make-co-leader" =
      "/api/clubs/7/make-co-leader" := by decide
  obtain ⟨sent, _, verified, hsent, _, hverified⟩ := key.2.2
  rw [hend] at hsent hverified
  exact ⟨by decide, hend, sent, verified, hsent, hverified⟩

/-! ## Properties of the verified flag -/

/-- With the verified flag set, the continuations of `makeCoLeader` and `removeCoLeader`
leave the verification modal as it is and send no request, whatever the answer. -/
theorem coLeader_actions_verified (g : Globals) (m : VerificationModal) (userId : JsVal)
    (r : Outcome ActionResponse) :
    (makeCoLeaderResponse g m userId true r).1 = m ∧
    (makeCoLeaderResponse g m userId true r).2.any Effect.isFetch = false ∧
    (removeCoLeaderResponse g m true r).1 = m ∧
    (removeCoLeaderResponse g m true r).2.any Effect.isFetch = false := by
  cases r with
  | failure => exact ⟨rfl, rfl, rfl, rfl⟩
  | response status data =>
    cases hs : data.success <;>
      simp [makeCoLeaderResponse, removeCoLeaderResponse, hs, Effect.isFetch]

/-- C26 (failing input).  The replay of `updateClubSettings` after a verification is the
call `updateClubSettings(null, true)`; its request carries `email_verified: true`.
When that request is answered with status 403 and `requires_verification`, the
verification modal is opened again, the same callback is stored again, and a new code is
requested: the verified flag is not looked at, and a second verification round starts. -/
theorem updateClubSettings_verified_reopens_flow :
    windowCall "updateClubSettings" .null true = some (.updateClubSettings .null true) ∧
    runCall sampleGlobals sampleSettings true (.updateClubSettings .null true) =
      [.fetch "PUT" "/api/clubs/7/settings"
        (.json (.obj
          [("name", .str "Chess"), ("description", .str "We play chess"),
           ("location", .str "Paris"), ("email_verified", .bool true)]))] ∧
    (updateClubSettingsResponse sampleGlobals createEmailVerificationModal sampleSettings
        "Save" "Chess" "Paris" (.response 403 verificationRequired)).2 =
      ({ createEmailVerificationModal with
          display := "block"
          emailDisplay := "lead@club.org"
          callback := some ⟨"updateClubSettings", .null⟩
          action := "settings" },
       [.fetch "PUT" "/api/clubs/7/settings"
         (.json (.obj
           [("step", .str "send_verification"), ("email", .str "lead@club.org")]))]) := by
  exact ⟨rfl, rfl, rfl⟩

/-! ## Properties of the inline delete handlers -/

/-- The escaped text as a list of characters. -/
theorem escapeQuotes_data (s : String) :
    (escapeQuotes s).data =
      s.data.flatMap fun c => if c = apostrophe then [backslash, apostrophe] else [c] :=
  rfl

/-- An apostrophe closes the literal. -/
theorem readLiteral_apostrophe (rest : List Char) :
    readLiteral (apostrophe :: rest) = .closed [] rest := by
  rw [readLiteral.eq_def]
  simp

/-- A character that is no apostrophe, backslash, line feed or carriage return stands
for itself. -/
theorem readLiteral_char (c : Char) (rest : List Char) (h1 : c ≠ apostrophe)
    (h2 : c ≠ backslash) (h3 : (c.toNat == 0x0A || c.toNat == 0x0D) = false) :
    readLiteral (c :: rest) = (readLiteral rest).cons c := by
  rw [readLiteral.eq_def]
  simp only [if_neg h1, if_neg h2, h3]
  simp

/-- A backslash before an apostrophe denotes the apostrophe. -/
theorem readLiteral_escaped_apostrophe (rest : List Char) :
    readLiteral (backslash :: apostrophe :: rest) = (readLiteral rest).cons apostrophe := by
  rw [readLiteral.eq_def]
  have hne : backslash ≠ apostrophe := by decide
  have h1 : (apostrophe.isDigit || decide (apostrophe = 'x') ||
      decide (apostrophe = 'u')) = false := by decide
  have h2 : isLineTerminator apostrophe = false := by decide
  have h3 : singleEscape apostrophe = apostrophe := by decide
  simp only [if_neg hne, if_true]
  simp [h1, h2, h3]

/-- A text without backslash, line feed and carriage return is read back from its
escaped form: the literal denotes the text and ends at the quote written after it. -/
theorem readLiteral_escaped (cs rest : List Char)
    (hcs : ∀ c ∈ cs, c ≠ backslash ∧ c.toNat ≠ 0x0A ∧ c.toNat ≠ 0x0D) :
    readLiteral
        ((cs.flatMap fun c => if c = apostrophe then [backslash, apostrophe] else [c]) ++
          apostrophe :: rest) =
      .closed cs rest := by
  induction cs with
  | nil => exact readLiteral_apostrophe rest
  | cons c cs ih =>
    have hc := hcs c (List.mem_cons_self c cs)
    have ih := ih fun d hd => hcs d (List.mem_cons_of_mem c hd)
    by_cases ha : c = apostrophe
    · subst ha
      simp only [List.flatMap_cons, if_true, List.cons_append, List.nil_append]
      rw [readLiteral_escaped_apostrophe, ih]
      rfl
    · have h10 : (c.toNat == 0x0A || c.toNat == 0x0D) = false := by
        simp [hc.2.1, hc.2.2]
      simp only [List.flatMap_cons, if_neg ha, List.cons_append, List.nil_append]
      rw [readLiteral_char c _ ha hc.1 h10, ih]
      rfl

/-- The `onclick` attribute of a delete button is the name of the handler, the record id
and, after the opening quote, the argument text `handlerArgument` reads. -/
theorem deleteButton_onclick (handler : String) (id : Int) (quoted title : String) :
    (deleteButton handler id quoted title).getAttribute "onclick" =
      some (handler ++ "(" ++ toString id ++ ", " ++ ⟨apostrophe :: handlerArgument quoted⟩) := by
  have hkey : (("onclick" : String) != "title") = true := by decide
  simp [deleteButton, createElement, Node.setAttribute, Node.setChildren, Node.getAttribute,
    truthy, hkey, handlerArgument, List.lookup, String.ext_iff]
  rfl

/-- For a content without backslash, line feed and carriage return the argument of the
inline handler is a literal that denotes the content and ends right before the closing
bracket. -/
theorem handlerArgument_round_trip (text : String)
    (htext : ∀ c ∈ text.data, c ≠ backslash ∧ c.toNat ≠ 0x0A ∧ c.toNat ≠ 0x0D) :
    readLiteral (handlerArgument text) = .closed text.data [')'] := by
  unfold handlerArgument
  rw [escapeQuotes_data]
  exact readLiteral_escaped text.data [')'] htext

/-- C27 (failing inputs).  A content that is a single backslash is written into the
handler unchanged; the backslash escapes the closing quote and the literal never ends: a
syntax error.  The content `\');alert(1);//` is written as `\\');alert(1);//`; the
literal denotes a single backslash and ends at the apostrophe of the content, and the
rest of the content follows the literal as script text.  A content with a line feed is
a syntax error as well. -/
theorem escapeQuotes_breaks_literal :
    readLiteral (handlerArgument ⟨[backslash]⟩) = .unterminated ∧
    readLiteral (handlerArgument hostileContent) =
      .closed [backslash]
        [')', ';', 'a', 'l', 'e', 'r', 't', '(', '1', ')', ';', '/', '/', apostrophe, ')'] ∧
    readLiteral (handlerArgument ⟨['a', Char.ofNat 10, 'b']⟩) = .unterminated ∧
    readLiteral (handlerArgument ⟨['i', 't', apostrophe, 's']⟩) =
      .closed ['i', 't', apostrophe, 's'] [')'] := by
  refine ⟨?_, ?_, ?_, ?_⟩ <;> decide

/-! ## Properties of the grant URL checks -/

/-- Only a text that is not empty starts with `http://` or `https://`. -/
theorem ne_empty_of_hasHttpScheme (url : String) (h : hasHttpScheme url = true) : url ≠ "" := by
  intro he
  subst he
  exact absurd h (by decide)

/-- A field whose trimmed value starts with `http://` or `https://` passes the
required-field test. -/
theorem not_missing_of_hasHttpScheme (value : String)
    (h : hasHttpScheme (jsTrim value) = true) : (FormValue.text value).missing = false := by
  have htrim : jsTrim value ≠ "" := ne_empty_of_hasHttpScheme _ h
  have hvalue : value ≠ "" := by
    intro he
    subst he
    exact htrim (by decide)
  simp [FormValue.missing, truthy, htrim, hvalue]

/-- The labels the required-field loop of the grant form collects, entry by entry. -/
theorem grantMissingFields_eq (gf : GrantForm) (url : String) (pd : Option ProjectData) :
    grantMissingFields (grantFormData gf url pd) =
      (([("Member selection", (FormValue.text gf.memberSelect).missing),
         ("Project name",
           (match pd with
            | some d => (match d.name with | some n => FormValue.text n | none => .undefined)
            | none => .text (orElseOpt gf.projectText "")).missing),
         ("First name", (FormValue.text gf.firstName).missing),
         ("Last name", (FormValue.text gf.lastName).missing),
         ("Email address", (FormValue.text gf.email).missing),
         ("Birthday", (FormValue.text gf.birthday).missing),
         ("Project description", (FormValue.text gf.description).missing),
         ("GitHub URL", (FormValue.text gf.githubUrl).missing),
         ("Live URL", (FormValue.text gf.liveUrl).missing),
         ("What you learned", (FormValue.text gf.learning).missing),
         ("What we are doing well", (FormValue.text gf.doingWell).missing),
         ("How we can improve", (FormValue.text gf.improve).missing),
         ("Address line 1", (FormValue.text gf.address1).missing),
         ("City", (FormValue.text gf.city).missing),
         ("State/Province", (FormValue.text gf.state).missing),
         ("ZIP/Postal code", (FormValue.text gf.zip).missing),
         ("Country", (FormValue.text gf.country).missing)] : List (String × Bool)).filter
        (fun x => x.2)).map (fun x => x.1) := by
  unfold grantMissingFields
  rw [filterMap_eq_filter_pairs
    (fun x : String × String =>
      (((grantFormData gf url pd).lookup x.1).getD .undefined).missing)
    (fun x => x.2) grantRequiredFields]
  rfl

/-- C29.  In `submitGrantWithScreenshot`, for every content of the form: whenever the
notification titled `Missing Fields` is shown, both URLs, trimmed, start with `http://`
or `https://`, the text of the notification is `Please fill in: ` followed by the
collected labels, and neither `GitHub URL` nor `Live URL` is among them.  A GitHub URL
that is blank is reported by the GitHub URL-prefix error, and a live URL that is blank
by one of the two URL-prefix errors. -/
theorem grant_missing_fields_never_urls (g : Globals) (f : GrantForm)
    (screenshotUrl : String) (projectData : Option ProjectData) (originalText : String) :
    (∀ message,
      (submitGrantWithScreenshot g f screenshotUrl projectData originalText).2 =
        [showToast "error" message "Missing Fields"] →
      hasHttpScheme (jsTrim f.githubUrl) = true ∧ hasHttpScheme (jsTrim f.liveUrl) = true ∧
      message = "Please fill in: " ++
        ", ".intercalate (grantMissingFields (grantFormData f screenshotUrl projectData)) ∧
      "GitHub URL" ∉ grantMissingFields (grantFormData f screenshotUrl projectData) ∧
      "Live URL" ∉ grantMissingFields (grantFormData f screenshotUrl projectData)) ∧
    (jsTrim f.githubUrl = "" →
      (submitGrantWithScreenshot g f screenshotUrl projectData originalText).2 =
        [showToast "error" "GitHub URL must start with http:// or https://"
          "Validation Error"]) ∧
    (jsTrim f.liveUrl = "" →
      (submitGrantWithScreenshot g f screenshotUrl projectData originalText).2 =
          [showToast "error" "GitHub URL must start with http:// or https://"
            "Validation Error"] ∨
        (submitGrantWithScreenshot g f screenshotUrl projectData originalText).2 =
          [showToast "error" "Live URL must start with http:// or https://"
            "Validation Error"]) := by
  have hblank : hasHttpScheme "" = false := by decide
  refine ⟨?_, ?_, ?_⟩
  · intro message hshown
    cases hg : hasHttpScheme (jsTrim f.githubUrl) with
    | false => simp [submitGrantWithScreenshot, hg, showToast] at hshown
    | true =>
      cases hl : hasHttpScheme (jsTrim f.liveUrl) with
      | false => simp [submitGrantWithScreenshot, hg, hl, showToast] at hshown
      | true =>
        cases hm : f.inPersonMeeting with
        | false => simp [submitGrantWithScreenshot, hg, hl, hm, showToast] at hshown
        | true =>
          have hgm := not_missing_of_hasHttpScheme _ hg
          have hlm := not_missing_of_hasHttpScheme _ hl
          refine ⟨rfl, rfl, ?_, ?_, ?_⟩
          · by_cases hlen :
                (grantMissingFields (grantFormData f screenshotUrl projectData)).length > 0
            · simp [submitGrantWithScreenshot, hg, hl, hm, hlen, showToast] at hshown
              exact hshown.symm
            · simp [submitGrantWithScreenshot, hg, hl, hm, hlen, showToast] at hshown
          · rw [grantMissingFields_eq]
            simp [hgm]
          · rw [grantMissingFields_eq]
            simp [hlm]
  · intro hg
    simp [submitGrantWithScreenshot, hg, hblank]
  · intro hl
    cases hg : hasHttpScheme (jsTrim f.githubUrl) with
    | false =>
      left
      simp [submitGrantWithScreenshot, hg]
    | true =>
      right
      simp [submitGrantWithScreenshot, hg, hl, hblank]

/-- C29 (witness): a form whose city is one space gets the notification
`Please fill in: City`; a form with an empty GitHub URL gets the GitHub URL-prefix
error, and one whose live URL is one space the live URL-prefix error. -/
theorem grant_missing_fields_never_urls_witness :
    (submitGrantWithScreenshot sampleGlobals blankCityGrant "https://cdn.example.org/s.png"
        (some { name := some "chess-bot", hours := "3.50" }) "Submit").2 =
      [showToast "error" "Please fill in: City" "Missing Fields"] ∧
    "GitHub URL" ∉ grantMissingFields (grantFormData blankCityGrant
      "https://cdn.example.org/s.png" (some { name := some "chess-bot", hours := "3.50" })) ∧
    jsTrim (sampleGrant "").githubUrl = "" ∧
    (submitGrantWithScreenshot sampleGlobals (sampleGrant "") "https://cdn.example.org/s.png"
        (some { name := some "chess-bot", hours := "3.50" }) "Submit").2 =
      [showToast "error" "GitHub URL must start with http:// or https://"
        "Validation Error"] ∧
    jsTrim blankLiveUrlGrant.liveUrl = "" ∧
    (submitGrantWithScreenshot sampleGlobals blankLiveUrlGrant "https://cdn.example.org/s.png"
        (some { name := some "chess-bot", hours := "3.50" }) "Submit").2 =
      [showToast "error" "Live URL must start with http:// or https://"
        "Validation Error"] := by
  have hshown : (submitGrantWithScreenshot sampleGlobals blankCityGrant
      "https://cdn.example.org/s.png" (some { name := some "chess-bot", hours := "3.50" })
      "Submit").2 = [showToast "error" "Please fill in: City" "Missing Fields"] := by
    rfl
  have key := grant_missing_fields_never_urls sampleGlobals blankCityGrant
    "https://cdn.example.org/s.png" (some { name := some "chess-bot", hours := "3.50" })
    "Submit"
  have key2 := grant_missing_fields_never_urls sampleGlobals (sampleGrant "")
    "https://cdn.example.org/s.png" (some { name := some "chess-bot", hours := "3.50" })
    "Submit"
  exact ⟨hshown, (key.1 _ hshown).2.2.2.1, by decide, key2.2.1 (by decide), by decide, rfl⟩

/-! ## Properties of the leadership transfer -/

/-- C30 (as stated, refuted).  With no member selected, `initiateLeadershipTransfer`
shows its validation error and returns: the confirmation input keeps the text
`TRANSFER` typed earlier and the confirm button stays enabled. -/
theorem initiateLeadershipTransfer_no_reset :
    initiateLeadershipTransfer sampleHost firstCharacter noMemberTransferPage =
      some (noMemberTransferPage,
        [showToast "error" "Please select a member to transfer leadership to"
          "Validation Error"]) ∧
    noMemberTransferPage.confirmationInput = "TRANSFER" ∧
    noMemberTransferPage.confirmDisabled = false := by
  exact ⟨rfl, rfl, rfl⟩

/-- C30 (amended).  For every text typed in the confirmation input, the confirm button
is enabled exactly when the text, trimmed and upper-cased, equals `TRANSFER`.  With no
member selected, `initiateLeadershipTransfer` shows a validation error and changes
nothing: input, button and modal stay as they are.  With a member selected whose option
text carries a bracketed e-mail, it empties the input, disables the button and opens
the modal, with no notification.  Whenever it changes the display of the modal, a
member is selected. -/
theorem transfer_confirmation (h : Host) (charAt0 : String → String) (p : TransferPage)
    (text : String) :
    ((typeConfirmation h p text).confirmDisabled = false ↔
      h.toUpperCase (jsTrim text) = "TRANSFER") ∧
    (typeConfirmation h p text).confirmationInput = text ∧
    (truthy p.selectedValue = false →
      initiateLeadershipTransfer h charAt0 p =
        some (p, [showToast "error" "Please select a member to transfer leadership to"
          "Validation Error"])) ∧
    (truthy p.selectedValue = true →
      ∀ email, matchParenthesised p.selectedText.data = some email →
        ∃ q, initiateLeadershipTransfer h charAt0 p = some (q, []) ∧
          q.confirmationInput = "" ∧ q.confirmDisabled = true ∧ q.modalDisplay = "block" ∧
          q.newLeaderEmail = ⟨email⟩) ∧
    (∀ q effects, initiateLeadershipTransfer h charAt0 p = some (q, effects) →
      q.modalDisplay ≠ p.modalDisplay → truthy p.selectedValue = true) := by
  refine ⟨?_, rfl, ?_, ?_, ?_⟩
  · simp [typeConfirmation, transferInputListener]
  · intro hsel
    simp [initiateLeadershipTransfer, hsel]
  · intro hsel email hmatch
    refine ⟨_, by simp only [initiateLeadershipTransfer, hsel, hmatch]; rfl, rfl, rfl, rfl, rfl⟩
  · intro q effects hrun hchanged
    cases hsel : truthy p.selectedValue with
    | true => rfl
    | false =>
      exfalso
      apply hchanged
      simp [initiateLeadershipTransfer, hsel] at hrun
      rw [← hrun.1]

/-- C30 (witness): with an upper-casing host, ` transfer ` enables the button and
`TRANSFE` does not; with no member selected nothing changes; with
`Ada Byron (ada@club.org)` selected the modal opens for her with an empty input and a
disabled button. -/
theorem transfer_confirmation_witness :
    (typeConfirmation upperCaseHost sampleTransferPage " transfer ").confirmDisabled = false ∧
    (typeConfirmation upperCaseHost sampleTransferPage "TRANSFE").confirmDisabled = true ∧
    truthy noMemberTransferPage.selectedValue = false ∧
    truthy sampleTransferPage.selectedValue = true ∧
    initiateLeadershipTransfer upperCaseHost firstCharacter sampleTransferPage =
      some ({ sampleTransferPage with
              newLeaderName := "Ada Byron"
              newLeaderEmail := "ada@club.org"
              newLeaderAvatar := "A"
              confirmationInput := ""
              confirmDisabled := true
              modalDisplay := "block" }, []) := by
  have key := transfer_confirmation upperCaseHost firstCharacter sampleTransferPage
    " transfer "
  have key2 := transfer_confirmation upperCaseHost firstCharacter sampleTransferPage "TRANSFE"
  have hmatch : matchParenthesised sampleTransferPage.selectedText.data =
      some "ada@club.org".data := by decide
  obtain ⟨q, hq, _⟩ := key.2.2.2.1 (by decide) _ hmatch
  refine ⟨key.1.2 (by decide), ?_, by decide, by decide, ?_⟩
  · cases hd :
        (typeConfirmation upperCaseHost sampleTransferPage "TRANSFE").confirmDisabled with
    | true => rfl
    | false => exact absurd (key2.1.1 hd) (by decide)
  · rw [hq]
    have hq2 : initiateLeadershipTransfer upperCaseHost firstCharacter sampleTransferPage =
        some ({ sampleTransferPage with
                newLeaderName := "Ada Byron"
                newLeaderEmail := "ada@club.org"
                newLeaderAvatar := "A"
                confirmationInput := ""
                confirmDisabled := true
                modalDisplay := "block" }, []) := by
      rfl
    rw [← hq, hq2]

/-! ## Properties of the meetings count -/

/-- A date read from a text has a month from 1 to 12 and a day from 1 on. -/
theorem parseDateOnly_range (text : String) (date : CivilDate)
    (hparse : parseDateOnly text = some date) :
    1 ≤ date.month ∧ date.month ≤ 12 ∧ 1 ≤ date.day := by
  unfold parseDateOnly at hparse
  split at hparse
  · split at hparse
    · split at hparse
      · split at hparse
        · rename_i hrange
          cases hparse
          exact ⟨hrange.1, hrange.2.1, hrange.2.2.1⟩
        · cases hparse
      · cases hparse
    · cases hparse
  · cases hparse

/-- In a browser that is not behind UTC the local month and year of a date-only text are
the ones it writes. -/
theorem dateGet_not_behind (h : Host) (text : String) (date : CivilDate)
    (hparse : parseDateOnly text = some date) (hzone : h.timezoneOffset date ≤ 0) :
    dateGetMonth h text = some (date.month - 1) ∧
    dateGetFullYear h text = some date.year := by
  have hnot : ¬ h.timezoneOffset date > 0 := by omega
  simp [dateGetMonth, dateGetFullYear, hparse, localDate, hnot]

/-- In a browser behind UTC the local date of a text that writes the first day of a month
is the last day of the month before: the month is the one before, and for a first of
January the year is the one before as well. -/
theorem dateGet_first_day_behind (h : Host) (text : String) (date : CivilDate)
    (hparse : parseDateOnly text = some date) (hzone : 0 < h.timezoneOffset date)
    (hday : date.day = 1) :
    dateGetMonth h text = some (if date.month > 1 then date.month - 2 else 11) ∧
    dateGetFullYear h text = some (if date.month > 1 then date.year else date.year - 1) := by
  have hnot : ¬ date.day > 1 := by omega
  by_cases hm : date.month > 1
  · simp [dateGetMonth, dateGetFullYear, hparse, localDate, hzone, previousDay, hnot, hm]
    omega
  · simp [dateGetMonth, dateGetFullYear, hparse, localDate, hzone, previousDay, hnot, hm]

/-- In a browser that is not behind UTC, the filter of `loadMeetings` keeps exactly the
meetings whose date writes the month and the year of the current date, for meetings
whose date is of the date-only form. -/
theorem inThisMonth_not_behind (h : Host) (m : Meeting) (date : CivilDate)
    (hparse : parseDateOnly m.meeting_date = some date) (hzone : h.timezoneOffset date ≤ 0) :
    inThisMonth h m = writtenInThisMonth h m := by
  have hrange := parseDateOnly_range _ _ hparse
  have hget := dateGet_not_behind h _ _ hparse hzone
  unfold inThisMonth writtenInThisMonth
  rw [hget.1, hget.2, hparse]
  rw [Bool.eq_iff_iff]
  simp only [Bool.and_eq_true, beq_iff_eq, Option.some.injEq]
  omega

/-- In a browser that is not behind UTC, for a non-empty collection of meetings whose
dates are of the date-only form, the badge is the number of meetings whose date writes
the month and the year of the current date. -/
theorem meetings_badge_not_behind (h : Host) (g : Globals) (prior : List Node)
    (count : String) (status : Nat) (meeting : Meeting) (meetings : List Meeting)
    (hdates : ∀ m ∈ meeting :: meetings,
      ∃ date, parseDateOnly m.meeting_date = some date ∧ h.timezoneOffset date ≤ 0) :
    (loadMeetingsResponse h g prior count
      (.response status (some (meeting :: meetings)))).2.1 =
      toString ((meeting :: meetings).filter (writtenInThisMonth h)).length := by
  have hfilter : (meeting :: meetings).filter (inThisMonth h) =
      (meeting :: meetings).filter (writtenInThisMonth h) := by
    apply List.filter_congr
    intro m hm
    obtain ⟨date, hparse, hzone⟩ := hdates m hm
    exact inThisMonth_not_behind h m date hparse hzone
  simp only [loadMeetingsResponse, Option.getD_some, List.length_cons]
  rw [hfilter]
  simp

/-- C9 (failing input).  In a browser five hours behind UTC, in November 2026, the answer
holds one meeting dated `2026-11-01`: its date has the month and the year of the current
date, and the badge reads `0`.  For one meeting dated `2026-12-01`, which is not in the
current month, the badge reads `1`.  On UTC the two badges read `1` and `0`. -/
theorem meetings_badge_misses_first_of_month :
    westernHost.thisMonth = 10 ∧ westernHost.thisYear = 2026 ∧
    parseDateOnly "2026-11-01" = some { year := 2026, month := 11, day := 1 } ∧
    writtenInThisMonth westernHost (meetingOn "2026-11-01") = true ∧
    (loadMeetingsResponse westernHost sampleGlobals [] ""
      (.response 200 (some [meetingOn "2026-11-01"]))).2.1 = "0" ∧
    writtenInThisMonth westernHost (meetingOn "2026-12-01") = false ∧
    (loadMeetingsResponse westernHost sampleGlobals [] ""
      (.response 200 (some [meetingOn "2026-12-01"]))).2.1 = "1" ∧
    (loadMeetingsResponse sampleHost sampleGlobals [] ""
      (.response 200 (some [meetingOn "2026-11-01"]))).2.1 = "1" ∧
    (loadMeetingsResponse sampleHost sampleGlobals [] ""
      (.response 200 (some [meetingOn "2026-12-01"]))).2.1 = "0" := by
  refine ⟨rfl, rfl, ?_, ?_, ?_, ?_, ?_, ?_, ?_⟩ <;> decide

end Dash
